import Mathlib

/-! Sample bit-depth rescaling and NCLX profile construction of `file-heif.c`.

A shallow embedding of the numeric core of `src/file-heif.c`:

* the per-sample conversions in the `switch (bit_depth)` of `load_image` and in the
  `switch (save_bit_depth)` of `save_image`, together with the row loops around them;
* `nclx_to_gimp_profile`.

The conversions are written in C with `float` operands only (`(float)` casts and
`f`-suffixed constants), so on targets that evaluate `float` expressions in `float`
(`FLT_EVAL_METHOD == 0`, the x86-64 and AArch64 ABIs) every operation is an IEEE-754 binary32
operation rounded to nearest, ties to even.  Binary32 values are modelled exactly, as dyadic
rationals, and each operation is the correctly rounded exact result.
-/

namespace FileHeif

/-! ## Binary32 arithmetic on finite non-negative values -/

/-- Finite non-negative binary32 value `mant * 2 ^ expo / 2 ^ 149`.  The unit `2 ^ -149` is the
smallest positive subnormal, so every finite non-negative binary32 number has this form. -/
structure F32 where
  mant : Nat
  expo : Nat
deriving DecidableEq

/-- Numerator of the value over the fixed denominator `2 ^ 149`. -/
def F32.num (a : F32) : Nat := a.mant * 2 ^ a.expo

/-- Quotient `N / D` rounded to the nearest integer, ties to the even integer. -/
def rneDiv (N D : Nat) : Nat :=
  if D < 2 * (N % D) ∨ (2 * (N % D) = D ∧ (N / D) % 2 = 1) then N / D + 1 else N / D

/-- Binary32 rounding (to nearest, ties to even) of the non-negative rational `n / d`.
With `L = ⌊log2 (n / d)⌋ + 126` (and `L = 0` in the subnormal range) the spacing of binary32
numbers around `n / d` is `2 ^ (L - 149)`, and the result is the nearest multiple of it.
Overflow to infinity (values of `2 ^ 128` and more) is outside the model. -/
def F32.round (n d : Nat) : F32 :=
  let L := Nat.log2 (n * 2 ^ 126 / d)
  ⟨rneDiv (n * 2 ^ (149 - L)) (d * 2 ^ (L - 149)), L⟩

/-- Conversion `(float) n` of a non-negative integer, and `float` constants such as `1023.0f`. -/
def F32.ofNat (n : Nat) : F32 := F32.round n 1

/-- The constant `0.5f`. -/
def F32.half : F32 := F32.round 1 2

/-- Binary32 division `a / b`. -/
def F32.div (a b : F32) : F32 := F32.round a.num b.num

/-- Binary32 multiplication `a * b`. -/
def F32.mul (a b : F32) : F32 := F32.round (a.num * b.num) (2 ^ 149 * 2 ^ 149)

/-- Binary32 addition `a + b`. -/
def F32.add (a b : F32) : F32 := F32.round (a.num + b.num) (2 ^ 149)

/-- Conversion `(int) a`: truncation toward zero. -/
def F32.toInt (a : F32) : Int := Int.ofNat (a.num / 2 ^ 149)

/-! ## Per-sample conversions of `load_image` and `save_image` -/

/-- GLib `CLAMP (x, low, high)`: `((x) > (high)) ? (high) : (((x) < (low)) ? (low) : (x))`. -/
def CLAMP (x low high : Int) : Int :=
  if x > high then high else if x < low then low else x

/-- Store of an `int` into a `uint16_t` object. -/
def toUint16 (x : Int) : Nat := (x % 65536).toNat

/-- Value of `tmp_pixelval` in the import loops of `load_image`:
`(int) (((float) (mask & (*src16)) / maxval) * 65535.0f + 0.5f)`,
with `mask = 0x03ff, maxval = 1023.0f` in `case 10` and `mask = 0x0fff, maxval = 4095.0f`
in `case 12`. -/
def load_tmp_pixelval (mask maxval src16 : Nat) : Int :=
  F32.toInt (F32.add
    (F32.mul (F32.div (F32.ofNat (mask &&& src16)) (F32.ofNat maxval)) (F32.ofNat 65535))
    F32.half)

/-- Body of the `case 10` loop of `load_image`: the word stored to `*dest16`. -/
def load_pixel_10 (src16 : Nat) : Nat :=
  toUint16 (CLAMP (load_tmp_pixelval 0x03ff 1023 src16) 0 65535)

/-- Body of the `case 12` loop of `load_image`: the word stored to `*dest16`. -/
def load_pixel_12 (src16 : Nat) : Nat :=
  toUint16 (CLAMP (load_tmp_pixelval 0x0fff 4095 src16) 0 65535)

/-- The `switch (bit_depth)` of the high-bit-depth branch of `load_image`, per sample:
rescaling for 10 and 12, plain copy in the `default` branch. -/
def load_convert (bit_depth : Nat) (src16 : Nat) : Nat :=
  if bit_depth = 10 then load_pixel_10 src16
  else if bit_depth = 12 then load_pixel_12 src16
  else src16

/-- Value of `tmp_pixelval` in the export loops of `save_image`:
`(int) (((float) (*src16) / 65535.0f) * maxval + 0.5f)`,
with `maxval = 1023.0f` in `case 10` and `4095.0f` in `case 12`. -/
def save_tmp_pixelval (maxval src16 : Nat) : Int :=
  F32.toInt (F32.add
    (F32.mul (F32.div (F32.ofNat src16) (F32.ofNat 65535)) (F32.ofNat maxval))
    F32.half)

/-- Body of the `case 10` loop of `save_image`: the word stored to `*dest16`. -/
def save_pixel_10 (src16 : Nat) : Nat :=
  toUint16 (CLAMP (save_tmp_pixelval 1023 src16) 0 1023)

/-- Body of the `case 12` loop of `save_image`: the word stored to `*dest16`. -/
def save_pixel_12 (src16 : Nat) : Nat :=
  toUint16 (CLAMP (save_tmp_pixelval 4095 src16) 0 4095)

/-- The `switch (save_bit_depth)` of the high-bit-depth branch of `save_image`, per sample. -/
def save_convert (save_bit_depth : Nat) (src16 : Nat) : Nat :=
  if save_bit_depth = 10 then save_pixel_10 src16
  else if save_bit_depth = 12 then save_pixel_12 src16
  else src16


/-! ## Row loops of the high-bit-depth branch of `load_image` -/

/-- The `uint16_t` object at byte offset `addr` of the plane returned by
`heif_image_get_plane_readonly`. -/
def read_u16 (plane : Nat → Nat) (addr : Nat) : Nat := plane addr % 65536

/-- Inner loop `for (x = 0; x < rowentries; x++)`: `n` remaining iterations with the read
pointer at byte offset `src16`; each iteration stores one word through `dest16` and advances
both pointers by one `uint16_t`.  The result lists the stored words in store order. -/
def load_row (conv : Nat → Nat) (plane : Nat → Nat) : Nat → Nat → List Nat
  | _, 0 => []
  | src16, n + 1 => conv (read_u16 plane src16) :: load_row conv plane (src16 + 2) n

/-- Outer loop `for (y = 0; y < height; y++)`: `n` remaining rows starting at row `y`; each row
starts reading at `y * stride + data` and `dest16` keeps advancing through `data16`. -/
def load_rows (conv : Nat → Nat) (plane : Nat → Nat) (stride rowentries : Nat) :
    Nat → Nat → List Nat
  | _, 0 => []
  | y, n + 1 =>
    load_row conv plane (y * stride) rowentries ++ load_rows conv plane stride rowentries (y + 1) n

/-- Contents of `data16` after the `switch (bit_depth)` of the high-bit-depth branch of
`load_image`. -/
def load_high_depth (bit_depth : Nat) (plane : Nat → Nat) (stride width height : Nat)
    (has_alpha : Bool) : List Nat :=
  let rowentries := if has_alpha then width * 4 else width * 3
  load_rows (load_convert bit_depth) plane stride rowentries 0 height

/-! ## `nclx_to_gimp_profile` -/

/-- Modelled from the spec: enumerator `heif_color_primaries_ITU_R_BT_709_5` of libheif
(declared in `heif.h`, not part of this repository). -/
def heif_color_primaries_ITU_R_BT_709_5 : Nat := 1
/-- Modelled from the spec: enumerator `heif_color_primaries_unspecified` of libheif. -/
def heif_color_primaries_unspecified : Nat := 2
/-- Modelled from the spec: enumerator `heif_color_primaries_ITU_R_BT_470_6_System_M`. -/
def heif_color_primaries_ITU_R_BT_470_6_System_M : Nat := 4
/-- Modelled from the spec: enumerator `heif_color_primaries_ITU_R_BT_470_6_System_B_G`. -/
def heif_color_primaries_ITU_R_BT_470_6_System_B_G : Nat := 5
/-- Modelled from the spec: enumerator `heif_color_primaries_ITU_R_BT_601_6` of libheif. -/
def heif_color_primaries_ITU_R_BT_601_6 : Nat := 6
/-- Modelled from the spec: enumerator `heif_color_primaries_SMPTE_240M` of libheif. -/
def heif_color_primaries_SMPTE_240M : Nat := 7

/-- Modelled from the spec: enumerator `heif_transfer_characteristic_ITU_R_BT_709_5`. -/
def heif_transfer_characteristic_ITU_R_BT_709_5 : Nat := 1
/-- Modelled from the spec: enumerator `heif_transfer_characteristic_ITU_R_BT_470_6_System_M`. -/
def heif_transfer_characteristic_ITU_R_BT_470_6_System_M : Nat := 4
/-- Modelled from the spec: enumerator
`heif_transfer_characteristic_ITU_R_BT_470_6_System_B_G`. -/
def heif_transfer_characteristic_ITU_R_BT_470_6_System_B_G : Nat := 5
/-- Modelled from the spec: enumerator `heif_transfer_characteristic_linear` of libheif. -/
def heif_transfer_characteristic_linear : Nat := 8
/-- Modelled from the spec: enumerator `heif_transfer_characteristic_IEC_61966_2_1`. -/
def heif_transfer_characteristic_IEC_61966_2_1 : Nat := 13

/-- The fields of `struct heif_color_profile_nclx` that the plug-in reads or writes.  The
chromaticity coordinates are `float` objects; a finite `float` is a rational number. -/
structure heif_color_profile_nclx where
  color_primaries : Nat
  transfer_characteristics : Nat
  matrix_coefficients : Nat
  full_range_flag : Nat
  color_primary_red_x : ℚ
  color_primary_red_y : ℚ
  color_primary_green_x : ℚ
  color_primary_green_y : ℚ
  color_primary_blue_x : ℚ
  color_primary_blue_y : ℚ
  color_primary_white_x : ℚ
  color_primary_white_y : ℚ
deriving DecidableEq

/-- The lcms2 type `cmsCIExyY`. -/
structure cmsCIExyY where
  x : ℚ
  y : ℚ
  Y : ℚ
deriving DecidableEq

/-- The lcms2 type `cmsCIExyYTRIPLE`. -/
structure cmsCIExyYTRIPLE where
  Red : cmsCIExyY
  Green : cmsCIExyY
  Blue : cmsCIExyY
deriving DecidableEq

/-- A tone curve as requested from lcms2: `cmsBuildParametricToneCurve (NULL, type, params)`
or `cmsBuildGamma (NULL, gamma)`.  Floating constants are modelled by the exact value of
the source expression. -/
inductive cmsToneCurve where
  | parametric (type : Int) (params : List ℚ)
  | gamma (g : ℚ)
deriving DecidableEq

/-- An lcms2 RGB profile as assembled by the plug-in: the arguments of `cmsCreateRGBProfile`
and the four text tags written by `heifplugin_color_profile_set_tag`. -/
structure cmsProfile where
  whitepoint : cmsCIExyY
  primaries : cmsCIExyYTRIPLE
  curve0 : cmsToneCurve
  curve1 : cmsToneCurve
  curve2 : cmsToneCurve
  description : String
  manufacturer : String
  model : String
  copyright : String
deriving DecidableEq

/-- The `GimpColorProfile` objects `nclx_to_gimp_profile` can return: the two built-in
profiles, or a profile made from an lcms2 profile. -/
inductive GimpColorProfile where
  | rgb_srgb
  | rgb_srgb_linear
  | from_lcms (profile : cmsProfile)
deriving DecidableEq

/-- Outcome of the two library calls that can fail: whether `cmsCreateRGBProfile` returns a
profile for its arguments, and whether `gimp_color_profile_new_from_lcms_profile` does. -/
structure ColorLib where
  cmsCreateRGBProfile_ok : cmsCIExyY → cmsCIExyYTRIPLE → cmsToneCurve → Bool
  gimp_color_profile_new_from_lcms_profile_ok : cmsProfile → Bool

/-- The array `srgb_parameters`. -/
def srgb_parameters : List ℚ := [2.4, 1.0 / 1.055, 0.055 / 1.055, 1.0 / 12.92, 0.04045]

/-- The array `rec709_parameters`. -/
def rec709_parameters : List ℚ := [2.2, 1.0 / 1.099, 0.099 / 1.099, 1.0 / 4.5, 0.081]

/-- The `switch (nclx->color_primaries)`: the primaries name, or `none` in the `default`
branch, which warns and returns `NULL`. -/
def primaries_name_of (color_primaries : Nat) : Option String :=
  if color_primaries = heif_color_primaries_ITU_R_BT_709_5 then some "BT.709"
  else if color_primaries = heif_color_primaries_ITU_R_BT_470_6_System_M then
    some "BT.470-6 System M"
  else if color_primaries = heif_color_primaries_ITU_R_BT_470_6_System_B_G then
    some "BT.470-6 System BG"
  else if color_primaries = heif_color_primaries_ITU_R_BT_601_6 then some "BT.601"
  else if color_primaries = heif_color_primaries_SMPTE_240M then some "SMPTE 240M"
  else if color_primaries = 8 then some "Generic film"
  else if color_primaries = 9 then some "BT.2020"
  else if color_primaries = 10 then some "XYZ"
  else if color_primaries = 11 then some "SMPTE RP 431-2"
  else if color_primaries = 12 then some "SMPTE EG 432-1 (DCI P3)"
  else if color_primaries = 22 then some "EBU Tech. 3213-E"
  else none

/-- The `switch (nclx->transfer_characteristics)`: the tone curve used for all three
channels, and `trc_name`. -/
def trc_of (transfer_characteristics : Nat) : cmsToneCurve × String :=
  if transfer_characteristics = heif_transfer_characteristic_ITU_R_BT_709_5 then
    (cmsToneCurve.parametric 4 rec709_parameters, "Rec709 RGB")
  else if transfer_characteristics = heif_transfer_characteristic_ITU_R_BT_470_6_System_M then
    (cmsToneCurve.gamma 2.2, "Gamma2.2 RGB")
  else if transfer_characteristics = heif_transfer_characteristic_ITU_R_BT_470_6_System_B_G then
    (cmsToneCurve.gamma 2.8, "Gamma2.8 RGB")
  else if transfer_characteristics = heif_transfer_characteristic_linear then
    (cmsToneCurve.gamma 1.0, "linear RGB")
  else
    (cmsToneCurve.parametric 4 srgb_parameters, "sRGB-TRC RGB")

/-- The function `nclx_to_gimp_profile`; `none` is a `NULL` argument or result. -/
def nclx_to_gimp_profile (lib : ColorLib) (nclx : Option heif_color_profile_nclx) :
    Option GimpColorProfile :=
  match nclx with
  | none => none
  | some nclx =>
    if nclx.color_primaries = heif_color_primaries_unspecified then none
    else if nclx.color_primaries = heif_color_primaries_ITU_R_BT_709_5 ∧
        nclx.transfer_characteristics = heif_transfer_characteristic_IEC_61966_2_1 then
      some GimpColorProfile.rgb_srgb
    else if nclx.color_primaries = heif_color_primaries_ITU_R_BT_709_5 ∧
        nclx.transfer_characteristics = heif_transfer_characteristic_linear then
      some GimpColorProfile.rgb_srgb_linear
    else
      let whitepoint : cmsCIExyY :=
        ⟨nclx.color_primary_white_x, nclx.color_primary_white_y, 1⟩
      let primaries : cmsCIExyYTRIPLE :=
        ⟨⟨nclx.color_primary_red_x, nclx.color_primary_red_y, 1⟩,
         ⟨nclx.color_primary_green_x, nclx.color_primary_green_y, 1⟩,
         ⟨nclx.color_primary_blue_x, nclx.color_primary_blue_y, 1⟩⟩
      match primaries_name_of nclx.color_primaries with
      | none => none
      | some primaries_name =>
        let curve := (trc_of nclx.transfer_characteristics).1
        let trc_name := (trc_of nclx.transfer_characteristics).2
        if lib.cmsCreateRGBProfile_ok whitepoint primaries curve then
          let description := primaries_name ++ " " ++ trc_name
          let profile : cmsProfile :=
            ⟨whitepoint, primaries, curve, curve, curve,
             description, "GIMP", description, "Public Domain"⟩
          if lib.gimp_color_profile_new_from_lcms_profile_ok profile then
            some (GimpColorProfile.from_lcms profile)
          else none
        else none

/-- The lcms2 profile `nclx_to_gimp_profile` assembles once `primaries_name` is known: the
arguments it passes to `cmsCreateRGBProfile` and the four tags it writes. -/
def nclx_lcms_profile (nclx : heif_color_profile_nclx) (primaries_name : String) : cmsProfile :=
  ⟨⟨nclx.color_primary_white_x, nclx.color_primary_white_y, 1⟩,
   ⟨⟨nclx.color_primary_red_x, nclx.color_primary_red_y, 1⟩,
    ⟨nclx.color_primary_green_x, nclx.color_primary_green_y, 1⟩,
    ⟨nclx.color_primary_blue_x, nclx.color_primary_blue_y, 1⟩⟩,
   (trc_of nclx.transfer_characteristics).1,
   (trc_of nclx.transfer_characteristics).1,
   (trc_of nclx.transfer_characteristics).1,
   primaries_name ++ " " ++ (trc_of nclx.transfer_characteristics).2,
   "GIMP",
   primaries_name ++ " " ++ (trc_of nclx.transfer_characteristics).2,
   "Public Domain"⟩

/-- The three tone curves of a returned profile, when it was made through lcms2. -/
def GimpColorProfile.curves : GimpColorProfile → Option (cmsToneCurve × cmsToneCurve × cmsToneCurve)
  | GimpColorProfile.from_lcms p => some (p.curve0, p.curve1, p.curve2)
  | _ => none

/-- The white point and primaries of a returned profile, when it was made through lcms2. -/
def GimpColorProfile.chromaticities : GimpColorProfile → Option (cmsCIExyY × cmsCIExyYTRIPLE)
  | GimpColorProfile.from_lcms p => some (p.whitepoint, p.primaries)
  | _ => none

/-! ## Bit depth handling of `load_image` -/

/-- The `uint8_t` object at byte offset `addr` of the plane returned by
`heif_image_get_plane_readonly`. -/
def read_u8 (plane : Nat → Nat) (addr : Nat) : Nat := plane addr % 256

/-- The call `gegl_buffer_set (buffer, rect, 0, format, data, stride)` of the 8-bit branch:
the bytes GEGL takes from `data`, `width` pixels of 3 or 4 bytes from each of the `height`
rows that start `stride` bytes apart. -/
def load_low_depth (plane : Nat → Nat) (stride width height : Nat) (has_alpha : Bool) :
    List Nat :=
  (List.range height).flatMap (fun y =>
    (List.range (if has_alpha then width * 4 else width * 3)).map
      (fun x => read_u8 plane (y * stride + x)))

/-- The part of `load_image` that depends on the bit depth: the check of
`heif_image_handle_get_luma_bits_per_pixel`, the outcome of `heif_decode_image`
(`decode_error` is the message of a non-zero `err.code`) and the samples handed to
`gegl_buffer_set`.  `Except.error` is a `NULL` return with the given error message. -/
def load_image_samples (bit_depth : Int) (has_alpha : Bool) (decode_error : Option String)
    (plane8 plane16 : Nat → Nat) (stride width height : Nat) : Except String (List Nat) :=
  if bit_depth < 0 then Except.error "Input image has undefined bit-depth"
  else
    match decode_error with
    | some message => Except.error ("Loading HEIF image failed: " ++ message)
    | none =>
      if bit_depth = 8 then Except.ok (load_low_depth plane8 stride width height has_alpha)
      else Except.ok (load_high_depth bit_depth.toNat plane16 stride width height has_alpha)

/-! ## Bit depth handling of `save_image` -/

/-- Modelled from the spec: the interleaved chroma formats of libheif's `enum heif_chroma`
that the plug-in requests (declared in `heif.h`, not part of this repository). -/
inductive heif_chroma where
  | interleaved_RGB
  | interleaved_RGBA
  | interleaved_RRGGBB_BE
  | interleaved_RRGGBBAA_BE
  | interleaved_RRGGBB_LE
  | interleaved_RRGGBBAA_LE
deriving DecidableEq

/-- Library calls made by the beginning of `save_image`, in call order. -/
inductive SaveCall where
  | heif_image_create (chroma : heif_chroma)
  | heif_context_free
deriving DecidableEq

/-- Outcome of `save_image` up to and including the check of `err.code` after the
`switch (save_bit_depth)`: either it has returned `FALSE` with an error message, or the
image `h_image` exists and execution goes on.  Both carry the library calls made. -/
inductive SaveStart where
  | returned_false (error : String) (calls : List SaveCall)
  | created (chroma : heif_chroma) (calls : List SaveCall)
deriving DecidableEq

/-- Lower bound of the `save-bit-depth` argument declared by `heif_create_procedure`. -/
def save_bit_depth_min : Int := 8

/-- Upper bound of the `save-bit-depth` argument declared by `heif_create_procedure`. -/
def save_bit_depth_max : Int := 12

/-- The chroma format requested from `heif_image_create` for the depths 10 and 12, chosen
at compile time by `G_BYTE_ORDER`. -/
def save_chroma_high (little_endian has_alpha : Bool) : heif_chroma :=
  if little_endian then
    (if has_alpha then heif_chroma.interleaved_RRGGBBAA_LE else heif_chroma.interleaved_RRGGBB_LE)
  else
    (if has_alpha then heif_chroma.interleaved_RRGGBBAA_BE else heif_chroma.interleaved_RRGGBB_BE)

/-- The check `if (err.code != 0)` after `heif_image_create` for `chroma`; `create_error` is
the message of a non-zero `err.code`. -/
def save_image_created (chroma : heif_chroma) (create_error : Option String) : SaveStart :=
  match create_error with
  | some message =>
    SaveStart.returned_false ("Encoding HEIF image failed: " ++ message)
      [SaveCall.heif_image_create chroma, SaveCall.heif_context_free]
  | none => SaveStart.created chroma [SaveCall.heif_image_create chroma]

/-- The beginning of `save_image`: the check of `heif_context_alloc` (`context` tells whether
it returned a context), the `switch (save_bit_depth)` and the check of `err.code`. -/
def save_image_start (context : Bool) (save_bit_depth : Int) (has_alpha little_endian : Bool)
    (create_error : Option String) : SaveStart :=
  if context = false then SaveStart.returned_false "cannot allocate heif_context" []
  else if save_bit_depth = 8 then
    save_image_created
      (if has_alpha then heif_chroma.interleaved_RGBA else heif_chroma.interleaved_RGB)
      create_error
  else if save_bit_depth = 10 ∨ save_bit_depth = 12 then
    save_image_created (save_chroma_high little_endian has_alpha) create_error
  else
    SaveStart.returned_false ("Unsupported bit depth: " ++ toString save_bit_depth)
      [SaveCall.heif_context_free]

/-! ## `heif_save` and `heif_av1_save` -/

/-- The GIMP type `GimpRunMode`. -/
inductive GimpRunMode where
  | GIMP_RUN_INTERACTIVE
  | GIMP_RUN_NONINTERACTIVE
  | GIMP_RUN_WITH_LAST_VALS
deriving DecidableEq

/-- The values of the GIMP type `GimpPDBStatusType` used by the save procedures. -/
inductive GimpPDBStatusType where
  | GIMP_PDB_EXECUTION_ERROR
  | GIMP_PDB_CALLING_ERROR
  | GIMP_PDB_SUCCESS
  | GIMP_PDB_CANCEL
deriving DecidableEq

/-- The GIMP type `GimpExportReturn`. -/
inductive GimpExportReturn where
  | GIMP_EXPORT_CANCEL
  | GIMP_EXPORT_IGNORE
  | GIMP_EXPORT_EXPORT
deriving DecidableEq

/-- The libheif compression formats passed to `save_image`. -/
inductive heif_compression_format where
  | heif_compression_HEVC
  | heif_compression_AV1
deriving DecidableEq

/-- What the surroundings of a save procedure do: `gimp_export_image` returns its result and
the new value of `n_drawables`, `save_dialog` returns whether the dialog was confirmed, and
`save_image` returns its `gboolean` and the error it has set. -/
structure SaveEnv where
  gimp_export_image : Int → GimpExportReturn × Int
  save_dialog : Bool
  save_image : heif_compression_format → Bool × Option String

/-- Return values of a save procedure, with the compression formats of the calls of
`save_image` it made. -/
structure SaveReturn where
  status : GimpPDBStatusType
  error : Option String
  save_image_calls : List heif_compression_format
deriving DecidableEq

/-- The part of `heif_save` and `heif_av1_save` after the `switch (run_mode)`: the check
of `n_drawables`, the dialog in interactive mode and the call of `save_image`. -/
def heif_save_rest (compression : heif_compression_format) (env : SaveEnv)
    (run_mode : GimpRunMode) (n_drawables : Int) : SaveReturn :=
  if n_drawables ≠ 1 then
    ⟨GimpPDBStatusType.GIMP_PDB_CALLING_ERROR,
     some "HEIF format does not support multiple layers.", []⟩
  else if run_mode = GimpRunMode.GIMP_RUN_INTERACTIVE ∧ env.save_dialog = false then
    ⟨GimpPDBStatusType.GIMP_PDB_CANCEL, none, []⟩
  else if (env.save_image compression).1 then
    ⟨GimpPDBStatusType.GIMP_PDB_SUCCESS, (env.save_image compression).2, [compression]⟩
  else
    ⟨GimpPDBStatusType.GIMP_PDB_EXECUTION_ERROR, (env.save_image compression).2, [compression]⟩

/-- The common body of `heif_save` and `heif_av1_save`, which differ in the compression
format they pass to `save_image` (and in the MIME type and the format name).  In the modes
`GIMP_RUN_INTERACTIVE` and `GIMP_RUN_WITH_LAST_VALS` the procedure first calls
`gimp_export_image`, which can cancel and can replace `n_drawables`. -/
def heif_save_body (compression : heif_compression_format) (env : SaveEnv)
    (run_mode : GimpRunMode) (n_drawables : Int) : SaveReturn :=
  match run_mode with
  | GimpRunMode.GIMP_RUN_NONINTERACTIVE => heif_save_rest compression env run_mode n_drawables
  | _ =>
    if (env.gimp_export_image n_drawables).1 = GimpExportReturn.GIMP_EXPORT_CANCEL then
      ⟨GimpPDBStatusType.GIMP_PDB_CANCEL, none, []⟩
    else heif_save_rest compression env run_mode (env.gimp_export_image n_drawables).2

/-- The procedure `heif_save`. -/
def heif_save (env : SaveEnv) (run_mode : GimpRunMode) (n_drawables : Int) : SaveReturn :=
  heif_save_body heif_compression_format.heif_compression_HEVC env run_mode n_drawables

/-- The procedure `heif_av1_save`. -/
def heif_av1_save (env : SaveEnv) (run_mode : GimpRunMode) (n_drawables : Int) : SaveReturn :=
  heif_save_body heif_compression_format.heif_compression_AV1 env run_mode n_drawables

/-! ## Text tags of the synthesized profile -/

/-- The four text tags of a returned profile, when it was made through lcms2, in the order
description, manufacturer, model, copyright. -/
def GimpColorProfile.text_tags : GimpColorProfile → Option (String × String × String × String)
  | GimpColorProfile.from_lcms p => some (p.description, p.manufacturer, p.model, p.copyright)
  | _ => none

/-! ## The NCLX descriptor written by `save_image` -/

/-- Modelled from the spec: enumerator `heif_matrix_coefficients_ITU_R_BT_601_6` of libheif
(declared in `heif.h`, not part of this repository). -/
def heif_matrix_coefficients_ITU_R_BT_601_6 : Nat := 6

/-- The automatic object `nclx_profile` that `save_image` passes to
`heif_image_set_nclx_color_profile` when `save-color-profile` is off: four members are
assigned, the chromaticity members keep the indeterminate values `uninitialized` holds. -/
def save_nclx_profile (uninitialized : heif_color_profile_nclx) : heif_color_profile_nclx :=
  { uninitialized with
    color_primaries := heif_color_primaries_ITU_R_BT_709_5
    transfer_characteristics := heif_transfer_characteristic_IEC_61966_2_1
    matrix_coefficients := heif_matrix_coefficients_ITU_R_BT_601_6
    full_range_flag := 1 }

/-! ## Export loops of `save_image` -/

/-- The branch the code after the colour profile handling of `save_image` takes: the `else`
of `if (save_bit_depth > 8)`, or one of the three branches of the second
`switch (save_bit_depth)`. -/
inductive ExportBranch where
  | low_depth
  | case_10
  | case_12
  | default_copy
deriving DecidableEq

/-- Selection of the export branch by `if (save_bit_depth > 8)` and `switch (save_bit_depth)`. -/
def save_export_branch (save_bit_depth : Int) : ExportBranch :=
  if save_bit_depth > 8 then
    (if save_bit_depth = 10 then ExportBranch.case_10
     else if save_bit_depth = 12 then ExportBranch.case_12
     else ExportBranch.default_copy)
  else ExportBranch.low_depth

/-- Inner loop `for (x = 0; x < rowentries; x++)` of the export: `n` remaining iterations with
the write pointer `dest16` at byte offset `dest16` of the plane and the read pointer `src16`
at word index `src16` of `data16`.  The result lists the stores as (byte offset, word). -/
def save_row (conv : Nat → Nat) (data16 : Nat → Nat) : Nat → Nat → Nat → List (Nat × Nat)
  | _, _, 0 => []
  | dest16, src16, n + 1 =>
    (dest16, conv (data16 src16 % 65536)) :: save_row conv data16 (dest16 + 2) (src16 + 1) n

/-- Outer loop `for (y = 0; y < height; y++)` of the export: each row starts writing at
`y * stride + data` while `src16` keeps advancing through `data16`. -/
def save_rows (conv : Nat → Nat) (data16 : Nat → Nat) (stride rowentries : Nat) :
    Nat → Nat → Nat → List (Nat × Nat)
  | _, _, 0 => []
  | y, src16, n + 1 =>
    save_row conv data16 (y * stride) src16 rowentries ++
      save_rows conv data16 stride rowentries (y + 1) (src16 + rowentries) n

/-- The part of `save_image` from its beginning to the end of the export loops: `none` when
it has returned `FALSE` before, otherwise the export branch taken and the stores the loops
of the high-bit-depth branch make into the plane (in the 8-bit branch the plug-in makes no
store of its own: `gegl_buffer_get` fills the plane). -/
def save_image_export (context : Bool) (save_bit_depth : Int) (has_alpha little_endian : Bool)
    (create_error : Option String) (data16 : Nat → Nat) (stride width height : Nat) :
    Option (ExportBranch × List (Nat × Nat)) :=
  match save_image_start context save_bit_depth has_alpha little_endian create_error with
  | SaveStart.returned_false _ _ => none
  | SaveStart.created _ _ =>
    if save_bit_depth > 8 then
      some (save_export_branch save_bit_depth,
        save_rows (save_convert save_bit_depth.toNat) data16 stride
          (if has_alpha then width * 4 else width * 3) 0 0 height)
    else some (save_export_branch save_bit_depth, [])

/-! ## Search for the TIFF header in the EXIF block -/

/-- The array `tiffHeaderBE`, `{ 'M', 'M', 0, 42 }`. -/
def tiffHeaderBE : List Nat := [77, 77, 0, 42]

/-- The array `tiffHeaderLE`, `{ 'I', 'I', 42, 0 }`. -/
def tiffHeaderLE : List Nat := [73, 73, 42, 0]

/-- The condition of the two `if` statements of the search loop for the header `h`,
`tiffheader[0] == h[0] && tiffheader[1] == h[1] && tiffheader[2] == h[2] &&
tiffheader[2] == h[2]`, with the byte indices of `exif_data` it reads; `&&` evaluates its
right operand only when the left one holds. -/
def tiff_header_test (exif_data : List Nat) (tiffheader : Nat) (h : List Nat) :
    Bool × List Nat :=
  if exif_data.getD tiffheader 0 = h.getD 0 0 then
    if exif_data.getD (tiffheader + 1) 0 = h.getD 1 0 then
      if exif_data.getD (tiffheader + 2) 0 = h.getD 2 0 then
        (decide (exif_data.getD (tiffheader + 2) 0 = h.getD 2 0),
          [tiffheader, tiffheader + 1, tiffheader + 2, tiffheader + 2])
      else (false, [tiffheader, tiffheader + 1, tiffheader + 2])
    else (false, [tiffheader, tiffheader + 1])
  else (false, [tiffheader])

/-- State of the search when the loop `while (new_exif_size >= 4)` is left: the offset of
`tiffheader` from `exif_data`, `new_exif_size`, whether the loop was left by `break`, the
number of executions of the loop body, the byte indices read, and the pairs
(offset of `tiffheader`, `new_exif_size`) at every evaluation of the loop condition. -/
structure ExifSearch where
  tiffheader : Nat
  new_exif_size : Nat
  found : Bool
  iterations : Nat
  reads : List Nat
  states : List (Nat × Nat)
deriving DecidableEq

/-- The loop `while (new_exif_size >= 4)` started with `tiffheader` at the given offset.
`new_exif_size` is a `glong` that starts at `exif_data_size` and is only decremented while it
is at least 4, so it is modelled by a natural number. -/
def exif_search_loop (exif_data : List Nat) : Nat → Nat → ExifSearch
  | tiffheader, 0 => ⟨tiffheader, 0, false, 0, [], [(tiffheader, 0)]⟩
  | tiffheader, n + 1 =>
    if n + 1 ≥ 4 then
      if (tiff_header_test exif_data tiffheader tiffHeaderBE).1 = true then
        ⟨tiffheader, n + 1, true, 1, (tiff_header_test exif_data tiffheader tiffHeaderBE).2,
          [(tiffheader, n + 1)]⟩
      else if (tiff_header_test exif_data tiffheader tiffHeaderLE).1 = true then
        ⟨tiffheader, n + 1, true, 1,
          (tiff_header_test exif_data tiffheader tiffHeaderBE).2 ++
            (tiff_header_test exif_data tiffheader tiffHeaderLE).2,
          [(tiffheader, n + 1)]⟩
      else
        ⟨(exif_search_loop exif_data (tiffheader + 1) n).tiffheader,
          (exif_search_loop exif_data (tiffheader + 1) n).new_exif_size,
          (exif_search_loop exif_data (tiffheader + 1) n).found,
          (exif_search_loop exif_data (tiffheader + 1) n).iterations + 1,
          (tiff_header_test exif_data tiffheader tiffHeaderBE).2 ++
            (tiff_header_test exif_data tiffheader tiffHeaderLE).2 ++
            (exif_search_loop exif_data (tiffheader + 1) n).reads,
          (tiffheader, n + 1) :: (exif_search_loop exif_data (tiffheader + 1) n).states⟩
    else ⟨tiffheader, n + 1, false, 0, [], [(tiffheader, n + 1)]⟩

/-- The search of `load_image` on the EXIF block `exif_data` (a list of bytes;
`exif_data_size` is its length): `tiffheader = exif_data`, `new_exif_size = exif_data_size`. -/
def exif_search (exif_data : List Nat) : ExifSearch :=
  exif_search_loop exif_data 0 exif_data.length

/-- The buffer given to `gexiv2_metadata_open_buf (exif_metadata, tiffheader, new_exif_size,
error)` after the search, or `none` when `new_exif_size > 4` fails and the call is not made. -/
def exif_open_buf (exif_data : List Nat) : Option (List Nat) :=
  if (exif_search exif_data).new_exif_size > 4 then
    some ((exif_data.drop (exif_search exif_data).tiffheader).take
      (exif_search exif_data).new_exif_size)
  else none

/-- Whether the four bytes of `exif_data` at `offset` are one of the two TIFF headers. -/
def is_tiff_header_at (exif_data : List Nat) (offset : Nat) : Bool :=
  decide ((exif_data.drop offset).take 4 = tiffHeaderBE) ||
    decide ((exif_data.drop offset).take 4 = tiffHeaderLE)

/-! ## Bit depth normalisation of `save_dialog` -/

/-- Modelled from the spec: the GIMP type `GimpPrecision` (declared in libgimp, not part of
this repository). -/
inductive GimpPrecision where
  | GIMP_PRECISION_U8_LINEAR
  | GIMP_PRECISION_U8_NON_LINEAR
  | GIMP_PRECISION_U8_PERCEPTUAL
  | GIMP_PRECISION_U16_LINEAR
  | GIMP_PRECISION_U16_NON_LINEAR
  | GIMP_PRECISION_U16_PERCEPTUAL
  | GIMP_PRECISION_U32_LINEAR
  | GIMP_PRECISION_U32_NON_LINEAR
  | GIMP_PRECISION_U32_PERCEPTUAL
  | GIMP_PRECISION_HALF_LINEAR
  | GIMP_PRECISION_HALF_NON_LINEAR
  | GIMP_PRECISION_HALF_PERCEPTUAL
  | GIMP_PRECISION_FLOAT_LINEAR
  | GIMP_PRECISION_FLOAT_NON_LINEAR
  | GIMP_PRECISION_FLOAT_PERCEPTUAL
  | GIMP_PRECISION_DOUBLE_LINEAR
  | GIMP_PRECISION_DOUBLE_NON_LINEAR
  | GIMP_PRECISION_DOUBLE_PERCEPTUAL
deriving DecidableEq

/-- The `switch (gimp_image_get_precision (image))` of `save_dialog`: the value of
`save-bit-depth` in the config after it, and the values written by `g_object_set`. -/
def save_dialog_bit_depth (precision : GimpPrecision) (save_bit_depth : Int) : Int × List Int :=
  match precision with
  | GimpPrecision.GIMP_PRECISION_U8_LINEAR
  | GimpPrecision.GIMP_PRECISION_U8_NON_LINEAR
  | GimpPrecision.GIMP_PRECISION_U8_PERCEPTUAL =>
    if save_bit_depth > 8 then (8, [8]) else (save_bit_depth, [])
  | _ =>
    if save_bit_depth < 10 then (10, [10]) else (save_bit_depth, [])

/-! ## Format selection of `load_image` -/

/-- The chroma format `load_image` passes to `heif_decode_image`; the byte order of the
16-bit formats is chosen at compile time by `G_BYTE_ORDER`. -/
def load_chroma (bit_depth : Int) (has_alpha little_endian : Bool) : heif_chroma :=
  if bit_depth = 8 then
    (if has_alpha then heif_chroma.interleaved_RGBA else heif_chroma.interleaved_RGB)
  else if little_endian then
    (if has_alpha then heif_chroma.interleaved_RRGGBBAA_LE else heif_chroma.interleaved_RRGGBB_LE)
  else
    (if has_alpha then heif_chroma.interleaved_RRGGBBAA_BE else heif_chroma.interleaved_RRGGBB_BE)

/-- The values of `precision` and `encoding` chosen by `load_image`; `profile` is `none`
when `profile` is `NULL` and otherwise holds the result of `gimp_color_profile_is_linear`. -/
def load_precision_encoding (bit_depth : Int) (has_alpha : Bool) (profile : Option Bool) :
    GimpPrecision × String :=
  if (match profile with
      | some is_linear => is_linear
      | none => false) = true then
    (if bit_depth = 8 then
      (GimpPrecision.GIMP_PRECISION_U8_LINEAR, if has_alpha then "RGBA u8" else "RGB u8")
     else
      (GimpPrecision.GIMP_PRECISION_U16_LINEAR, if has_alpha then "RGBA u16" else "RGB u16"))
  else
    (if bit_depth = 8 then
      (GimpPrecision.GIMP_PRECISION_U8_NON_LINEAR,
        if has_alpha then "R'G'B'A u8" else "R'G'B' u8")
     else
      (GimpPrecision.GIMP_PRECISION_U16_NON_LINEAR,
        if has_alpha then "R'G'B'A u16" else "R'G'B' u16"))

/-- The formats `load_image` selects for an image that decodes: `none` when it returns
`NULL` for `bit_depth < 0`, otherwise the chroma format, the precision and the encoding. -/
def load_image_formats (bit_depth : Int) (has_alpha little_endian : Bool)
    (profile : Option Bool) : Option (heif_chroma × GimpPrecision × String) :=
  if bit_depth < 0 then none
  else some (load_chroma bit_depth has_alpha little_endian,
    (load_precision_encoding bit_depth has_alpha profile).1,
    (load_precision_encoding bit_depth has_alpha profile).2)

/-! ## Reference formula and exception tables -/

/-- Integer nearest to `a / b`: the floor of the exact quotient plus one half. -/
def roundDiv (a b : Nat) : Nat := (2 * a + b) / (2 * b)

/-- Source values at which the import conversion differs from `roundDiv`. -/
def load_exceptions : Nat → List Nat
  | 10 => [820]
  | 12 => [2320, 2593, 2866, 3139, 3412, 3685, 3958]
  | _ => []

/-- Source values at which the export conversion differs from `roundDiv`. -/
def save_exceptions : Nat → List Nat
  | 10 => [45772]
  | 12 => [34960, 39329, 43698, 48067, 52436, 56805, 61174]
  | _ => []

/-! ## Evaluation helpers

Tables of the conversions are checked by evaluation.  The definitions below compute the same
values as the model above with boolean tests and plain `Nat` functions only, which evaluate
quickly.  Each is proved equal to the model; the exponent guesses are verified where they are
used, so nothing depends on their quality. -/

/-- The three rounded operations shared by all four conversions, on exact inputs:
`(int) ((v / a) * b + 0.5f)` for integers `v`, `a`, `b` below `2 ^ 24`. -/
def rescaleCore (v a b : Nat) : Nat :=
  (F32.round
    ((F32.round ((F32.round (v * 2 ^ 149) (a * 2 ^ 149)).num * (b * 2 ^ 149))
      (2 ^ 149 * 2 ^ 149)).num + 2 ^ 148)
    (2 ^ 149)).num / 2 ^ 149

/-- Boolean form of `rneDiv`. -/
def rneB (N D : Nat) : Nat :=
  cond (or (Nat.blt D (Nat.mul 2 (Nat.mod N D)))
          (and (Nat.beq (Nat.mul 2 (Nat.mod N D)) D) (Nat.beq (Nat.mod (Nat.div N D) 2) 1)))
    (Nat.succ (Nat.div N D)) (Nat.div N D)

/-- Bit-length search, 1 bit. -/
def lg1 (x : Nat) : Nat := cond (Nat.blt x 2) 0 1
/-- Bit-length search, 2 bits. -/
def lg2 (x : Nat) : Nat := cond (Nat.blt x 4) (lg1 x) (Nat.add 2 (lg1 (Nat.div x 4)))
/-- Bit-length search, 4 bits. -/
def lg4 (x : Nat) : Nat := cond (Nat.blt x 16) (lg2 x) (Nat.add 4 (lg2 (Nat.div x 16)))
/-- Bit-length search, 8 bits. -/
def lg8 (x : Nat) : Nat := cond (Nat.blt x 256) (lg4 x) (Nat.add 8 (lg4 (Nat.div x 256)))
/-- Bit-length search, 16 bits. -/
def lg16 (x : Nat) : Nat :=
  cond (Nat.blt x 65536) (lg8 x) (Nat.add 16 (lg8 (Nat.div x 65536)))
/-- Bit-length search, 32 bits. -/
def lg32 (x : Nat) : Nat :=
  cond (Nat.blt x (Nat.pow 2 32)) (lg16 x) (Nat.add 32 (lg16 (Nat.div x (Nat.pow 2 32))))
/-- Bit-length search, 64 bits. -/
def lg64 (x : Nat) : Nat :=
  cond (Nat.blt x (Nat.pow 2 64)) (lg32 x) (Nat.add 64 (lg32 (Nat.div x (Nat.pow 2 64))))
/-- Bit-length search, 128 bits. -/
def lg128 (x : Nat) : Nat :=
  cond (Nat.blt x (Nat.pow 2 128)) (lg64 x) (Nat.add 128 (lg64 (Nat.div x (Nat.pow 2 128))))
/-- Bit-length search, 256 bits. -/
def lg256 (x : Nat) : Nat :=
  cond (Nat.blt x (Nat.pow 2 256)) (lg128 x) (Nat.add 256 (lg128 (Nat.div x (Nat.pow 2 256))))

/-- The value `Nat.log2 X`, by search followed by a check of the result. -/
def lgSearch (X : Nat) : Nat :=
  cond (and (Nat.ble (Nat.pow 2 (lg256 X)) X) (Nat.blt X (Nat.pow 2 (Nat.succ (lg256 X)))))
    (lg256 X) (Nat.log2 X)

/-- The value `Nat.log2 X`, found from a guess `g` when the guess is close. -/
def lgFast (g X : Nat) : Nat :=
  cond (Nat.beq X 0) 0
    (cond (Nat.ble (Nat.pow 2 g) X)
      (cond (Nat.blt X (Nat.pow 2 (Nat.succ g))) g
        (cond (Nat.blt X (Nat.pow 2 (Nat.add g 2))) (Nat.succ g) (lgSearch X)))
      (cond (Nat.ble (Nat.pow 2 (Nat.pred g)) X) (Nat.pred g) (lgSearch X)))

/-- The field `expo` of `F32.round n d`, with exponent guess `g`. -/
def expoB (g n d : Nat) : Nat := lgFast g (Nat.div (Nat.mul n (Nat.pow 2 126)) d)

/-- The value `(F32.round n d).num`, with exponent guess `g`. -/
def numB (g n d : Nat) : Nat :=
  Nat.mul
    (rneB (Nat.mul n (Nat.pow 2 (Nat.sub 149 (expoB g n d))))
          (Nat.mul d (Nat.pow 2 (Nat.sub (expoB g n d) 149))))
    (Nat.pow 2 (expoB g n d))

/-- The quotient stage of `rescaleCore`. -/
def quotB (g0 v a : Nat) : Nat :=
  numB (Nat.add (lg16 v) g0) (Nat.mul v (Nat.pow 2 149)) (Nat.mul a (Nat.pow 2 149))

/-- Exponent of the quotient stage. -/
def quotExpoB (g0 v a : Nat) : Nat :=
  expoB (Nat.add (lg16 v) g0) (Nat.mul v (Nat.pow 2 149)) (Nat.mul a (Nat.pow 2 149))

/-- The product stage of `rescaleCore`. -/
def prodB (g0 gb v a b : Nat) : Nat :=
  numB (Nat.add (quotExpoB g0 v a) gb)
    (Nat.mul (quotB g0 v a) (Nat.mul b (Nat.pow 2 149)))
    (Nat.mul (Nat.pow 2 149) (Nat.pow 2 149))

/-- Exponent of the product stage. -/
def prodExpoB (g0 gb v a b : Nat) : Nat :=
  expoB (Nat.add (quotExpoB g0 v a) gb)
    (Nat.mul (quotB g0 v a) (Nat.mul b (Nat.pow 2 149)))
    (Nat.mul (Nat.pow 2 149) (Nat.pow 2 149))

/-- The value `rescaleCore v a b`; `g0` and `gb` are exponent guesses. -/
def rescaleB (g0 gb v a b : Nat) : Nat :=
  Nat.div
    (numB (Nat.succ (prodExpoB g0 gb v a b))
      (Nat.add (prodB g0 gb v a b) (Nat.pow 2 148)) (Nat.pow 2 149))
    (Nat.pow 2 149)

/-- Application of `f` to `n`, evaluating `n` first. -/
def strict {α : Type} (n : Nat) (f : Nat → α) : α :=
  match n with
  | 0 => f 0
  | k + 1 => f (Nat.succ k)

/-- Check of `p` at the single point `lo`. -/
def chk0 (p : Nat → Bool) (lo : Nat) : Bool := p lo

/-- Check over a range of doubled width: `c` on `[lo, lo + w)` and on `[lo + w, lo + 2 w)`. -/
def dbl (c : (Nat → Bool) → Nat → Bool) (w : Nat) (p : Nat → Bool) (lo : Nat) : Bool :=
  and (c p lo) (strict (Nat.add lo w) fun hi => c p hi)

/-- Check of `p` on `[lo, lo + 16)`. -/
def chk4 : (Nat → Bool) → Nat → Bool := dbl (dbl (dbl (dbl chk0 1) 2) 4) 8
/-- Check of `p` on `[lo, lo + 256)`. -/
def chk8 : (Nat → Bool) → Nat → Bool := dbl (dbl (dbl (dbl chk4 16) 32) 64) 128
/-- Check of `p` on `[lo, lo + 1024)`. -/
def chk10 : (Nat → Bool) → Nat → Bool := dbl (dbl chk8 256) 512
/-- Check of `p` on `[lo, lo + 4096)`. -/
def chk12 : (Nat → Bool) → Nat → Bool := dbl (dbl chk10 1024) 2048
/-- Check of `p` on `[lo, lo + 65536)`. -/
def chk16 : (Nat → Bool) → Nat → Bool := dbl (dbl (dbl (dbl chk12 4096) 8192) 16384) 32768

/-- Boolean form of `min`. -/
def minB (a b : Nat) : Nat := cond (Nat.ble a b) a b

/-- Reference value `roundDiv a b`, plus one when `exc` holds. -/
def expect (a b : Nat) (exc : Bool) : Nat := Nat.add (roundDiv a b) (cond exc 1 0)

/-- Membership in `load_exceptions 10`. -/
def loadExc10 (v : Nat) : Bool := Nat.beq v 820

/-- Membership in `load_exceptions 12`. -/
def loadExc12 (v : Nat) : Bool :=
  or (Nat.beq v 2320) (or (Nat.beq v 2593) (or (Nat.beq v 2866) (or (Nat.beq v 3139)
    (or (Nat.beq v 3412) (or (Nat.beq v 3685) (Nat.beq v 3958))))))

/-- Membership in `save_exceptions 10`. -/
def saveExc10 (s : Nat) : Bool := Nat.beq s 45772

/-- Membership in `save_exceptions 12`. -/
def saveExc12 (s : Nat) : Bool :=
  or (Nat.beq s 34960) (or (Nat.beq s 39329) (or (Nat.beq s 43698) (or (Nat.beq s 48067)
    (or (Nat.beq s 52436) (or (Nat.beq s 56805) (Nat.beq s 61174))))))

/-- Expected import value, depth 10. -/
def load10_expect (v : Nat) : Nat := expect (Nat.mul v 65535) 1023 (loadExc10 v)
/-- Expected import value, depth 12. -/
def load12_expect (v : Nat) : Nat := expect (Nat.mul v 65535) 4095 (loadExc12 v)
/-- Expected export value, depth 10. -/
def save10_expect (s : Nat) : Nat := expect (Nat.mul s 1023) 65535 (saveExc10 s)
/-- Expected export value, depth 12. -/
def save12_expect (s : Nat) : Nat := expect (Nat.mul s 4095) 65535 (saveExc12 s)

/-- Evaluated import value, depth 10, for `v < 1024`. -/
def load10_fast (v : Nat) : Nat := minB (rescaleB 116 15 v 1023 65535) 65535
/-- Evaluated import value, depth 12, for `v < 4096`. -/
def load12_fast (v : Nat) : Nat := minB (rescaleB 114 15 v 4095 65535) 65535
/-- Evaluated export value, depth 10. -/
def save10_fast (s : Nat) : Nat := minB (rescaleB 110 9 s 65535 1023) 1023
/-- Evaluated export value, depth 12. -/
def save12_fast (s : Nat) : Nat := minB (rescaleB 110 11 s 65535 4095) 4095

/-- Leaf check of the import table, depth 10. -/
def load10_ok (v : Nat) : Bool := Nat.beq (load10_fast v) (load10_expect v)
/-- Leaf check of the import table, depth 12. -/
def load12_ok (v : Nat) : Bool := Nat.beq (load12_fast v) (load12_expect v)

/-- Last source value whose reference export value is at most `k`, depth 10. -/
def save10_hi (k : Nat) : Nat :=
  Nat.div (Nat.pred (Nat.mul (Nat.succ (Nat.mul 2 k)) 65535)) 2046

/-- Last source value whose reference export value is at most `k`, depth 12. -/
def save12_hi (k : Nat) : Nat :=
  Nat.div (Nat.pred (Nat.mul (Nat.succ (Nat.mul 2 k)) 65535)) 8190

/-- Evaluated and expected export values agree at `s` and at `s + 1`, depth 10. -/
def save10_pair (s : Nat) : Bool :=
  and (Nat.beq (save10_fast s) (save10_expect s))
    (Nat.beq (save10_fast (Nat.succ s)) (save10_expect (Nat.succ s)))

/-- Evaluated and expected export values agree at `s` and at `s + 1`, depth 12. -/
def save12_pair (s : Nat) : Bool :=
  and (Nat.beq (save12_fast s) (save12_expect s))
    (Nat.beq (save12_fast (Nat.succ s)) (save12_expect (Nat.succ s)))

/-- Leaf check of the export table, depth 10: agreement on both sides of the step from
`k` to `k + 1` of the reference value. -/
def save10_jump (k : Nat) : Bool := or (Nat.ble 1023 k) (save10_pair (save10_hi k))

/-- Leaf check of the export table, depth 12. -/
def save12_jump (k : Nat) : Bool := or (Nat.ble 4095 k) (save12_pair (save12_hi k))

/-- Agreement just before and at an exception, depth 10. -/
def save10_near (e : Nat) : Bool := and (save10_pair (Nat.pred e)) (save10_pair e)

/-- Agreement just before and at an exception, depth 12. -/
def save12_near (e : Nat) : Bool := and (save12_pair (Nat.pred e)) (save12_pair e)

/-- Leaf check of the round trip on the expected values, depth 10. -/
def trip10_ok (v : Nat) : Bool := Nat.beq (save10_expect (load10_expect v)) v
/-- Leaf check of the round trip on the expected values, depth 12. -/
def trip12_ok (v : Nat) : Bool := Nat.beq (save12_expect (load12_expect v)) v

/-! ## Evaluation helpers are the model -/

theorem strict_eq {α : Type} (n : Nat) (f : Nat → α) : strict n f = f n := by
  cases n <;> rfl

theorem log2_unique {X g : Nat} (h1 : 2 ^ g ≤ X) (h2 : X < 2 ^ (g + 1)) : Nat.log2 X = g := by
  have hX : X ≠ 0 := by
    have : 0 < 2 ^ g := Nat.pos_pow_of_pos _ (by decide)
    omega
  have a : g ≤ Nat.log2 X := (Nat.le_log2 hX).2 h1
  have b : Nat.log2 X < g + 1 := (Nat.log2_lt hX).2 h2
  omega

theorem rneB_eq (N D : Nat) : rneB N D = rneDiv N D := by
  unfold rneB rneDiv
  simp only [Nat.mul_eq, Nat.succ_eq_add_one]
  show cond _ (N / D + 1) (N / D) = _
  rw [Bool.cond_eq_ite]
  congr 1
  simp only [Bool.or_eq_true, Bool.and_eq_true, Nat.blt_eq, Nat.beq_eq]
  rfl

theorem lgSearch_eq (X : Nat) : lgSearch X = Nat.log2 X := by
  unfold lgSearch
  rw [Bool.cond_eq_ite]
  split
  · next h =>
    simp only [Bool.and_eq_true, Nat.ble_eq, Nat.blt_eq] at h
    exact (log2_unique h.1 h.2).symm
  · rfl

theorem lgFast_eq (g X : Nat) : lgFast g X = Nat.log2 X := by
  unfold lgFast
  simp only [Bool.cond_eq_ite, Nat.beq_eq, Nat.ble_eq, Nat.blt_eq, lgSearch_eq]
  split
  · next h => subst h; exact Nat.log2_zero.symm
  · split
    · split
      · next h1 h2 => exact (log2_unique h1 h2).symm
      · split
        · next h1 h2 h3 =>
          refine (log2_unique ?_ h3).symm
          have e : Nat.pow 2 (Nat.succ g) = 2 ^ (g + 1) := rfl
          rw [e] at h2
          omega
        · rfl
    · split
      · next h0 h1 h2 =>
        have e1 : Nat.pow 2 g = 2 ^ g := rfl
        have e2 : Nat.pow 2 (Nat.pred g) = 2 ^ (g - 1) := rfl
        rw [e1] at h1
        rw [e2] at h2
        have hg : g - 1 + 1 = g := by
          rcases Nat.eq_zero_or_pos g with h | h
          · subst h; simp at h1; omega
          · omega
        exact (log2_unique h2 (by rw [hg]; omega)).symm
      · rfl

theorem expoB_eq (g n d : Nat) : expoB g n d = (F32.round n d).expo := by
  unfold expoB
  rw [lgFast_eq]
  rfl

theorem numB_eq (g n d : Nat) : numB g n d = (F32.round n d).num := by
  unfold numB
  rw [rneB_eq, expoB_eq]
  rfl

theorem prodB_eq (g0 gb v a b : Nat) :
    prodB g0 gb v a b =
      (F32.round ((F32.round (v * 2 ^ 149) (a * 2 ^ 149)).num * (b * 2 ^ 149))
        (2 ^ 149 * 2 ^ 149)).num := by
  unfold prodB quotB quotExpoB
  simp only [numB_eq, expoB_eq]
  rfl

theorem rescaleB_eq (g0 gb v a b : Nat) : rescaleB g0 gb v a b = rescaleCore v a b := by
  unfold rescaleB prodB prodExpoB quotB quotExpoB
  simp only [numB_eq, expoB_eq]
  rfl

/-! ## The conversions in terms of `rescaleCore` -/

theorem rneDiv_one (N : Nat) : rneDiv N 1 = N := by
  unfold rneDiv
  simp [Nat.mod_one]

theorem ofNat_num {n : Nat} (h : n < 2 ^ 24) : (F32.ofNat n).num = n * 2 ^ 149 := by
  unfold F32.ofNat F32.round F32.num
  simp only [Nat.div_one]
  have hL : Nat.log2 (n * 2 ^ 126) ≤ 149 := by
    rcases Nat.eq_zero_or_pos n with h0 | h0
    · subst h0; simp [Nat.log2_zero]
    · have hX : n * 2 ^ 126 ≠ 0 := by positivity
      have : Nat.log2 (n * 2 ^ 126) < 150 := by
        rw [Nat.log2_lt hX]
        calc n * 2 ^ 126 < 2 ^ 24 * 2 ^ 126 := by
              exact Nat.mul_lt_mul_of_pos_right h (by positivity)
          _ = 2 ^ 150 := by norm_num
      omega
  have h0 : Nat.log2 (n * 2 ^ 126) - 149 = 0 := by omega
  have h1 : 149 - Nat.log2 (n * 2 ^ 126) + Nat.log2 (n * 2 ^ 126) = 149 := by omega
  rw [h0, pow_zero, mul_one, rneDiv_one, mul_assoc, ← pow_add, h1]

theorem round_num (n d : Nat) :
    (F32.round n d).num =
      rneDiv (n * 2 ^ (149 - Nat.log2 (n * 2 ^ 126 / d))) (d * 2 ^ (Nat.log2 (n * 2 ^ 126 / d) - 149))
        * 2 ^ Nat.log2 (n * 2 ^ 126 / d) := rfl

theorem half_aux1 : Nat.log2 (1 * 2 ^ 126 / 2) = 125 := by
  have h : 1 * 2 ^ 126 / 2 = 2 ^ 125 := by norm_num
  rw [h, Nat.log2_two_pow]

theorem half_aux2 : rneDiv (1 * 2 ^ (149 - 125)) (2 * 2 ^ (125 - 149)) = 2 ^ 23 := by
  unfold rneDiv
  norm_num

theorem half_num : F32.half.num = 2 ^ 148 :=
  calc F32.half.num
      = rneDiv (1 * 2 ^ (149 - Nat.log2 (1 * 2 ^ 126 / 2)))
          (2 * 2 ^ (Nat.log2 (1 * 2 ^ 126 / 2) - 149)) * 2 ^ Nat.log2 (1 * 2 ^ 126 / 2) :=
        round_num 1 2
    _ = rneDiv (1 * 2 ^ (149 - 125)) (2 * 2 ^ (125 - 149)) * 2 ^ 125 :=
        congrArg (fun L => rneDiv (1 * 2 ^ (149 - L)) (2 * 2 ^ (L - 149)) * 2 ^ L) half_aux1
    _ = 2 ^ 23 * 2 ^ 125 := congrArg (fun m => m * 2 ^ 125) half_aux2
    _ = 2 ^ 148 := by norm_num

theorem load_tmp_pixelval_eq {mask maxval src16 : Nat} (h1 : mask &&& src16 < 2 ^ 24)
    (h2 : maxval < 2 ^ 24) :
    load_tmp_pixelval mask maxval src16 = Int.ofNat (rescaleCore (mask &&& src16) maxval 65535) := by
  unfold load_tmp_pixelval rescaleCore F32.toInt F32.add F32.mul F32.div
  rw [ofNat_num h1, ofNat_num h2, ofNat_num (by norm_num : 65535 < 2 ^ 24), half_num]

theorem save_tmp_pixelval_eq {maxval src16 : Nat} (h1 : src16 < 2 ^ 24)
    (h2 : maxval < 2 ^ 24) :
    save_tmp_pixelval maxval src16 = Int.ofNat (rescaleCore src16 65535 maxval) := by
  unfold save_tmp_pixelval rescaleCore F32.toInt F32.add F32.mul F32.div
  rw [ofNat_num h1, ofNat_num h2, ofNat_num (by norm_num : 65535 < 2 ^ 24), half_num]

theorem toUint16_CLAMP (t hi : Nat) (hhi : hi < 65536) :
    toUint16 (CLAMP (Int.ofNat t) 0 (hi : Int)) = min t hi := by
  unfold toUint16 CLAMP
  simp only [Int.ofNat_eq_coe]
  split
  · next h =>
    have : hi < t := by exact_mod_cast h
    rw [Nat.min_eq_right (by omega)]
    omega
  · next h =>
    have : t ≤ hi := by
      have := not_lt.mp h
      exact_mod_cast this
    rw [Nat.min_eq_left this]
    split
    · omega
    · omega

theorem load_pixel_10_eq (w : Nat) :
    load_pixel_10 w = min (rescaleCore (w % 1024) 1023 65535) 65535 := by
  have hm : 0x03ff &&& w = w % 1024 := by
    rw [Nat.and_comm]; exact Nat.and_pow_two_sub_one_eq_mod w 10
  have hlt : w % 1024 < 2 ^ 24 := by omega
  unfold load_pixel_10
  rw [load_tmp_pixelval_eq (by rw [hm]; exact hlt) (by norm_num), hm]
  exact toUint16_CLAMP _ 65535 (by norm_num)

theorem load_pixel_12_eq (w : Nat) :
    load_pixel_12 w = min (rescaleCore (w % 4096) 4095 65535) 65535 := by
  have hm : 0x0fff &&& w = w % 4096 := by
    rw [Nat.and_comm]; exact Nat.and_pow_two_sub_one_eq_mod w 12
  have hlt : w % 4096 < 2 ^ 24 := by omega
  unfold load_pixel_12
  rw [load_tmp_pixelval_eq (by rw [hm]; exact hlt) (by norm_num), hm]
  exact toUint16_CLAMP _ 65535 (by norm_num)

theorem save_pixel_10_eq {s : Nat} (h : s < 2 ^ 24) :
    save_pixel_10 s = min (rescaleCore s 65535 1023) 1023 := by
  unfold save_pixel_10
  rw [save_tmp_pixelval_eq h (by norm_num)]
  exact toUint16_CLAMP _ 1023 (by norm_num)

theorem save_pixel_12_eq {s : Nat} (h : s < 2 ^ 24) :
    save_pixel_12 s = min (rescaleCore s 65535 4095) 4095 := by
  unfold save_pixel_12
  rw [save_tmp_pixelval_eq h (by norm_num)]
  exact toUint16_CLAMP _ 4095 (by norm_num)

theorem load_product_eq {mask maxval src16 : Nat} (h1 : mask &&& src16 < 2 ^ 24)
    (h2 : maxval < 2 ^ 24) :
    (F32.mul (F32.div (F32.ofNat (mask &&& src16)) (F32.ofNat maxval)) (F32.ofNat 65535)).num =
      (F32.round ((F32.round ((mask &&& src16) * 2 ^ 149) (maxval * 2 ^ 149)).num * (65535 * 2 ^ 149))
        (2 ^ 149 * 2 ^ 149)).num := by
  unfold F32.mul F32.div
  rw [ofNat_num h1, ofNat_num h2, ofNat_num (by norm_num : 65535 < 2 ^ 24)]

theorem save_product_eq {maxval src16 : Nat} (h1 : src16 < 2 ^ 24) (h2 : maxval < 2 ^ 24) :
    (F32.mul (F32.div (F32.ofNat src16) (F32.ofNat 65535)) (F32.ofNat maxval)).num =
      (F32.round ((F32.round (src16 * 2 ^ 149) (65535 * 2 ^ 149)).num * (maxval * 2 ^ 149))
        (2 ^ 149 * 2 ^ 149)).num := by
  unfold F32.mul F32.div
  rw [ofNat_num h1, ofNat_num h2, ofNat_num (by norm_num : 65535 < 2 ^ 24)]

/-! ## Monotonicity of binary32 rounding -/

theorem rneDiv_ge (N D : Nat) : N / D ≤ rneDiv N D := by
  unfold rneDiv
  split <;> omega

theorem rneDiv_le (N D : Nat) : rneDiv N D ≤ N / D + 1 := by
  unfold rneDiv
  split <;> omega

theorem rneDiv_mono {N1 N2 D : Nat} (h : N1 ≤ N2) : rneDiv N1 D ≤ rneDiv N2 D := by
  have hq : N1 / D ≤ N2 / D := Nat.div_le_div_right h
  rcases Nat.lt_or_ge (N1 / D) (N2 / D) with hlt | hge
  · calc rneDiv N1 D ≤ N1 / D + 1 := rneDiv_le _ _
      _ ≤ N2 / D := hlt
      _ ≤ rneDiv N2 D := rneDiv_ge _ _
  · have heq : N1 / D = N2 / D := le_antisymm hq hge
    have e1 := Nat.div_add_mod N1 D
    have e2 := Nat.div_add_mod N2 D
    rw [heq] at e1
    have hr : N1 % D ≤ N2 % D := by omega
    unfold rneDiv
    rw [heq]
    split
    · next c1 =>
      split
      · exact le_refl _
      · next c2 =>
        exfalso
        apply c2
        rcases c1 with c | ⟨c, c'⟩
        · left; omega
        · rcases Nat.lt_or_ge (2 * (N1 % D)) (2 * (N2 % D)) with a | a
          · left; omega
          · right; exact ⟨by omega, c'⟩
    · split <;> omega

theorem log2_mono {X1 X2 : Nat} (h : X1 ≤ X2) : Nat.log2 X1 ≤ Nat.log2 X2 := by
  rw [Nat.log2_eq_log_two, Nat.log2_eq_log_two]
  exact Nat.log_mono_right h

theorem pow_split (L : Nat) : 2 ^ (149 - L) * 2 ^ L = 2 ^ 149 * 2 ^ (L - 149) := by
  have e : 149 - L + L = 149 + (L - 149) := by omega
  rw [← pow_add, ← pow_add, e]

theorem mant_le {n d L : Nat} (hd : 0 < d) (hL : n * 2 ^ 126 / d < 2 ^ (L + 1)) :
    rneDiv (n * 2 ^ (149 - L)) (d * 2 ^ (L - 149)) ≤ 2 ^ 24 := by
  have hD : 0 < d * 2 ^ (L - 149) := by positivity
  have h1 : n * 2 ^ 126 < 2 ^ (L + 1) * d := (Nat.div_lt_iff_lt_mul hd).mp hL
  have hP : 0 < 2 ^ L := by positivity
  have key := pow_split L
  have h2 : n * 2 ^ (149 - L) * 2 ^ L < 2 ^ 24 * (d * 2 ^ (L - 149)) * 2 ^ L := by
    calc n * 2 ^ (149 - L) * 2 ^ L = n * (2 ^ (149 - L) * 2 ^ L) := by ring
      _ = (n * 2 ^ 126) * (2 ^ 23 * 2 ^ (L - 149)) := by rw [key]; ring
      _ < (2 ^ (L + 1) * d) * (2 ^ 23 * 2 ^ (L - 149)) :=
          Nat.mul_lt_mul_of_pos_right h1 (by positivity)
      _ = 2 ^ 24 * (d * 2 ^ (L - 149)) * 2 ^ L := by ring
  have h3 : n * 2 ^ (149 - L) < 2 ^ 24 * (d * 2 ^ (L - 149)) := Nat.lt_of_mul_lt_mul_right h2
  have h4 : n * 2 ^ (149 - L) / (d * 2 ^ (L - 149)) < 2 ^ 24 := (Nat.div_lt_iff_lt_mul hD).mpr h3
  have := rneDiv_le (n * 2 ^ (149 - L)) (d * 2 ^ (L - 149))
  omega

theorem mant_ge {n d L : Nat} (hd : 0 < d) (hL : 2 ^ L ≤ n * 2 ^ 126 / d) :
    2 ^ 23 ≤ rneDiv (n * 2 ^ (149 - L)) (d * 2 ^ (L - 149)) := by
  have hD : 0 < d * 2 ^ (L - 149) := by positivity
  have h1 : 2 ^ L * d ≤ n * 2 ^ 126 := (Nat.le_div_iff_mul_le hd).mp hL
  have hP : 0 < 2 ^ L := by positivity
  have key := pow_split L
  have h2 : 2 ^ 23 * (d * 2 ^ (L - 149)) * 2 ^ L ≤ n * 2 ^ (149 - L) * 2 ^ L := by
    calc 2 ^ 23 * (d * 2 ^ (L - 149)) * 2 ^ L = (2 ^ L * d) * (2 ^ 23 * 2 ^ (L - 149)) := by ring
      _ ≤ (n * 2 ^ 126) * (2 ^ 23 * 2 ^ (L - 149)) := Nat.mul_le_mul_right _ h1
      _ = n * (2 ^ 149 * 2 ^ (L - 149)) := by ring
      _ = n * 2 ^ (149 - L) * 2 ^ L := by rw [← key]; ring
  have h3 : 2 ^ 23 * (d * 2 ^ (L - 149)) ≤ n * 2 ^ (149 - L) := Nat.le_of_mul_le_mul_right h2 hP
  have h4 : 2 ^ 23 ≤ n * 2 ^ (149 - L) / (d * 2 ^ (L - 149)) := (Nat.le_div_iff_mul_le hD).mpr h3
  exact le_trans h4 (rneDiv_ge _ _)

theorem round_num_mono {n1 n2 d : Nat} (hd : 0 < d) (h : n1 ≤ n2) :
    (F32.round n1 d).num ≤ (F32.round n2 d).num := by
  rw [round_num, round_num]
  have hX : n1 * 2 ^ 126 / d ≤ n2 * 2 ^ 126 / d :=
    Nat.div_le_div_right (Nat.mul_le_mul_right _ h)
  have hLL := log2_mono hX
  generalize hL1 : Nat.log2 (n1 * 2 ^ 126 / d) = L1 at hLL
  generalize hL2 : Nat.log2 (n2 * 2 ^ 126 / d) = L2 at hLL
  rcases Nat.eq_or_lt_of_le hLL with heq | hlt
  · subst heq
    apply Nat.mul_le_mul_right
    apply rneDiv_mono
    exact Nat.mul_le_mul_right _ h
  · have hX2 : n2 * 2 ^ 126 / d ≠ 0 := by
      intro h0
      rw [h0, Nat.log2_zero] at hL2
      omega
    have u1 : n1 * 2 ^ 126 / d < 2 ^ (L1 + 1) := by
      rw [← hL1]; exact Nat.lt_log2_self
    have l2 : 2 ^ L2 ≤ n2 * 2 ^ 126 / d := by
      rw [← hL2]; exact Nat.log2_self_le hX2
    have a := mant_le hd u1
    have b := mant_ge hd l2
    have c : 2 ^ (L1 + 1) ≤ 2 ^ L2 := Nat.pow_le_pow_right (by norm_num) hlt
    calc rneDiv (n1 * 2 ^ (149 - L1)) (d * 2 ^ (L1 - 149)) * 2 ^ L1
        ≤ 2 ^ 24 * 2 ^ L1 := Nat.mul_le_mul_right _ a
      _ = 2 ^ 23 * 2 ^ (L1 + 1) := by ring
      _ ≤ 2 ^ 23 * 2 ^ L2 := Nat.mul_le_mul_left _ c
      _ ≤ rneDiv (n2 * 2 ^ (149 - L2)) (d * 2 ^ (L2 - 149)) * 2 ^ L2 := Nat.mul_le_mul_right _ b

theorem rescaleCore_mono {v1 v2 a : Nat} (b : Nat) (ha : 0 < a) (h : v1 ≤ v2) :
    rescaleCore v1 a b ≤ rescaleCore v2 a b := by
  unfold rescaleCore
  apply Nat.div_le_div_right
  apply round_num_mono (by positivity)
  apply Nat.add_le_add_right
  apply round_num_mono (by positivity)
  apply Nat.mul_le_mul_right
  apply round_num_mono (by positivity)
  exact Nat.mul_le_mul_right _ h

/-! ## Sanity of the rounding model -/

theorem rneDiv_nearest (N D : Nat) (hD : 0 < D) :
    2 * (rneDiv N D * D) ≤ 2 * N + D ∧ 2 * N ≤ 2 * (rneDiv N D * D) + D := by
  have m := Nat.div_add_mod N D
  have l := Nat.mod_lt N hD
  have c : (N / D + 1) * D = D * (N / D) + D := by ring
  have c2 : N / D * D = D * (N / D) := by ring
  unfold rneDiv
  split
  · next h =>
    rw [c]
    rcases h with h | ⟨h, _⟩
    · constructor <;> omega
    · constructor <;> omega
  · next h =>
    rw [c2]
    have h1 : ¬ D < 2 * (N % D) := fun a => h (Or.inl a)
    constructor <;> omega

theorem rneDiv_tie_even (N D : Nat) (h : 2 * (N % D) = D) : rneDiv N D % 2 = 0 := by
  unfold rneDiv
  split
  · next c =>
    rcases c with c | ⟨_, c⟩
    · omega
    · omega
  · next c =>
    have : ¬ (N / D) % 2 = 1 := fun a => c (Or.inr ⟨h, a⟩)
    omega


/-! ## Range checks -/

theorem chk0_sound (p : Nat → Bool) (lo : Nat) (h : chk0 p lo = true) (i : Nat) (hi : i < 1) :
    p (lo + i) = true := by
  have : i = 0 := by omega
  subst this
  exact h

theorem dbl_sound {c : (Nat → Bool) → Nat → Bool} {w : Nat}
    (hc : ∀ p lo, c p lo = true → ∀ i, i < w → p (lo + i) = true)
    (p : Nat → Bool) (lo : Nat) (h : dbl c w p lo = true) (i : Nat) (hi : i < w + w) :
    p (lo + i) = true := by
  unfold dbl at h
  rw [strict_eq] at h
  have h' := (Bool.and_eq_true _ _).mp h
  by_cases hlt : i < w
  · exact hc p lo h'.1 i hlt
  · have := hc p (Nat.add lo w) h'.2 (i - w) (by omega)
    have e : Nat.add lo w + (i - w) = lo + i := by
      show lo + w + (i - w) = lo + i
      omega
    rw [e] at this
    exact this

theorem chk4_sound (p : Nat → Bool) (lo : Nat) (h : chk4 p lo = true) (i : Nat) (hi : i < 16) :
    p (lo + i) = true :=
  dbl_sound (dbl_sound (dbl_sound (dbl_sound chk0_sound))) p lo h i hi

theorem chk8_sound (p : Nat → Bool) (lo : Nat) (h : chk8 p lo = true) (i : Nat) (hi : i < 256) :
    p (lo + i) = true :=
  dbl_sound (dbl_sound (dbl_sound (dbl_sound chk4_sound))) p lo h i hi

theorem chk10_sound (p : Nat → Bool) (lo : Nat) (h : chk10 p lo = true) (i : Nat)
    (hi : i < 1024) : p (lo + i) = true :=
  dbl_sound (dbl_sound chk8_sound) p lo h i hi

theorem chk12_sound (p : Nat → Bool) (lo : Nat) (h : chk12 p lo = true) (i : Nat)
    (hi : i < 4096) : p (lo + i) = true :=
  dbl_sound (dbl_sound chk10_sound) p lo h i hi

theorem chk16_sound (p : Nat → Bool) (lo : Nat) (h : chk16 p lo = true) (i : Nat)
    (hi : i < 65536) : p (lo + i) = true :=
  dbl_sound (dbl_sound (dbl_sound (dbl_sound chk12_sound))) p lo h i hi


/-! ## Tables of the four conversions, by evaluation -/

theorem load10_check : chk10 load10_ok 0 = true := by decide!

theorem load12_check : chk12 load12_ok 0 = true := by decide!

theorem save10_check : chk10 save10_jump 0 = true := by decide!

theorem save12_check : chk12 save12_jump 0 = true := by decide!

theorem save10_exc_check : save10_near 45772 = true := by decide!

theorem save12_exc_check :
    and (save12_near 34960) (and (save12_near 39329) (and (save12_near 43698)
      (and (save12_near 48067) (and (save12_near 52436) (and (save12_near 56805)
        (save12_near 61174)))))) = true := by decide!

theorem save_end_check :
    and (Nat.beq (save10_fast 0) (save10_expect 0))
      (and (Nat.beq (save10_fast 65535) (save10_expect 65535))
        (and (Nat.beq (save12_fast 0) (save12_expect 0))
          (Nat.beq (save12_fast 65535) (save12_expect 65535)))) = true := by decide!

theorem trip10_check : chk10 trip10_ok 0 = true := by decide!

theorem trip12_check : chk12 trip12_ok 0 = true := by decide!

/-! ## The reference formula -/

theorem roundDiv_eq_floor (a b : Nat) (hb : 0 < b) :
    (roundDiv a b : ℤ) = ⌊(a : ℚ) / b + 1 / 2⌋ := by
  symm
  rw [Int.floor_eq_iff]
  have hbq : (0 : ℚ) < b := by exact_mod_cast hb
  have e : (a : ℚ) / b + 1 / 2 = (2 * a + b) / (2 * b) := by
    field_simp
    ring
  have h1 : roundDiv a b * (2 * b) ≤ 2 * a + b := Nat.div_mul_le_self _ _
  have h2 : 2 * a + b < roundDiv a b * (2 * b) + 2 * b := by
    have m := Nat.div_add_mod (2 * a + b) (2 * b)
    have l := Nat.mod_lt (2 * a + b) (by omega : 2 * b > 0)
    have c : roundDiv a b * (2 * b) = 2 * b * ((2 * a + b) / (2 * b)) := by
      unfold roundDiv
      ring
    omega
  have h1q : (roundDiv a b : ℚ) * (2 * b) ≤ 2 * a + b := by exact_mod_cast h1
  have h2q : (2 * a + b : ℚ) < roundDiv a b * (2 * b) + 2 * b := by exact_mod_cast h2
  rw [e]
  constructor
  · rw [le_div_iff₀ (by linarith)]
    push_cast
    exact h1q
  · rw [div_lt_iff₀ (by linarith)]
    push_cast
    linarith

/-! ## Tables of the conversions -/

theorem minB_eq (a b : Nat) : minB a b = min a b := by
  unfold minB
  rw [Bool.cond_eq_ite]
  simp only [Nat.ble_eq]
  split
  · next h => exact (Nat.min_eq_left h).symm
  · next h => exact (Nat.min_eq_right (by omega)).symm

theorem expect_eq (a b : Nat) (exc : Bool) :
    expect a b exc = roundDiv a b + (if exc = true then 1 else 0) := by
  unfold expect
  rw [Bool.cond_eq_ite]
  rfl

theorem loadExc10_iff (v : Nat) : loadExc10 v = true ↔ v ∈ load_exceptions 10 := by
  simp [loadExc10, load_exceptions]

theorem loadExc12_iff (v : Nat) : loadExc12 v = true ↔ v ∈ load_exceptions 12 := by
  simp [loadExc12, load_exceptions]

theorem saveExc10_iff (s : Nat) : saveExc10 s = true ↔ s ∈ save_exceptions 10 := by
  simp [saveExc10, save_exceptions]

theorem saveExc12_iff (s : Nat) : saveExc12 s = true ↔ s ∈ save_exceptions 12 := by
  simp [saveExc12, save_exceptions]

theorem load10_expect_eq (v : Nat) :
    load10_expect v = roundDiv (v * 65535) 1023 + (if v ∈ load_exceptions 10 then 1 else 0) := by
  unfold load10_expect
  rw [expect_eq]
  simp only [loadExc10_iff]
  rfl

theorem load12_expect_eq (v : Nat) :
    load12_expect v = roundDiv (v * 65535) 4095 + (if v ∈ load_exceptions 12 then 1 else 0) := by
  unfold load12_expect
  rw [expect_eq]
  simp only [loadExc12_iff]
  rfl

theorem save10_expect_eq (s : Nat) :
    save10_expect s = roundDiv (s * 1023) 65535 + (if s ∈ save_exceptions 10 then 1 else 0) := by
  unfold save10_expect
  rw [expect_eq]
  simp only [saveExc10_iff]
  rfl

theorem save12_expect_eq (s : Nat) :
    save12_expect s = roundDiv (s * 4095) 65535 + (if s ∈ save_exceptions 12 then 1 else 0) := by
  unfold save12_expect
  rw [expect_eq]
  simp only [saveExc12_iff]
  rfl

theorem load10_table {v : Nat} (h : v < 1024) : load_pixel_10 v = load10_expect v := by
  have c := chk10_sound load10_ok 0 load10_check v h
  rw [Nat.zero_add] at c
  have e := Nat.eq_of_beq_eq_true c
  rw [load_pixel_10_eq, Nat.mod_eq_of_lt h, ← e]
  unfold load10_fast
  rw [minB_eq, rescaleB_eq]

theorem load12_table {v : Nat} (h : v < 4096) : load_pixel_12 v = load12_expect v := by
  have c := chk12_sound load12_ok 0 load12_check v h
  rw [Nat.zero_add] at c
  have e := Nat.eq_of_beq_eq_true c
  rw [load_pixel_12_eq, Nat.mod_eq_of_lt h, ← e]
  unfold load12_fast
  rw [minB_eq, rescaleB_eq]

theorem save10_fast_eq (s : Nat) : save10_fast s = min (rescaleCore s 65535 1023) 1023 := by
  unfold save10_fast
  rw [minB_eq, rescaleB_eq]

theorem save12_fast_eq (s : Nat) : save12_fast s = min (rescaleCore s 65535 4095) 4095 := by
  unfold save12_fast
  rw [minB_eq, rescaleB_eq]

theorem save10_fast_mono (s : Nat) : save10_fast s ≤ save10_fast (s + 1) := by
  rw [save10_fast_eq, save10_fast_eq]
  exact min_le_min_right _ (rescaleCore_mono _ (by norm_num) (Nat.le_succ s))

theorem save12_fast_mono (s : Nat) : save12_fast s ≤ save12_fast (s + 1) := by
  rw [save12_fast_eq, save12_fast_eq]
  exact min_le_min_right _ (rescaleCore_mono _ (by norm_num) (Nat.le_succ s))

theorem step_table {f g : Nat → Nat} {N : Nat} (hf : ∀ s, f s ≤ f (s + 1))
    (h0 : f 0 = g 0) (hN : f N = g N)
    (hs : ∀ s, s < N → g s = g (s + 1) ∨ (f s = g s ∧ f (s + 1) = g (s + 1))) :
    ∀ s, s ≤ N → f s = g s := by
  have lower : ∀ s, s ≤ N → g s ≤ f s := by
    intro s
    induction s with
    | zero => intro _; exact le_of_eq h0.symm
    | succ s ih =>
      intro h
      rcases hs s (by omega) with e | ⟨_, e⟩
      · rw [← e]; exact le_trans (ih (by omega)) (hf s)
      · exact le_of_eq e.symm
  have upper : ∀ k, k ≤ N → f (N - k) ≤ g (N - k) := by
    intro k
    induction k with
    | zero => intro _; exact le_of_eq hN
    | succ k ih =>
      intro h
      have e1 : N - (k + 1) + 1 = N - k := by omega
      rcases hs (N - (k + 1)) (by omega) with e | ⟨e, _⟩
      · rw [e, e1]
        have := hf (N - (k + 1))
        rw [e1] at this
        exact le_trans this (ih (by omega))
      · exact le_of_eq e
  intro s h
  have u := upper (N - s) (by omega)
  have e : N - (N - s) = s := by omega
  rw [e] at u
  exact le_antisymm u (lower s h)

theorem save10_pair_sound {s : Nat} (h : save10_pair s = true) :
    save10_fast s = save10_expect s ∧ save10_fast (s + 1) = save10_expect (s + 1) := by
  unfold save10_pair at h
  have h' := (Bool.and_eq_true _ _).mp h
  exact ⟨Nat.eq_of_beq_eq_true h'.1, Nat.eq_of_beq_eq_true h'.2⟩

theorem save12_pair_sound {s : Nat} (h : save12_pair s = true) :
    save12_fast s = save12_expect s ∧ save12_fast (s + 1) = save12_expect (s + 1) := by
  unfold save12_pair at h
  have h' := (Bool.and_eq_true _ _).mp h
  exact ⟨Nat.eq_of_beq_eq_true h'.1, Nat.eq_of_beq_eq_true h'.2⟩

theorem save10_hi_eq (k : Nat) : save10_hi k = ((2 * k + 1) * 65535 - 1) / 2046 := rfl

theorem save12_hi_eq (k : Nat) : save12_hi k = ((2 * k + 1) * 65535 - 1) / 8190 := rfl

theorem save10_near_sound {e s : Nat} (h : save10_near e = true) (hs : s + 1 = e ∨ s = e) :
    save10_fast s = save10_expect s ∧ save10_fast (s + 1) = save10_expect (s + 1) := by
  unfold save10_near at h
  have h' := (Bool.and_eq_true _ _).mp h
  rcases hs with a | a
  · have : s = Nat.pred e := by rw [← a]; rfl
    rw [this]
    exact save10_pair_sound h'.1
  · rw [a]
    exact save10_pair_sound h'.2

theorem save12_near_sound {e s : Nat} (h : save12_near e = true) (hs : s + 1 = e ∨ s = e) :
    save12_fast s = save12_expect s ∧ save12_fast (s + 1) = save12_expect (s + 1) := by
  unfold save12_near at h
  have h' := (Bool.and_eq_true _ _).mp h
  rcases hs with a | a
  · have : s = Nat.pred e := by rw [← a]; rfl
    rw [this]
    exact save12_pair_sound h'.1
  · rw [a]
    exact save12_pair_sound h'.2

theorem roundDiv_def (a b : Nat) : roundDiv a b = (2 * a + b) / (2 * b) := by
  unfold roundDiv
  exact Eq.refl _

theorem save10_steps (s : Nat) (h : s < 65535) :
    save10_expect s = save10_expect (s + 1) ∨
      (save10_fast s = save10_expect s ∧ save10_fast (s + 1) = save10_expect (s + 1)) := by
  by_cases hx : saveExc10 s = true ∨ saveExc10 (s + 1) = true
  · right
    apply save10_near_sound save10_exc_check
    unfold saveExc10 at hx
    simp only [Nat.beq_eq] at hx
    omega
  · have m1 : s ∉ save_exceptions 10 := fun h => hx (Or.inl ((saveExc10_iff s).mpr h))
    have m2 : s + 1 ∉ save_exceptions 10 :=
      fun h => hx (Or.inr ((saveExc10_iff (s + 1)).mpr h))
    have g1 := save10_expect_eq s
    have g2 := save10_expect_eq (s + 1)
    rw [if_neg m1, roundDiv_def] at g1
    rw [if_neg m2, roundDiv_def] at g2
    by_cases he : save10_expect s = save10_expect (s + 1)
    · exact Or.inl he
    · right
      have hk : save10_expect s < 1023 := by omega
      have hj := chk10_sound save10_jump 0 save10_check (save10_expect s) (by omega)
      rw [Nat.zero_add] at hj
      unfold save10_jump at hj
      have hb : Nat.ble 1023 (save10_expect s) = false := by
        cases hc : Nat.ble 1023 (save10_expect s)
        · rfl
        · have := Nat.le_of_ble_eq_true hc
          omega
      rw [hb, Bool.false_or] at hj
      have hh : save10_hi (save10_expect s) = s := by
        rw [save10_hi_eq]
        omega
      rw [hh] at hj
      exact save10_pair_sound hj

theorem save10_table {s : Nat} (h : s ≤ 65535) : save_pixel_10 s = save10_expect s := by
  have c := save_end_check
  simp only [Bool.and_eq_true] at c
  have t := step_table save10_fast_mono (Nat.eq_of_beq_eq_true c.1)
    (Nat.eq_of_beq_eq_true c.2.1) save10_steps s h
  rw [save_pixel_10_eq (by omega), ← save10_fast_eq]
  exact t

theorem save12_steps (s : Nat) (h : s < 65535) :
    save12_expect s = save12_expect (s + 1) ∨
      (save12_fast s = save12_expect s ∧ save12_fast (s + 1) = save12_expect (s + 1)) := by
  by_cases hx : saveExc12 s = true ∨ saveExc12 (s + 1) = true
  · right
    have c := save12_exc_check
    simp only [Bool.and_eq_true] at c
    obtain ⟨c1, c2, c3, c4, c5, c6, c7⟩ := c
    unfold saveExc12 at hx
    simp only [Bool.or_eq_true, Nat.beq_eq] at hx
    by_cases a1 : s + 1 = 34960 ∨ s = 34960
    · exact save12_near_sound c1 a1
    by_cases a2 : s + 1 = 39329 ∨ s = 39329
    · exact save12_near_sound c2 a2
    by_cases a3 : s + 1 = 43698 ∨ s = 43698
    · exact save12_near_sound c3 a3
    by_cases a4 : s + 1 = 48067 ∨ s = 48067
    · exact save12_near_sound c4 a4
    by_cases a5 : s + 1 = 52436 ∨ s = 52436
    · exact save12_near_sound c5 a5
    by_cases a6 : s + 1 = 56805 ∨ s = 56805
    · exact save12_near_sound c6 a6
    by_cases a7 : s + 1 = 61174 ∨ s = 61174
    · exact save12_near_sound c7 a7
    omega
  · have m1 : s ∉ save_exceptions 12 := fun h => hx (Or.inl ((saveExc12_iff s).mpr h))
    have m2 : s + 1 ∉ save_exceptions 12 :=
      fun h => hx (Or.inr ((saveExc12_iff (s + 1)).mpr h))
    have g1 := save12_expect_eq s
    have g2 := save12_expect_eq (s + 1)
    rw [if_neg m1, roundDiv_def] at g1
    rw [if_neg m2, roundDiv_def] at g2
    by_cases he : save12_expect s = save12_expect (s + 1)
    · exact Or.inl he
    · right
      have hk : save12_expect s < 4095 := by omega
      have hj := chk12_sound save12_jump 0 save12_check (save12_expect s) (by omega)
      rw [Nat.zero_add] at hj
      unfold save12_jump at hj
      have hb : Nat.ble 4095 (save12_expect s) = false := by
        cases hc : Nat.ble 4095 (save12_expect s)
        · rfl
        · have := Nat.le_of_ble_eq_true hc
          omega
      rw [hb, Bool.false_or] at hj
      have hh : save12_hi (save12_expect s) = s := by
        rw [save12_hi_eq]
        omega
      rw [hh] at hj
      exact save12_pair_sound hj

theorem save12_table {s : Nat} (h : s ≤ 65535) : save_pixel_12 s = save12_expect s := by
  have c := save_end_check
  simp only [Bool.and_eq_true] at c
  have t := step_table save12_fast_mono (Nat.eq_of_beq_eq_true c.2.2.1)
    (Nat.eq_of_beq_eq_true c.2.2.2) save12_steps s h
  rw [save_pixel_12_eq (by omega), ← save12_fast_eq]
  exact t

/-! ## Row loops -/

theorem load_row_eq (conv : Nat → Nat) (plane : Nat → Nat) (a n : Nat) :
    load_row conv plane a n = (List.range n).map (fun x => conv (read_u16 plane (a + 2 * x))) := by
  induction n generalizing a with
  | zero => rfl
  | succ n ih =>
    rw [load_row, ih, List.range_succ_eq_map, List.map_cons, List.map_map]
    congr 1
    apply List.map_congr_left
    intro x _
    show conv (read_u16 plane (a + 2 + 2 * x)) = conv (read_u16 plane (a + 2 * (x + 1)))
    rw [show a + 2 + 2 * x = a + 2 * (x + 1) by omega]

theorem load_rows_eq (conv : Nat → Nat) (plane : Nat → Nat) (stride rowentries y n : Nat) :
    load_rows conv plane stride rowentries y n =
      (List.range n).flatMap (fun i => load_row conv plane ((y + i) * stride) rowentries) := by
  induction n generalizing y with
  | zero => rfl
  | succ n ih =>
    rw [load_rows, ih, List.range_succ_eq_map, List.flatMap_cons, List.flatMap_map]
    congr 1
    apply List.flatMap_congr
    intro i _
    show load_row conv plane ((y + 1 + i) * stride) rowentries =
      load_row conv plane ((y + (i + 1)) * stride) rowentries
    rw [show y + 1 + i = y + (i + 1) by omega]

/-! ## Range of the stored values -/

theorem toUint16_CLAMP_le (x : Int) (hi : Nat) (hhi : hi < 65536) :
    toUint16 (CLAMP x 0 (hi : Int)) ≤ hi := by
  unfold toUint16 CLAMP
  split
  · omega
  · split <;> omega

theorem load_convert_10 (w : Nat) : load_convert 10 w = load_pixel_10 w := by
  unfold load_convert
  rw [if_pos (Eq.refl 10)]

theorem load_convert_12 (w : Nat) : load_convert 12 w = load_pixel_12 w := by
  unfold load_convert
  rw [if_neg (by decide), if_pos (Eq.refl 12)]

theorem save_convert_10 (w : Nat) : save_convert 10 w = save_pixel_10 w := by
  unfold save_convert
  rw [if_pos (Eq.refl 10)]

theorem save_convert_12 (w : Nat) : save_convert 12 w = save_pixel_12 w := by
  unfold save_convert
  rw [if_neg (by decide), if_pos (Eq.refl 12)]

theorem load_convert_default (d w : Nat) (h10 : d ≠ 10) (h12 : d ≠ 12) : load_convert d w = w := by
  unfold load_convert
  rw [if_neg h10, if_neg h12]

/-! ## Claims on the sample rescaling -/

theorem pow_10 : 2 ^ 10 - 1 = 1023 := by norm_num

theorem pow_12 : 2 ^ 12 - 1 = 4095 := by norm_num

/-- C1, counterexample: for the 10-bit sample 820 the `case 10` loop of `load_image` stores
52531, while the integer nearest to `820 * 65535 / 1023 = 52530.498...` is 52530.  The
binary32 product `((float) 820 / 1023.0f) * 65535.0f` is already rounded to 52530.5 (the
spacing of binary32 numbers there is `2 ^ -8`), so adding `0.5f` gives 52531. -/
theorem C1_load_formula_counterexample :
    load_convert 10 820 = 52531 ∧ roundDiv (820 * 65535) (2 ^ 10 - 1) = 52530 ∧
      load_convert 10 820 ≠ roundDiv (820 * 65535) (2 ^ 10 - 1) ∧
      2 * (F32.mul (F32.div (F32.ofNat (0x03ff &&& 820)) (F32.ofNat 1023))
            (F32.ofNat 65535)).num = 105061 * 2 ^ 149 := by
  have a : load_convert 10 820 = 52531 := by
    rw [load_convert_10, load10_table (by norm_num)]
    decide!
  have b : roundDiv (820 * 65535) (2 ^ 10 - 1) = 52530 := by decide!
  have m : 0x03ff &&& 820 = 820 := by decide
  have c : 2 * prodB 116 15 820 1023 65535 = 105061 * 2 ^ 149 := by decide!
  refine ⟨a, b, ?_, ?_⟩
  · rw [a, b]
    decide
  · rw [load_product_eq (by rw [m]; norm_num) (by norm_num), m, ← prodB_eq 116 15]
    exact c

/-- C1, amended: for `d` in {10, 12} and every sample `v < 2 ^ d`, the value `load_image`
stores in its `case d` loop is the integer nearest to `v * 65535 / (2 ^ d - 1)`, except at
`v = 820` for `d = 10` and at `v` in {2320, 2593, 2866, 3139, 3412, 3685, 3958} for `d = 12`,
where the binary32 evaluation yields that integer plus one. -/
theorem C1_load_formula_amended (d v : Nat) (hd : d = 10 ∨ d = 12) (hv : v < 2 ^ d) :
    load_convert d v =
      roundDiv (v * 65535) (2 ^ d - 1) + (if v ∈ load_exceptions d then 1 else 0) := by
  rcases hd with h | h
  · subst h
    rw [load_convert_10, load10_table (by omega), load10_expect_eq, pow_10]
  · subst h
    rw [load_convert_12, load12_table (by omega), load12_expect_eq, pow_12]

/-- C1, witness: the amended import formula at `d = 10`, `v = 820`. -/
theorem C1_load_formula_witness :
    (10 = 10 ∨ 10 = 12) ∧ 820 < 2 ^ 10 ∧
      load_convert 10 820 =
        roundDiv (820 * 65535) (2 ^ 10 - 1) + (if 820 ∈ load_exceptions 10 then 1 else 0) :=
  ⟨Or.inl rfl, by norm_num, C1_load_formula_amended 10 820 (Or.inl rfl) (by norm_num)⟩

/-- C2, counterexample: for the 16-bit sample 45772 the `case 10` loop of `save_image` stores
715, while the integer nearest to `45772 * 1023 / 65535 = 714.49997...` is 714.  The binary32
product `((float) 45772 / 65535.0f) * 1023.0f` is already rounded to 714.5 (the spacing of
binary32 numbers there is `2 ^ -14`), so adding `0.5f` gives 715. -/
theorem C2_save_formula_counterexample :
    save_convert 10 45772 = 715 ∧ roundDiv (45772 * (2 ^ 10 - 1)) 65535 = 714 ∧
      save_convert 10 45772 ≠ roundDiv (45772 * (2 ^ 10 - 1)) 65535 ∧
      2 * (F32.mul (F32.div (F32.ofNat 45772) (F32.ofNat 65535)) (F32.ofNat 1023)).num =
        1429 * 2 ^ 149 := by
  have a : save_convert 10 45772 = 715 := by
    rw [save_convert_10, save10_table (by norm_num)]
    decide!
  have b : roundDiv (45772 * (2 ^ 10 - 1)) 65535 = 714 := by decide!
  have c : 2 * prodB 110 9 45772 65535 1023 = 1429 * 2 ^ 149 := by decide!
  refine ⟨a, b, ?_, ?_⟩
  · rw [a, b]
    decide
  · rw [save_product_eq (by norm_num) (by norm_num), ← prodB_eq 110 9]
    exact c

/-- C2, amended: for `d` in {10, 12} and every 16-bit sample `s`, the value `save_image`
stores in its `case d` loop is the integer nearest to `s * (2 ^ d - 1) / 65535`, except at
`s = 45772` for `d = 10` and at `s` in {34960, 39329, 43698, 48067, 52436, 56805, 61174} for
`d = 12`, where the binary32 evaluation yields that integer plus one. -/
theorem C2_save_formula_amended (d s : Nat) (hd : d = 10 ∨ d = 12) (hs : s ≤ 65535) :
    save_convert d s =
      roundDiv (s * (2 ^ d - 1)) 65535 + (if s ∈ save_exceptions d then 1 else 0) := by
  rcases hd with h | h
  · subst h
    rw [save_convert_10, save10_table hs, save10_expect_eq, pow_10]
  · subst h
    rw [save_convert_12, save12_table hs, save12_expect_eq, pow_12]

/-- C2, witness: the amended export formula at `d = 12`, `s = 34960`. -/
theorem C2_save_formula_witness :
    (12 = 10 ∨ 12 = 12) ∧ 34960 ≤ 65535 ∧
      save_convert 12 34960 =
        roundDiv (34960 * (2 ^ 12 - 1)) 65535 + (if 34960 ∈ save_exceptions 12 then 1 else 0) :=
  ⟨Or.inr rfl, by norm_num, C2_save_formula_amended 12 34960 (Or.inr rfl) (by norm_num)⟩

theorem load_pixel_10_le (w : Nat) : load_pixel_10 w ≤ 65535 := by
  rw [load_pixel_10_eq]
  exact min_le_right _ _

theorem load_pixel_12_le (w : Nat) : load_pixel_12 w ≤ 65535 := by
  rw [load_pixel_12_eq]
  exact min_le_right _ _

/-- C3: for `d` in {10, 12} and every `v` in `[0, 2 ^ d - 1]`, the import conversion of
`load_image` followed by the export conversion of `save_image` returns `v`. -/
theorem C3_round_trip (d v : Nat) (hd : d = 10 ∨ d = 12) (hv : v < 2 ^ d) :
    save_convert d (load_convert d v) = v := by
  rcases hd with h | h
  · subst h
    have hv' : v < 1024 := by omega
    have c := chk10_sound trip10_ok 0 trip10_check v hv'
    rw [Nat.zero_add] at c
    rw [load_convert_10, save_convert_10, save10_table (load_pixel_10_le v), load10_table hv']
    exact Nat.eq_of_beq_eq_true c
  · subst h
    have hv' : v < 4096 := by omega
    have c := chk12_sound trip12_ok 0 trip12_check v hv'
    rw [Nat.zero_add] at c
    rw [load_convert_12, save_convert_12, save12_table (load_pixel_12_le v), load12_table hv']
    exact Nat.eq_of_beq_eq_true c

/-- C3, witness: the round trip at `d = 12`, `v = 2320`. -/
theorem C3_round_trip_witness :
    (12 = 10 ∨ 12 = 12) ∧ 2320 < 2 ^ 12 ∧ save_convert 12 (load_convert 12 2320) = 2320 :=
  ⟨Or.inr rfl, by norm_num, C3_round_trip 12 2320 (Or.inr rfl) (by norm_num)⟩

/-- C4: each of the four per-sample conversions is non-decreasing on its input range: for
`d` in {10, 12} and `v1 < v2`, the import results are ordered when `v2 < 2 ^ d` and the export
results are ordered when `v2 ≤ 65535`. -/
theorem C4_conversions_monotone (d v1 v2 : Nat) (hd : d = 10 ∨ d = 12) (h : v1 < v2) :
    (v2 < 2 ^ d → load_convert d v1 ≤ load_convert d v2) ∧
      (v2 ≤ 65535 → save_convert d v1 ≤ save_convert d v2) := by
  rcases hd with e | e
  · subst e
    constructor
    · intro h2
      rw [load_convert_10, load_convert_10, load_pixel_10_eq, load_pixel_10_eq,
        Nat.mod_eq_of_lt (by omega : v1 < 1024), Nat.mod_eq_of_lt (by omega : v2 < 1024)]
      exact min_le_min_right _ (rescaleCore_mono _ (by norm_num) (le_of_lt h))
    · intro h2
      rw [save_convert_10, save_convert_10, save_pixel_10_eq (by omega), save_pixel_10_eq (by omega)]
      exact min_le_min_right _ (rescaleCore_mono _ (by norm_num) (le_of_lt h))
  · subst e
    constructor
    · intro h2
      rw [load_convert_12, load_convert_12, load_pixel_12_eq, load_pixel_12_eq,
        Nat.mod_eq_of_lt (by omega : v1 < 4096), Nat.mod_eq_of_lt (by omega : v2 < 4096)]
      exact min_le_min_right _ (rescaleCore_mono _ (by norm_num) (le_of_lt h))
    · intro h2
      rw [save_convert_12, save_convert_12, save_pixel_12_eq (by omega), save_pixel_12_eq (by omega)]
      exact min_le_min_right _ (rescaleCore_mono _ (by norm_num) (le_of_lt h))

/-- C4, witness: monotonicity of the import and export conversions at `d = 10` between the
inputs 819 and 820. -/
theorem C4_conversions_monotone_witness :
    (10 = 10 ∨ 10 = 12) ∧ 819 < 820 ∧
      load_convert 10 819 ≤ load_convert 10 820 ∧ save_convert 10 819 ≤ save_convert 10 820 :=
  ⟨Or.inl rfl, by norm_num,
    (C4_conversions_monotone 10 819 820 (Or.inl rfl) (by norm_num)).1 (by norm_num),
    (C4_conversions_monotone 10 819 820 (Or.inl rfl) (by norm_num)).2 (by norm_num)⟩

/-- C5: in each of the four conversions the input 0 maps to 0 and the largest input maps to
the largest output: 1023 and 4095 to 65535 on import, 65535 to 1023 and to 4095 on export. -/
theorem C5_boundary_exact :
    load_convert 10 0 = 0 ∧ load_convert 10 1023 = 65535 ∧
    load_convert 12 0 = 0 ∧ load_convert 12 4095 = 65535 ∧
    save_convert 10 0 = 0 ∧ save_convert 10 65535 = 1023 ∧
    save_convert 12 0 = 0 ∧ save_convert 12 65535 = 4095 := by
  refine ⟨?_, ?_, ?_, ?_, ?_, ?_, ?_, ?_⟩
  · rw [load_convert_10, load10_table (by norm_num)]; decide!
  · rw [load_convert_10, load10_table (by norm_num)]; decide!
  · rw [load_convert_12, load12_table (by norm_num)]; decide!
  · rw [load_convert_12, load12_table (by norm_num)]; decide!
  · rw [save_convert_10, save10_table (by norm_num)]; decide!
  · rw [save_convert_10, save10_table (by norm_num)]; decide!
  · rw [save_convert_12, save12_table (by norm_num)]; decide!
  · rw [save_convert_12, save12_table (by norm_num)]; decide!

/-- C6: the import conversion for bit depth 10 maps the sample 512 to 32800, and the export
conversion for bit depth 10 maps 32800 back to 512. -/
theorem C6_example_512 : load_convert 10 512 = 32800 ∧ save_convert 10 32800 = 512 := by
  constructor
  · rw [load_convert_10, load10_table (by norm_num)]; decide!
  · rw [save_convert_10, save10_table (by norm_num)]; decide!

/-- C7: with decoded bit depth 16 the high-bit-depth import path of `load_image` copies the
samples unchanged: `data16` is, row after row, the `rowentries` words of each plane row. -/
theorem C7_identity_passthrough (plane : Nat → Nat) (stride width height : Nat)
    (has_alpha : Bool) :
    load_high_depth 16 plane stride width height has_alpha =
      (List.range height).flatMap (fun y =>
        (List.range (if has_alpha then width * 4 else width * 3)).map
          (fun x => read_u16 plane (y * stride + 2 * x))) := by
  unfold load_high_depth
  rw [load_rows_eq]
  apply List.flatMap_congr
  intro y _
  rw [load_row_eq, Nat.zero_add]
  apply List.map_congr_left
  intro x _
  exact load_convert_default 16 _ (by decide) (by decide)

/-- C8: for `d` in {10, 12} and every source word, the value written by the export
conversion is below `2 ^ d`, so it occupies only the low `d` bits of the stored word, and the
value written by the import conversion is at most 65535. -/
theorem C8_output_range (d w : Nat) (hd : d = 10 ∨ d = 12) :
    save_convert d w < 2 ^ d ∧ save_convert d w % 2 ^ d = save_convert d w ∧
      load_convert d w ≤ 65535 := by
  have key : save_convert d w < 2 ^ d ∧ load_convert d w ≤ 65535 := by
    rcases hd with e | e
    · subst e
      rw [save_convert_10, load_convert_10]
      have := toUint16_CLAMP_le (save_tmp_pixelval 1023 w) 1023 (by norm_num)
      have s : save_pixel_10 w ≤ 1023 := this
      exact ⟨by omega, load_pixel_10_le w⟩
    · subst e
      rw [save_convert_12, load_convert_12]
      have := toUint16_CLAMP_le (save_tmp_pixelval 4095 w) 4095 (by norm_num)
      have s : save_pixel_12 w ≤ 4095 := this
      exact ⟨by omega, load_pixel_12_le w⟩
  exact ⟨key.1, Nat.mod_eq_of_lt key.1, key.2⟩

/-- C8, witness: the output ranges at `d = 10` for the source word 65535. -/
theorem C8_output_range_witness :
    (10 = 10 ∨ 10 = 12) ∧ save_convert 10 65535 < 2 ^ 10 ∧
      save_convert 10 65535 % 2 ^ 10 = save_convert 10 65535 ∧ load_convert 10 65535 ≤ 65535 :=
  ⟨Or.inl rfl, C8_output_range 10 65535 (Or.inl rfl)⟩

/-! ## Claims on `nclx_to_gimp_profile` -/

/-- C9: for a descriptor whose `color_primaries` is `heif_color_primaries_unspecified`
(code 2), whatever its other fields and whatever the library does, `nclx_to_gimp_profile`
returns `NULL`; it also returns `NULL` for a `NULL` descriptor. -/
theorem C9_unspecified_is_null (lib : ColorLib) (nclx : heif_color_profile_nclx)
    (h : nclx.color_primaries = heif_color_primaries_unspecified) :
    nclx_to_gimp_profile lib (some nclx) = none ∧ nclx_to_gimp_profile lib none = none := by
  constructor
  · unfold nclx_to_gimp_profile
    simp only [h, if_true]
  · rfl

/-- C9, witness: a descriptor with `color_primaries = 2`, transfer sRGB and BT.709
chromaticities, with a library whose calls all succeed. -/
theorem C9_unspecified_is_null_witness :
    (2 : Nat) = heif_color_primaries_unspecified ∧
      nclx_to_gimp_profile ⟨fun _ _ _ => true, fun _ => true⟩
        (some ⟨2, 13, 6, 1, 0.64, 0.33, 0.3, 0.6, 0.15, 0.06, 0.3127, 0.329⟩) = none ∧
      nclx_to_gimp_profile ⟨fun _ _ _ => true, fun _ => true⟩ none = none :=
  ⟨rfl, C9_unspecified_is_null ⟨fun _ _ _ => true, fun _ => true⟩
    ⟨2, 13, 6, 1, 0.64, 0.33, 0.3, 0.6, 0.15, 0.06, 0.3127, 0.329⟩ rfl⟩

/-- C10: for every descriptor with `color_primaries` BT.709 (1) and
`transfer_characteristics` IEC 61966-2-1 (13), `nclx_to_gimp_profile` returns the built-in
sRGB profile of `gimp_color_profile_new_rgb_srgb`, not a profile made through lcms2,
whatever the chromaticity fields and whatever the library does. -/
theorem C10_srgb_shortcut (lib : ColorLib) (nclx : heif_color_profile_nclx)
    (hp : nclx.color_primaries = heif_color_primaries_ITU_R_BT_709_5)
    (ht : nclx.transfer_characteristics = heif_transfer_characteristic_IEC_61966_2_1) :
    nclx_to_gimp_profile lib (some nclx) = some GimpColorProfile.rgb_srgb := by
  unfold nclx_to_gimp_profile
  have n : heif_color_primaries_ITU_R_BT_709_5 ≠ heif_color_primaries_unspecified := by decide
  simp only [hp, ht, if_neg n, and_self, if_true]

/-- C10, witness: a BT.709 / sRGB descriptor with arbitrary (here zero) chromaticity fields
and a library whose calls all fail. -/
theorem C10_srgb_shortcut_witness :
    (1 : Nat) = heif_color_primaries_ITU_R_BT_709_5 ∧
      (13 : Nat) = heif_transfer_characteristic_IEC_61966_2_1 ∧
      nclx_to_gimp_profile ⟨fun _ _ _ => false, fun _ => false⟩
        (some ⟨1, 13, 0, 0, 0, 0, 0, 0, 0, 0, 0, 0⟩) = some GimpColorProfile.rgb_srgb :=
  ⟨rfl, rfl, C10_srgb_shortcut ⟨fun _ _ _ => false, fun _ => false⟩
    ⟨1, 13, 0, 0, 0, 0, 0, 0, 0, 0, 0, 0⟩ rfl rfl⟩

/-! ## Claims on the shortcuts and the `NULL` results of `nclx_to_gimp_profile` -/

theorem primaries_name_of_unspecified :
    primaries_name_of heif_color_primaries_unspecified = none := by decide

theorem primaries_name_of_eq_none (p : Nat) :
    primaries_name_of p = none ↔ p ∉ ([1, 4, 5, 6, 7, 8, 9, 10, 11, 12, 22] : List Nat) := by
  unfold primaries_name_of heif_color_primaries_ITU_R_BT_709_5
    heif_color_primaries_ITU_R_BT_470_6_System_M heif_color_primaries_ITU_R_BT_470_6_System_B_G
    heif_color_primaries_ITU_R_BT_601_6 heif_color_primaries_SMPTE_240M
  simp only [List.mem_cons, List.mem_singleton, List.not_mem_nil, or_false, not_or]
  constructor
  · intro h
    refine ⟨?_, ?_, ?_, ?_, ?_, ?_, ?_, ?_, ?_, ?_, ?_⟩ <;>
      (intro hp; rw [hp] at h; simp at h)
  · intro h
    obtain ⟨h1, h4, h5, h6, h7, h8, h9, h10, h11, h12, h22⟩ := h
    simp only [if_neg h1, if_neg h4, if_neg h5, if_neg h6, if_neg h7, if_neg h8, if_neg h9,
      if_neg h10, if_neg h11, if_neg h12, if_neg h22]

theorem nclx_general_path (lib : ColorLib) (nclx : heif_color_profile_nclx) (name : String)
    (hm : primaries_name_of nclx.color_primaries = some name)
    (hs : ¬ (nclx.color_primaries = heif_color_primaries_ITU_R_BT_709_5 ∧
      nclx.transfer_characteristics = heif_transfer_characteristic_IEC_61966_2_1))
    (hl : ¬ (nclx.color_primaries = heif_color_primaries_ITU_R_BT_709_5 ∧
      nclx.transfer_characteristics = heif_transfer_characteristic_linear)) :
    nclx_to_gimp_profile lib (some nclx) =
      if lib.cmsCreateRGBProfile_ok (nclx_lcms_profile nclx name).whitepoint
          (nclx_lcms_profile nclx name).primaries (nclx_lcms_profile nclx name).curve0 = true then
        (if lib.gimp_color_profile_new_from_lcms_profile_ok (nclx_lcms_profile nclx name) = true
          then some (GimpColorProfile.from_lcms (nclx_lcms_profile nclx name)) else none)
      else none := by
  have hu : nclx.color_primaries ≠ heif_color_primaries_unspecified := by
    intro h
    rw [h, primaries_name_of_unspecified] at hm
    exact Option.noConfusion hm
  unfold nclx_to_gimp_profile
  simp only [if_neg hu, if_neg hs, if_neg hl, hm]
  rfl

theorem nclx_general_path_ok (lib : ColorLib) (nclx : heif_color_profile_nclx) (name : String)
    (hm : primaries_name_of nclx.color_primaries = some name)
    (hs : ¬ (nclx.color_primaries = heif_color_primaries_ITU_R_BT_709_5 ∧
      nclx.transfer_characteristics = heif_transfer_characteristic_IEC_61966_2_1))
    (hl : ¬ (nclx.color_primaries = heif_color_primaries_ITU_R_BT_709_5 ∧
      nclx.transfer_characteristics = heif_transfer_characteristic_linear))
    (h1 : ∀ w p c, lib.cmsCreateRGBProfile_ok w p c = true)
    (h2 : ∀ p, lib.gimp_color_profile_new_from_lcms_profile_ok p = true) :
    nclx_to_gimp_profile lib (some nclx) =
      some (GimpColorProfile.from_lcms (nclx_lcms_profile nclx name)) := by
  rw [nclx_general_path lib nclx name hm hs hl, if_pos (h1 _ _ _), if_pos (h2 _)]

theorem nclx_general_path_curves (lib : ColorLib) (nclx : heif_color_profile_nclx) (name : String)
    (hm : primaries_name_of nclx.color_primaries = some name)
    (hs : ¬ (nclx.color_primaries = heif_color_primaries_ITU_R_BT_709_5 ∧
      nclx.transfer_characteristics = heif_transfer_characteristic_IEC_61966_2_1))
    (hl : ¬ (nclx.color_primaries = heif_color_primaries_ITU_R_BT_709_5 ∧
      nclx.transfer_characteristics = heif_transfer_characteristic_linear))
    (h1 : ∀ w p c, lib.cmsCreateRGBProfile_ok w p c = true)
    (h2 : ∀ p, lib.gimp_color_profile_new_from_lcms_profile_ok p = true) :
    (nclx_to_gimp_profile lib (some nclx)).bind GimpColorProfile.curves =
      some ((trc_of nclx.transfer_characteristics).1, (trc_of nclx.transfer_characteristics).1,
        (trc_of nclx.transfer_characteristics).1) := by
  rw [nclx_general_path_ok lib nclx name hm hs hl h1 h2]
  rfl

theorem nclx_general_path_chromaticities (lib : ColorLib) (nclx : heif_color_profile_nclx)
    (name : String) (hm : primaries_name_of nclx.color_primaries = some name)
    (hs : ¬ (nclx.color_primaries = heif_color_primaries_ITU_R_BT_709_5 ∧
      nclx.transfer_characteristics = heif_transfer_characteristic_IEC_61966_2_1))
    (hl : ¬ (nclx.color_primaries = heif_color_primaries_ITU_R_BT_709_5 ∧
      nclx.transfer_characteristics = heif_transfer_characteristic_linear))
    (h1 : ∀ w p c, lib.cmsCreateRGBProfile_ok w p c = true)
    (h2 : ∀ p, lib.gimp_color_profile_new_from_lcms_profile_ok p = true) :
    (nclx_to_gimp_profile lib (some nclx)).bind GimpColorProfile.chromaticities =
      some (⟨nclx.color_primary_white_x, nclx.color_primary_white_y, 1⟩,
        ⟨⟨nclx.color_primary_red_x, nclx.color_primary_red_y, 1⟩,
         ⟨nclx.color_primary_green_x, nclx.color_primary_green_y, 1⟩,
         ⟨nclx.color_primary_blue_x, nclx.color_primary_blue_y, 1⟩⟩) := by
  rw [nclx_general_path_ok lib nclx name hm hs hl h1 h2]
  rfl

theorem trc_of_709 :
    (trc_of heif_transfer_characteristic_ITU_R_BT_709_5).1 =
      cmsToneCurve.parametric 4 rec709_parameters := by
  unfold trc_of
  rw [if_pos rfl]

theorem trc_of_default (t : Nat) (h1 : t ≠ heif_transfer_characteristic_ITU_R_BT_709_5)
    (h4 : t ≠ heif_transfer_characteristic_ITU_R_BT_470_6_System_M)
    (h5 : t ≠ heif_transfer_characteristic_ITU_R_BT_470_6_System_B_G)
    (h8 : t ≠ heif_transfer_characteristic_linear) :
    (trc_of t).1 = cmsToneCurve.parametric 4 srgb_parameters := by
  unfold trc_of
  rw [if_neg h1, if_neg h4, if_neg h5, if_neg h8]

theorem trc_of_470M :
    (trc_of heif_transfer_characteristic_ITU_R_BT_470_6_System_M).1 = cmsToneCurve.gamma 2.2 := by
  unfold trc_of
  rw [if_neg (by decide), if_pos rfl]

theorem trc_of_470BG :
    (trc_of heif_transfer_characteristic_ITU_R_BT_470_6_System_B_G).1 =
      cmsToneCurve.gamma 2.8 := by
  unfold trc_of
  rw [if_neg (by decide), if_neg (by decide), if_pos rfl]

theorem trc_of_linear :
    (trc_of heif_transfer_characteristic_linear).1 = cmsToneCurve.gamma 1.0 := by
  unfold trc_of
  rw [if_neg (by decide), if_neg (by decide), if_neg (by decide), if_pos rfl]

/-- C11: for every descriptor with `color_primaries` BT.709 (1) and
`transfer_characteristics` linear (8), `nclx_to_gimp_profile` returns the built-in linear
sRGB profile; for every descriptor with mapped primaries other than BT.709 the result is
neither built-in profile, and when the library calls succeed it is the profile made through
lcms2, whatever the transfer code. -/
theorem C11_linear_shortcut (lib : ColorLib) (nclx : heif_color_profile_nclx) (name : String)
    (hm : primaries_name_of nclx.color_primaries = some name) :
    (nclx.color_primaries = heif_color_primaries_ITU_R_BT_709_5 →
      nclx.transfer_characteristics = heif_transfer_characteristic_linear →
      nclx_to_gimp_profile lib (some nclx) = some GimpColorProfile.rgb_srgb_linear) ∧
    (nclx.color_primaries ≠ heif_color_primaries_ITU_R_BT_709_5 →
      nclx_to_gimp_profile lib (some nclx) ≠ some GimpColorProfile.rgb_srgb ∧
      nclx_to_gimp_profile lib (some nclx) ≠ some GimpColorProfile.rgb_srgb_linear ∧
      ((∀ w p c, lib.cmsCreateRGBProfile_ok w p c = true) →
        (∀ p, lib.gimp_color_profile_new_from_lcms_profile_ok p = true) →
        nclx_to_gimp_profile lib (some nclx) =
          some (GimpColorProfile.from_lcms (nclx_lcms_profile nclx name)))) := by
  constructor
  · intro hp ht
    unfold nclx_to_gimp_profile
    have n : heif_color_primaries_ITU_R_BT_709_5 ≠ heif_color_primaries_unspecified := by decide
    have m : heif_transfer_characteristic_linear ≠ heif_transfer_characteristic_IEC_61966_2_1 := by
      decide
    simp only [hp, ht, if_neg n, and_self, if_true, true_and, if_neg m]
  · intro hp
    have hs : ¬ (nclx.color_primaries = heif_color_primaries_ITU_R_BT_709_5 ∧
        nclx.transfer_characteristics = heif_transfer_characteristic_IEC_61966_2_1) :=
      fun h => hp h.1
    have hl : ¬ (nclx.color_primaries = heif_color_primaries_ITU_R_BT_709_5 ∧
        nclx.transfer_characteristics = heif_transfer_characteristic_linear) :=
      fun h => hp h.1
    refine ⟨?_, ?_, fun h1 h2 => nclx_general_path_ok lib nclx name hm hs hl h1 h2⟩
    · rw [nclx_general_path lib nclx name hm hs hl]
      split
      · split
        · intro h
          exact GimpColorProfile.noConfusion (Option.some.inj h)
        · intro h
          exact Option.noConfusion h
      · intro h
        exact Option.noConfusion h
    · rw [nclx_general_path lib nclx name hm hs hl]
      split
      · split
        · intro h
          exact GimpColorProfile.noConfusion (Option.some.inj h)
        · intro h
          exact Option.noConfusion h
      · intro h
        exact Option.noConfusion h

/-- C11, witness: a BT.709 / linear descriptor gives the built-in linear profile, and a
BT.2020 (9) / linear descriptor gives neither built-in profile. -/
theorem C11_linear_shortcut_witness :
    primaries_name_of 1 = some "BT.709" ∧ primaries_name_of 9 = some "BT.2020" ∧
    nclx_to_gimp_profile ⟨fun _ _ _ => true, fun _ => true⟩
      (some ⟨1, 8, 0, 0, 0.64, 0.33, 0.3, 0.6, 0.15, 0.06, 0.3127, 0.329⟩) =
        some GimpColorProfile.rgb_srgb_linear ∧
    nclx_to_gimp_profile ⟨fun _ _ _ => true, fun _ => true⟩
      (some ⟨9, 8, 0, 0, 0.708, 0.292, 0.17, 0.797, 0.131, 0.046, 0.3127, 0.329⟩) ≠
        some GimpColorProfile.rgb_srgb_linear :=
  ⟨rfl, rfl,
    (C11_linear_shortcut ⟨fun _ _ _ => true, fun _ => true⟩
      ⟨1, 8, 0, 0, 0.64, 0.33, 0.3, 0.6, 0.15, 0.06, 0.3127, 0.329⟩ "BT.709" rfl).1 rfl rfl,
    ((C11_linear_shortcut ⟨fun _ _ _ => true, fun _ => true⟩
      ⟨9, 8, 0, 0, 0.708, 0.292, 0.17, 0.797, 0.131, 0.046, 0.3127, 0.329⟩ "BT.2020" rfl).2
        (by decide)).2.1⟩

/-- C12: for a non-`NULL` descriptor and a library whose two profile constructors succeed,
`nclx_to_gimp_profile` returns `NULL` exactly when `color_primaries` is the unspecified code
or is none of 1, 4, 5, 6, 7, 8, 9, 10, 11, 12, 22; the transfer code plays no part. -/
theorem C12_null_iff_unmapped (lib : ColorLib) (nclx : heif_color_profile_nclx)
    (h1 : ∀ w p c, lib.cmsCreateRGBProfile_ok w p c = true)
    (h2 : ∀ p, lib.gimp_color_profile_new_from_lcms_profile_ok p = true) :
    nclx_to_gimp_profile lib (some nclx) = none ↔
      (nclx.color_primaries = heif_color_primaries_unspecified ∨
        nclx.color_primaries ∉ ([1, 4, 5, 6, 7, 8, 9, 10, 11, 12, 22] : List Nat)) := by
  rw [← primaries_name_of_eq_none]
  cases hm : primaries_name_of nclx.color_primaries with
  | none =>
    have hp : nclx.color_primaries ≠ heif_color_primaries_ITU_R_BT_709_5 := by
      intro h
      rw [h] at hm
      exact absurd hm (by decide)
    constructor
    · intro _
      exact Or.inr rfl
    · intro _
      unfold nclx_to_gimp_profile
      simp only [hp, false_and, if_false, hm]
      split <;> rfl
  | some name =>
    have hu : nclx.color_primaries ≠ heif_color_primaries_unspecified := by
      intro h
      rw [h, primaries_name_of_unspecified] at hm
      exact Option.noConfusion hm
    constructor
    · intro h
      exfalso
      by_cases hs : nclx.color_primaries = heif_color_primaries_ITU_R_BT_709_5 ∧
          nclx.transfer_characteristics = heif_transfer_characteristic_IEC_61966_2_1
      · unfold nclx_to_gimp_profile at h
        simp only [if_neg hu, if_pos hs] at h
        exact Option.noConfusion h
      · by_cases hl : nclx.color_primaries = heif_color_primaries_ITU_R_BT_709_5 ∧
            nclx.transfer_characteristics = heif_transfer_characteristic_linear
        · unfold nclx_to_gimp_profile at h
          simp only [if_neg hu, if_neg hs, if_pos hl] at h
          exact Option.noConfusion h
        · rw [nclx_general_path_ok lib nclx name hm hs hl h1 h2] at h
          exact Option.noConfusion h
    · intro h
      rcases h with h | h
      · exact absurd h hu
      · exact Option.noConfusion h

/-- C12, witness: with a library that always succeeds, a descriptor with the unhandled
primaries code 3 gives `NULL`. -/
theorem C12_null_iff_unmapped_witness :
    nclx_to_gimp_profile ⟨fun _ _ _ => true, fun _ => true⟩
      (some ⟨3, 1, 0, 0, 0.64, 0.33, 0.3, 0.6, 0.15, 0.06, 0.3127, 0.329⟩) = none :=
  (C12_null_iff_unmapped ⟨fun _ _ _ => true, fun _ => true⟩
    ⟨3, 1, 0, 0, 0.64, 0.33, 0.3, 0.6, 0.15, 0.06, 0.3127, 0.329⟩
    (fun _ _ _ => rfl) (fun _ => rfl)).2 (Or.inr (by decide))

/-! ## Claims on the tone curves and chromaticities of the synthesized profile -/

/-- C13, counterexample: for the descriptor with primaries BT.2020 (9) and transfer BT.709
(1) the three tone curves are the parametric type-4 curve with the parameters of
`rec709_parameters`, whose first entry (gamma) is 2.2, not 2.4. -/
theorem C13_rec709_gamma_counterexample :
    (nclx_to_gimp_profile ⟨fun _ _ _ => true, fun _ => true⟩
      (some ⟨9, 1, 0, 0, 0.708, 0.292, 0.17, 0.797, 0.131, 0.046, 0.3127, 0.329⟩)).bind
        GimpColorProfile.curves =
      some (cmsToneCurve.parametric 4 [2.2, 1.0 / 1.099, 0.099 / 1.099, 1.0 / 4.5, 0.081],
        cmsToneCurve.parametric 4 [2.2, 1.0 / 1.099, 0.099 / 1.099, 1.0 / 4.5, 0.081],
        cmsToneCurve.parametric 4 [2.2, 1.0 / 1.099, 0.099 / 1.099, 1.0 / 4.5, 0.081]) ∧
    cmsToneCurve.parametric 4 [2.2, 1.0 / 1.099, 0.099 / 1.099, 1.0 / 4.5, 0.081] ≠
      cmsToneCurve.parametric 4 [2.4, 1.0 / 1.099, 0.099 / 1.099, 1.0 / 4.5, 0.081] := by
  constructor
  · have a := nclx_general_path_curves ⟨fun _ _ _ => true, fun _ => true⟩
      ⟨9, 1, 0, 0, 0.708, 0.292, 0.17, 0.797, 0.131, 0.046, 0.3127, 0.329⟩ "BT.2020" rfl
      (by decide) (by decide) (fun _ _ _ => rfl) (fun _ => rfl)
    have eb : (trc_of 1).1 = cmsToneCurve.parametric 4 rec709_parameters := trc_of_709
    rw [eb] at a
    exact a
  · intro h
    have e := (List.cons.inj (cmsToneCurve.parametric.inj h).2).1
    norm_num at e

/-- C13, amended: for a descriptor with mapped primaries and `transfer_characteristics`
BT.709 (1), when the library calls succeed, the tone curve of the synthesized profile is the
parametric type-4 curve with parameters gamma = 2.2, slope = 1/1.099, intercept =
0.099/1.099, linear_scale = 1/4.5, break = 0.081, the same for all three channels. -/
theorem C13_rec709_parameters_amended (lib : ColorLib) (nclx : heif_color_profile_nclx)
    (name : String) (hm : primaries_name_of nclx.color_primaries = some name)
    (ht : nclx.transfer_characteristics = heif_transfer_characteristic_ITU_R_BT_709_5)
    (h1 : ∀ w p c, lib.cmsCreateRGBProfile_ok w p c = true)
    (h2 : ∀ p, lib.gimp_color_profile_new_from_lcms_profile_ok p = true) :
    (nclx_to_gimp_profile lib (some nclx)).bind GimpColorProfile.curves =
      some (cmsToneCurve.parametric 4 [2.2, 1.0 / 1.099, 0.099 / 1.099, 1.0 / 4.5, 0.081],
        cmsToneCurve.parametric 4 [2.2, 1.0 / 1.099, 0.099 / 1.099, 1.0 / 4.5, 0.081],
        cmsToneCurve.parametric 4 [2.2, 1.0 / 1.099, 0.099 / 1.099, 1.0 / 4.5, 0.081]) := by
  have hs : ¬ (nclx.color_primaries = heif_color_primaries_ITU_R_BT_709_5 ∧
      nclx.transfer_characteristics = heif_transfer_characteristic_IEC_61966_2_1) := by
    rw [ht]
    exact fun h => absurd h.2 (by decide)
  have hl : ¬ (nclx.color_primaries = heif_color_primaries_ITU_R_BT_709_5 ∧
      nclx.transfer_characteristics = heif_transfer_characteristic_linear) := by
    rw [ht]
    exact fun h => absurd h.2 (by decide)
  rw [nclx_general_path_curves lib nclx name hm hs hl h1 h2, ht, trc_of_709]
  rfl

/-- C13, witness: the amended statement for BT.2020 primaries with BT.709 transfer. -/
theorem C13_rec709_parameters_witness :
    primaries_name_of 9 = some "BT.2020" ∧
    (1 : Nat) = heif_transfer_characteristic_ITU_R_BT_709_5 ∧
    (nclx_to_gimp_profile ⟨fun _ _ _ => true, fun _ => true⟩
      (some ⟨9, 1, 0, 0, 0.708, 0.292, 0.17, 0.797, 0.131, 0.046, 0.3127, 0.329⟩)).bind
        GimpColorProfile.curves =
      some (cmsToneCurve.parametric 4 [2.2, 1.0 / 1.099, 0.099 / 1.099, 1.0 / 4.5, 0.081],
        cmsToneCurve.parametric 4 [2.2, 1.0 / 1.099, 0.099 / 1.099, 1.0 / 4.5, 0.081],
        cmsToneCurve.parametric 4 [2.2, 1.0 / 1.099, 0.099 / 1.099, 1.0 / 4.5, 0.081]) :=
  ⟨rfl, rfl, C13_rec709_parameters_amended ⟨fun _ _ _ => true, fun _ => true⟩
    ⟨9, 1, 0, 0, 0.708, 0.292, 0.17, 0.797, 0.131, 0.046, 0.3127, 0.329⟩ "BT.2020" rfl rfl
    (fun _ _ _ => rfl) (fun _ => rfl)⟩

/-- C14, counterexample: with BT.2020 primaries, the transfer code BT.601 (6) yields the
parametric curve of `srgb_parameters` (the `default` branch), which differs from the curve
the transfer code BT.709 (1) yields for the same descriptor. -/
theorem C14_bt601_transfer_counterexample :
    (nclx_to_gimp_profile ⟨fun _ _ _ => true, fun _ => true⟩
      (some ⟨9, 6, 0, 0, 0.708, 0.292, 0.17, 0.797, 0.131, 0.046, 0.3127, 0.329⟩)).bind
        GimpColorProfile.curves =
      some (cmsToneCurve.parametric 4 srgb_parameters, cmsToneCurve.parametric 4 srgb_parameters,
        cmsToneCurve.parametric 4 srgb_parameters) ∧
    (nclx_to_gimp_profile ⟨fun _ _ _ => true, fun _ => true⟩
      (some ⟨9, 6, 0, 0, 0.708, 0.292, 0.17, 0.797, 0.131, 0.046, 0.3127, 0.329⟩)).bind
        GimpColorProfile.curves ≠
    (nclx_to_gimp_profile ⟨fun _ _ _ => true, fun _ => true⟩
      (some ⟨9, 1, 0, 0, 0.708, 0.292, 0.17, 0.797, 0.131, 0.046, 0.3127, 0.329⟩)).bind
        GimpColorProfile.curves := by
  have a := nclx_general_path_curves ⟨fun _ _ _ => true, fun _ => true⟩
    ⟨9, 6, 0, 0, 0.708, 0.292, 0.17, 0.797, 0.131, 0.046, 0.3127, 0.329⟩ "BT.2020" rfl
    (by decide) (by decide) (fun _ _ _ => rfl) (fun _ => rfl)
  have b := nclx_general_path_curves ⟨fun _ _ _ => true, fun _ => true⟩
    ⟨9, 1, 0, 0, 0.708, 0.292, 0.17, 0.797, 0.131, 0.046, 0.3127, 0.329⟩ "BT.2020" rfl
    (by decide) (by decide) (fun _ _ _ => rfl) (fun _ => rfl)
  have ea : (trc_of 6).1 = cmsToneCurve.parametric 4 srgb_parameters :=
    trc_of_default 6 (by decide) (by decide) (by decide) (by decide)
  have eb : (trc_of 1).1 = cmsToneCurve.parametric 4 rec709_parameters := trc_of_709
  rw [ea] at a
  rw [eb] at b
  refine ⟨a, ?_⟩
  rw [a, b]
  intro h
  have e := (List.cons.inj (cmsToneCurve.parametric.inj (Prod.mk.inj (Option.some.inj h)).1).2).1
  norm_num at e

/-- C14, amended: for a descriptor with mapped primaries and `transfer_characteristics`
BT.601 (6) or SMPTE 240M (7), when the library calls succeed, `nclx_to_gimp_profile` takes
the `default` branch of the transfer switch and selects the parametric type-4 curve of
`srgb_parameters`, the curve it also selects for IEC 61966-2-1, for all three channels. -/
theorem C14_bt601_transfer_amended (lib : ColorLib) (nclx : heif_color_profile_nclx)
    (name : String) (hm : primaries_name_of nclx.color_primaries = some name)
    (ht : nclx.transfer_characteristics = 6 ∨ nclx.transfer_characteristics = 7)
    (h1 : ∀ w p c, lib.cmsCreateRGBProfile_ok w p c = true)
    (h2 : ∀ p, lib.gimp_color_profile_new_from_lcms_profile_ok p = true) :
    (nclx_to_gimp_profile lib (some nclx)).bind GimpColorProfile.curves =
      some (cmsToneCurve.parametric 4 srgb_parameters, cmsToneCurve.parametric 4 srgb_parameters,
        cmsToneCurve.parametric 4 srgb_parameters) ∧
    cmsToneCurve.parametric 4 srgb_parameters =
      (trc_of heif_transfer_characteristic_IEC_61966_2_1).1 := by
  have hs : ¬ (nclx.color_primaries = heif_color_primaries_ITU_R_BT_709_5 ∧
      nclx.transfer_characteristics = heif_transfer_characteristic_IEC_61966_2_1) := by
    rcases ht with e | e <;> rw [e] <;> exact fun h => absurd h.2 (by decide)
  have hl : ¬ (nclx.color_primaries = heif_color_primaries_ITU_R_BT_709_5 ∧
      nclx.transfer_characteristics = heif_transfer_characteristic_linear) := by
    rcases ht with e | e <;> rw [e] <;> exact fun h => absurd h.2 (by decide)
  have hd : (trc_of nclx.transfer_characteristics).1 = cmsToneCurve.parametric 4 srgb_parameters := by
    rcases ht with e | e <;> rw [e] <;>
      exact trc_of_default _ (by decide) (by decide) (by decide) (by decide)
  constructor
  · rw [nclx_general_path_curves lib nclx name hm hs hl h1 h2, hd]
  · exact (trc_of_default _ (by decide) (by decide) (by decide) (by decide)).symm

/-- C14, witness: the amended statement for BT.2020 primaries with SMPTE 240M transfer. -/
theorem C14_bt601_transfer_witness :
    primaries_name_of 9 = some "BT.2020" ∧ ((7 : Nat) = 6 ∨ (7 : Nat) = 7) ∧
    (nclx_to_gimp_profile ⟨fun _ _ _ => true, fun _ => true⟩
      (some ⟨9, 7, 0, 0, 0.708, 0.292, 0.17, 0.797, 0.131, 0.046, 0.3127, 0.329⟩)).bind
        GimpColorProfile.curves =
      some (cmsToneCurve.parametric 4 srgb_parameters, cmsToneCurve.parametric 4 srgb_parameters,
        cmsToneCurve.parametric 4 srgb_parameters) :=
  ⟨rfl, Or.inr rfl, (C14_bt601_transfer_amended ⟨fun _ _ _ => true, fun _ => true⟩
    ⟨9, 7, 0, 0, 0.708, 0.292, 0.17, 0.797, 0.131, 0.046, 0.3127, 0.329⟩ "BT.2020" rfl
    (Or.inr rfl) (fun _ _ _ => rfl) (fun _ => rfl)).1⟩

/-- C15: for a descriptor on the synthesis path (mapped primaries, not the BT.709 / sRGB
shortcut) whose `transfer_characteristics` is none of BT.709 (1), BT.470 System M (4),
BT.470 System B/G (5) and linear (8), in particular for IEC 61966-2-1 (13), when the library
calls succeed the tone curve of all three channels is the parametric type-4 curve with
gamma = 2.4, slope = 1/1.055, intercept = 0.055/1.055, linear_scale = 1/12.92,
break = 0.04045. -/
theorem C15_srgb_default_curve (lib : ColorLib) (nclx : heif_color_profile_nclx)
    (name : String) (hm : primaries_name_of nclx.color_primaries = some name)
    (hs : ¬ (nclx.color_primaries = heif_color_primaries_ITU_R_BT_709_5 ∧
      nclx.transfer_characteristics = heif_transfer_characteristic_IEC_61966_2_1))
    (t1 : nclx.transfer_characteristics ≠ heif_transfer_characteristic_ITU_R_BT_709_5)
    (t4 : nclx.transfer_characteristics ≠ heif_transfer_characteristic_ITU_R_BT_470_6_System_M)
    (t5 : nclx.transfer_characteristics ≠ heif_transfer_characteristic_ITU_R_BT_470_6_System_B_G)
    (t8 : nclx.transfer_characteristics ≠ heif_transfer_characteristic_linear)
    (h1 : ∀ w p c, lib.cmsCreateRGBProfile_ok w p c = true)
    (h2 : ∀ p, lib.gimp_color_profile_new_from_lcms_profile_ok p = true) :
    (nclx_to_gimp_profile lib (some nclx)).bind GimpColorProfile.curves =
      some (cmsToneCurve.parametric 4 [2.4, 1.0 / 1.055, 0.055 / 1.055, 1.0 / 12.92, 0.04045],
        cmsToneCurve.parametric 4 [2.4, 1.0 / 1.055, 0.055 / 1.055, 1.0 / 12.92, 0.04045],
        cmsToneCurve.parametric 4 [2.4, 1.0 / 1.055, 0.055 / 1.055, 1.0 / 12.92, 0.04045]) := by
  have hl : ¬ (nclx.color_primaries = heif_color_primaries_ITU_R_BT_709_5 ∧
      nclx.transfer_characteristics = heif_transfer_characteristic_linear) :=
    fun h => t8 h.2
  rw [nclx_general_path_curves lib nclx name hm hs hl h1 h2, trc_of_default _ t1 t4 t5 t8]
  rfl

/-- C15, witness: BT.2020 primaries with transfer IEC 61966-2-1 (13). -/
theorem C15_srgb_default_curve_witness :
    primaries_name_of 9 = some "BT.2020" ∧
    (nclx_to_gimp_profile ⟨fun _ _ _ => true, fun _ => true⟩
      (some ⟨9, 13, 0, 0, 0.708, 0.292, 0.17, 0.797, 0.131, 0.046, 0.3127, 0.329⟩)).bind
        GimpColorProfile.curves =
      some (cmsToneCurve.parametric 4 [2.4, 1.0 / 1.055, 0.055 / 1.055, 1.0 / 12.92, 0.04045],
        cmsToneCurve.parametric 4 [2.4, 1.0 / 1.055, 0.055 / 1.055, 1.0 / 12.92, 0.04045],
        cmsToneCurve.parametric 4 [2.4, 1.0 / 1.055, 0.055 / 1.055, 1.0 / 12.92, 0.04045]) :=
  ⟨rfl, C15_srgb_default_curve ⟨fun _ _ _ => true, fun _ => true⟩
    ⟨9, 13, 0, 0, 0.708, 0.292, 0.17, 0.797, 0.131, 0.046, 0.3127, 0.329⟩ "BT.2020" rfl
    (by decide) (by decide) (by decide) (by decide) (by decide)
    (fun _ _ _ => rfl) (fun _ => rfl)⟩

/-- C16: on the synthesis path, when the library calls succeed, the transfer code BT.470
System M (4) yields the pure gamma curve 2.2, BT.470 System B/G (5) yields 2.8, and linear
(8, with primaries other than BT.709) yields 1.0, each for all three channels. -/
theorem C16_pure_gamma_curves (lib : ColorLib) (nclx : heif_color_profile_nclx)
    (name : String) (hm : primaries_name_of nclx.color_primaries = some name)
    (h1 : ∀ w p c, lib.cmsCreateRGBProfile_ok w p c = true)
    (h2 : ∀ p, lib.gimp_color_profile_new_from_lcms_profile_ok p = true) :
    (nclx.transfer_characteristics = heif_transfer_characteristic_ITU_R_BT_470_6_System_M →
      (nclx_to_gimp_profile lib (some nclx)).bind GimpColorProfile.curves =
        some (cmsToneCurve.gamma 2.2, cmsToneCurve.gamma 2.2, cmsToneCurve.gamma 2.2)) ∧
    (nclx.transfer_characteristics = heif_transfer_characteristic_ITU_R_BT_470_6_System_B_G →
      (nclx_to_gimp_profile lib (some nclx)).bind GimpColorProfile.curves =
        some (cmsToneCurve.gamma 2.8, cmsToneCurve.gamma 2.8, cmsToneCurve.gamma 2.8)) ∧
    (nclx.transfer_characteristics = heif_transfer_characteristic_linear →
      nclx.color_primaries ≠ heif_color_primaries_ITU_R_BT_709_5 →
      (nclx_to_gimp_profile lib (some nclx)).bind GimpColorProfile.curves =
        some (cmsToneCurve.gamma 1.0, cmsToneCurve.gamma 1.0, cmsToneCurve.gamma 1.0)) := by
  refine ⟨?_, ?_, ?_⟩
  · intro ht
    rw [nclx_general_path_curves lib nclx name hm (by rw [ht]; exact fun h => absurd h.2 (by decide))
      (by rw [ht]; exact fun h => absurd h.2 (by decide)) h1 h2, ht, trc_of_470M]
  · intro ht
    rw [nclx_general_path_curves lib nclx name hm (by rw [ht]; exact fun h => absurd h.2 (by decide))
      (by rw [ht]; exact fun h => absurd h.2 (by decide)) h1 h2, ht, trc_of_470BG]
  · intro ht hp
    rw [nclx_general_path_curves lib nclx name hm (fun h => hp h.1) (fun h => hp h.1) h1 h2, ht,
      trc_of_linear]

/-- C16, witness: BT.2020 primaries with the transfer codes 4, 5 and 8. -/
theorem C16_pure_gamma_curves_witness :
    primaries_name_of 9 = some "BT.2020" ∧
    (nclx_to_gimp_profile ⟨fun _ _ _ => true, fun _ => true⟩
      (some ⟨9, 4, 0, 0, 0.708, 0.292, 0.17, 0.797, 0.131, 0.046, 0.3127, 0.329⟩)).bind
        GimpColorProfile.curves =
      some (cmsToneCurve.gamma 2.2, cmsToneCurve.gamma 2.2, cmsToneCurve.gamma 2.2) ∧
    (nclx_to_gimp_profile ⟨fun _ _ _ => true, fun _ => true⟩
      (some ⟨9, 5, 0, 0, 0.708, 0.292, 0.17, 0.797, 0.131, 0.046, 0.3127, 0.329⟩)).bind
        GimpColorProfile.curves =
      some (cmsToneCurve.gamma 2.8, cmsToneCurve.gamma 2.8, cmsToneCurve.gamma 2.8) ∧
    (nclx_to_gimp_profile ⟨fun _ _ _ => true, fun _ => true⟩
      (some ⟨9, 8, 0, 0, 0.708, 0.292, 0.17, 0.797, 0.131, 0.046, 0.3127, 0.329⟩)).bind
        GimpColorProfile.curves =
      some (cmsToneCurve.gamma 1.0, cmsToneCurve.gamma 1.0, cmsToneCurve.gamma 1.0) :=
  ⟨rfl,
    (C16_pure_gamma_curves ⟨fun _ _ _ => true, fun _ => true⟩
      ⟨9, 4, 0, 0, 0.708, 0.292, 0.17, 0.797, 0.131, 0.046, 0.3127, 0.329⟩ "BT.2020" rfl
      (fun _ _ _ => rfl) (fun _ => rfl)).1 rfl,
    (C16_pure_gamma_curves ⟨fun _ _ _ => true, fun _ => true⟩
      ⟨9, 5, 0, 0, 0.708, 0.292, 0.17, 0.797, 0.131, 0.046, 0.3127, 0.329⟩ "BT.2020" rfl
      (fun _ _ _ => rfl) (fun _ => rfl)).2.1 rfl,
    (C16_pure_gamma_curves ⟨fun _ _ _ => true, fun _ => true⟩
      ⟨9, 8, 0, 0, 0.708, 0.292, 0.17, 0.797, 0.131, 0.046, 0.3127, 0.329⟩ "BT.2020" rfl
      (fun _ _ _ => rfl) (fun _ => rfl)).2.2 rfl (by decide)⟩

/-- C17, counterexample: two descriptors with the same mapped primaries code (9) and the
same transfer code (1) whose `color_primary_white_x` fields differ yield profiles with
different white points: the chromaticities are copied from the descriptor. -/
theorem C17_chromaticities_counterexample :
    (⟨9, 1, 0, 0, 0.708, 0.292, 0.17, 0.797, 0.131, 0.046, 0.3127, 0.329⟩ :
      heif_color_profile_nclx).color_primaries =
    (⟨9, 1, 0, 0, 0.708, 0.292, 0.17, 0.797, 0.131, 0.046, 0.3457, 0.329⟩ :
      heif_color_profile_nclx).color_primaries ∧
    (⟨9, 1, 0, 0, 0.708, 0.292, 0.17, 0.797, 0.131, 0.046, 0.3127, 0.329⟩ :
      heif_color_profile_nclx).transfer_characteristics =
    (⟨9, 1, 0, 0, 0.708, 0.292, 0.17, 0.797, 0.131, 0.046, 0.3457, 0.329⟩ :
      heif_color_profile_nclx).transfer_characteristics ∧
    primaries_name_of 9 = some "BT.2020" ∧
    (nclx_to_gimp_profile ⟨fun _ _ _ => true, fun _ => true⟩
      (some ⟨9, 1, 0, 0, 0.708, 0.292, 0.17, 0.797, 0.131, 0.046, 0.3127, 0.329⟩)).bind
        GimpColorProfile.chromaticities ≠
    (nclx_to_gimp_profile ⟨fun _ _ _ => true, fun _ => true⟩
      (some ⟨9, 1, 0, 0, 0.708, 0.292, 0.17, 0.797, 0.131, 0.046, 0.3457, 0.329⟩)).bind
        GimpColorProfile.chromaticities := by
  refine ⟨rfl, rfl, rfl, ?_⟩
  have a := nclx_general_path_chromaticities ⟨fun _ _ _ => true, fun _ => true⟩
    ⟨9, 1, 0, 0, 0.708, 0.292, 0.17, 0.797, 0.131, 0.046, 0.3127, 0.329⟩ "BT.2020" rfl
    (by decide) (by decide) (fun _ _ _ => rfl) (fun _ => rfl)
  have b := nclx_general_path_chromaticities ⟨fun _ _ _ => true, fun _ => true⟩
    ⟨9, 1, 0, 0, 0.708, 0.292, 0.17, 0.797, 0.131, 0.046, 0.3457, 0.329⟩ "BT.2020" rfl
    (by decide) (by decide) (fun _ _ _ => rfl) (fun _ => rfl)
  rw [a, b]
  intro h
  have e := (cmsCIExyY.mk.inj (Prod.mk.inj (Option.some.inj h)).1).1
  norm_num at e

/-- C17, amended: on the synthesis path, when the library calls succeed, the white point
and the red/green/blue chromaticities of the synthesized profile are the descriptor's own
coordinate fields `color_primary_white_x` ... `color_primary_blue_y` (with `Y = 1`), so two
descriptors yield profiles with equal white point and primaries exactly when their eight
coordinate fields are equal, whatever their primaries and transfer codes. -/
theorem C17_chromaticities_amended (lib : ColorLib) (a b : heif_color_profile_nclx)
    (na nb : String) (hma : primaries_name_of a.color_primaries = some na)
    (hmb : primaries_name_of b.color_primaries = some nb)
    (hsa : ¬ (a.color_primaries = heif_color_primaries_ITU_R_BT_709_5 ∧
      a.transfer_characteristics = heif_transfer_characteristic_IEC_61966_2_1))
    (hla : ¬ (a.color_primaries = heif_color_primaries_ITU_R_BT_709_5 ∧
      a.transfer_characteristics = heif_transfer_characteristic_linear))
    (hsb : ¬ (b.color_primaries = heif_color_primaries_ITU_R_BT_709_5 ∧
      b.transfer_characteristics = heif_transfer_characteristic_IEC_61966_2_1))
    (hlb : ¬ (b.color_primaries = heif_color_primaries_ITU_R_BT_709_5 ∧
      b.transfer_characteristics = heif_transfer_characteristic_linear))
    (h1 : ∀ w p c, lib.cmsCreateRGBProfile_ok w p c = true)
    (h2 : ∀ p, lib.gimp_color_profile_new_from_lcms_profile_ok p = true) :
    (nclx_to_gimp_profile lib (some a)).bind GimpColorProfile.chromaticities =
      some (⟨a.color_primary_white_x, a.color_primary_white_y, 1⟩,
        ⟨⟨a.color_primary_red_x, a.color_primary_red_y, 1⟩,
         ⟨a.color_primary_green_x, a.color_primary_green_y, 1⟩,
         ⟨a.color_primary_blue_x, a.color_primary_blue_y, 1⟩⟩) ∧
    ((nclx_to_gimp_profile lib (some a)).bind GimpColorProfile.chromaticities =
      (nclx_to_gimp_profile lib (some b)).bind GimpColorProfile.chromaticities ↔
      (a.color_primary_white_x = b.color_primary_white_x ∧
       a.color_primary_white_y = b.color_primary_white_y ∧
       a.color_primary_red_x = b.color_primary_red_x ∧
       a.color_primary_red_y = b.color_primary_red_y ∧
       a.color_primary_green_x = b.color_primary_green_x ∧
       a.color_primary_green_y = b.color_primary_green_y ∧
       a.color_primary_blue_x = b.color_primary_blue_x ∧
       a.color_primary_blue_y = b.color_primary_blue_y)) := by
  have ea := nclx_general_path_chromaticities lib a na hma hsa hla h1 h2
  have eb := nclx_general_path_chromaticities lib b nb hmb hsb hlb h1 h2
  refine ⟨ea, ?_⟩
  rw [ea, eb]
  constructor
  · intro h
    have hp := Prod.mk.inj (Option.some.inj h)
    have hw := cmsCIExyY.mk.inj hp.1
    have ht := cmsCIExyYTRIPLE.mk.inj hp.2
    have hr := cmsCIExyY.mk.inj ht.1
    have hg := cmsCIExyY.mk.inj ht.2.1
    have hb := cmsCIExyY.mk.inj ht.2.2
    exact ⟨hw.1, hw.2.1, hr.1, hr.2.1, hg.1, hg.2.1, hb.1, hb.2.1⟩
  · intro h
    obtain ⟨w1, w2, r1, r2, g1, g2, b1, b2⟩ := h
    rw [w1, w2, r1, r2, g1, g2, b1, b2]

/-- C17, witness: descriptors with primaries codes 9 and 12 and transfer codes 1 and 4 but
equal coordinate fields yield equal chromaticities. -/
theorem C17_chromaticities_witness :
    primaries_name_of 9 = some "BT.2020" ∧
    primaries_name_of 12 = some "SMPTE EG 432-1 (DCI P3)" ∧
    (nclx_to_gimp_profile ⟨fun _ _ _ => true, fun _ => true⟩
      (some ⟨9, 1, 0, 0, 0.708, 0.292, 0.17, 0.797, 0.131, 0.046, 0.3127, 0.329⟩)).bind
        GimpColorProfile.chromaticities =
    (nclx_to_gimp_profile ⟨fun _ _ _ => true, fun _ => true⟩
      (some ⟨12, 4, 0, 0, 0.708, 0.292, 0.17, 0.797, 0.131, 0.046, 0.3127, 0.329⟩)).bind
        GimpColorProfile.chromaticities :=
  ⟨rfl, rfl, (C17_chromaticities_amended ⟨fun _ _ _ => true, fun _ => true⟩
    ⟨9, 1, 0, 0, 0.708, 0.292, 0.17, 0.797, 0.131, 0.046, 0.3127, 0.329⟩
    ⟨12, 4, 0, 0, 0.708, 0.292, 0.17, 0.797, 0.131, 0.046, 0.3127, 0.329⟩
    "BT.2020" "SMPTE EG 432-1 (DCI P3)" rfl rfl (by decide) (by decide) (by decide) (by decide)
    (fun _ _ _ => rfl) (fun _ => rfl)).2.2 ⟨rfl, rfl, rfl, rfl, rfl, rfl, rfl, rfl⟩⟩

/-! ## Claims on unsupported bit depths and on the number of layers -/

theorem load_high_depth_default (d : Nat) (h10 : d ≠ 10) (h12 : d ≠ 12) (plane : Nat → Nat)
    (stride width height : Nat) (has_alpha : Bool) :
    load_high_depth d plane stride width height has_alpha =
      (List.range height).flatMap (fun y =>
        (List.range (if has_alpha then width * 4 else width * 3)).map
          (fun x => read_u16 plane (y * stride + 2 * x))) := by
  unfold load_high_depth
  rw [load_rows_eq]
  apply List.flatMap_congr
  intro y _
  rw [load_row_eq, Nat.zero_add]
  apply List.map_congr_left
  intro x _
  exact load_convert_default d _ h10 h12

theorem load_image_samples_default (d : Nat) (h8 : d ≠ 8) (h10 : d ≠ 10) (h12 : d ≠ 12)
    (has_alpha : Bool) (plane8 plane16 : Nat → Nat) (stride width height : Nat) :
    load_image_samples (d : Int) has_alpha none plane8 plane16 stride width height =
      Except.ok ((List.range height).flatMap (fun y =>
        (List.range (if has_alpha then width * 4 else width * 3)).map
          (fun x => read_u16 plane16 (y * stride + 2 * x)))) := by
  unfold load_image_samples
  have hn : ¬ ((d : Int) < 0) := by omega
  have h8i : ¬ ((d : Int) = 8) := by omega
  rw [if_neg hn]
  simp only [if_neg h8i, Int.toNat_ofNat]
  rw [load_high_depth_default d h10 h12]

/-- C18: `load_image` does not fail on a decoded luma bit depth of 14 (nor 9, nor 11): with
a successful decode it takes the high-bit-depth branch, whose `switch (bit_depth)` has no
case for these depths, and the `default` loop stores every 16-bit word of the plane
unchanged.  A one-pixel 14-bit image of full-scale samples 16383 is imported as 16383 in
16-bit precision. -/
theorem C18_unsupported_depth_is_copied (has_alpha : Bool) (plane8 plane16 : Nat → Nat)
    (stride width height : Nat) :
    load_image_samples 14 has_alpha none plane8 plane16 stride width height =
      Except.ok ((List.range height).flatMap (fun y =>
        (List.range (if has_alpha then width * 4 else width * 3)).map
          (fun x => read_u16 plane16 (y * stride + 2 * x)))) ∧
    load_image_samples 9 has_alpha none plane8 plane16 stride width height =
      Except.ok ((List.range height).flatMap (fun y =>
        (List.range (if has_alpha then width * 4 else width * 3)).map
          (fun x => read_u16 plane16 (y * stride + 2 * x)))) ∧
    load_image_samples 11 has_alpha none plane8 plane16 stride width height =
      Except.ok ((List.range height).flatMap (fun y =>
        (List.range (if has_alpha then width * 4 else width * 3)).map
          (fun x => read_u16 plane16 (y * stride + 2 * x)))) ∧
    load_image_samples 14 false none (fun _ => 0) (fun _ => 16383) 6 1 1 =
      Except.ok [16383, 16383, 16383] :=
  ⟨load_image_samples_default 14 (by decide) (by decide) (by decide) _ _ _ _ _ _,
   load_image_samples_default 9 (by decide) (by decide) (by decide) _ _ _ _ _ _,
   load_image_samples_default 11 (by decide) (by decide) (by decide) _ _ _ _ _ _,
   (load_image_samples_default 14 (by decide) (by decide) (by decide) _ _ _ _ _ _).trans rfl⟩

theorem save_image_created_unsupported (chroma : heif_chroma) (create_error : Option String)
    (error : String) :
    save_image_created chroma create_error ≠
      SaveStart.returned_false error [SaveCall.heif_context_free] := by
  unfold save_image_created
  cases create_error with
  | none => exact fun h => SaveStart.noConfusion h
  | some message =>
    intro h
    have e := (SaveStart.returned_false.inj h).2
    exact SaveCall.noConfusion (List.cons.inj e).1

/-- C19, counterexample: when `heif_context_alloc` returned no context, `save_image` with
`save-bit-depth` 9 returns `FALSE` with the error 'cannot allocate heif_context', not with
'Unsupported bit depth: 9'. -/
theorem C19_unsupported_depth_counterexample :
    ¬ ((9 : Int) = 8 ∨ (9 : Int) = 10 ∨ (9 : Int) = 12) ∧
    save_image_start false 9 false true none =
      SaveStart.returned_false "cannot allocate heif_context" [] ∧
    save_image_start false 9 false true none ≠
      SaveStart.returned_false "Unsupported bit depth: 9" [SaveCall.heif_context_free] := by
  refine ⟨by decide, rfl, ?_⟩
  intro h
  have e := (SaveStart.returned_false.inj h).2
  exact List.noConfusion e

/-- C19, amended: provided `heif_context_alloc` returned a context, `save_image` returns
`FALSE` with the error 'Unsupported bit depth: N', having called only `heif_context_free`
(no `heif_image_create`, so before any heif image exists or any pixel is read), if and only
if `save-bit-depth` is not one of 8, 10, 12; in particular the values 9 and 11, which lie in
the declared argument range 8..12, are rejected. -/
theorem C19_unsupported_depth_amended (save_bit_depth : Int) (has_alpha little_endian : Bool)
    (create_error : Option String) :
    (save_image_start true save_bit_depth has_alpha little_endian create_error =
        SaveStart.returned_false ("Unsupported bit depth: " ++ toString save_bit_depth)
          [SaveCall.heif_context_free] ↔
      ¬ (save_bit_depth = 8 ∨ save_bit_depth = 10 ∨ save_bit_depth = 12)) ∧
    (save_bit_depth_min ≤ 9 ∧ 9 ≤ save_bit_depth_max ∧
      save_image_start true 9 has_alpha little_endian create_error =
        SaveStart.returned_false "Unsupported bit depth: 9" [SaveCall.heif_context_free]) ∧
    (save_bit_depth_min ≤ 11 ∧ 11 ≤ save_bit_depth_max ∧
      save_image_start true 11 has_alpha little_endian create_error =
        SaveStart.returned_false "Unsupported bit depth: 11" [SaveCall.heif_context_free]) := by
  refine ⟨?_, ⟨by decide, by decide, ?_⟩, ⟨by decide, by decide, ?_⟩⟩
  · unfold save_image_start
    rw [if_neg (by decide)]
    by_cases h8 : save_bit_depth = 8
    · rw [if_pos h8]
      constructor
      · intro h
        exact absurd h (save_image_created_unsupported _ _ _)
      · intro h
        exact absurd (Or.inl h8) h
    · rw [if_neg h8]
      by_cases hh : save_bit_depth = 10 ∨ save_bit_depth = 12
      · rw [if_pos hh]
        constructor
        · intro h
          exact absurd h (save_image_created_unsupported _ _ _)
        · intro h
          exact absurd (Or.inr hh) h
      · rw [if_neg hh]
        constructor
        · intro _ h
          rcases h with h | h
          · exact h8 h
          · exact hh h
        · intro _
          rfl
  · unfold save_image_start
    rw [if_neg (by decide), if_neg (by decide), if_neg (by decide)]
    rfl
  · unfold save_image_start
    rw [if_neg (by decide), if_neg (by decide), if_neg (by decide)]
    rfl

/-- C20: for every call of `heif_save` and of `heif_av1_save` in the run mode
`GIMP_RUN_NONINTERACTIVE` with `n_drawables != 1`, the procedure returns the status
`GIMP_PDB_CALLING_ERROR` with the error 'HEIF format does not support multiple layers.' and
makes no call of `save_image`. -/
theorem C20_single_layer_only (env : SaveEnv) (n_drawables : Int) (h : n_drawables ≠ 1) :
    heif_save env GimpRunMode.GIMP_RUN_NONINTERACTIVE n_drawables =
      ⟨GimpPDBStatusType.GIMP_PDB_CALLING_ERROR,
       some "HEIF format does not support multiple layers.", []⟩ ∧
    heif_av1_save env GimpRunMode.GIMP_RUN_NONINTERACTIVE n_drawables =
      ⟨GimpPDBStatusType.GIMP_PDB_CALLING_ERROR,
       some "HEIF format does not support multiple layers.", []⟩ := by
  unfold heif_save heif_av1_save heif_save_body heif_save_rest
  simp only [if_pos h, and_self]

/-- C20, witness: a call with two drawables, in an environment whose `save_image` would
succeed. -/
theorem C20_single_layer_only_witness :
    (2 : Int) ≠ 1 ∧
    heif_save ⟨fun n => (GimpExportReturn.GIMP_EXPORT_IGNORE, n), true, fun _ => (true, none)⟩
        GimpRunMode.GIMP_RUN_NONINTERACTIVE 2 =
      ⟨GimpPDBStatusType.GIMP_PDB_CALLING_ERROR,
       some "HEIF format does not support multiple layers.", []⟩ ∧
    heif_av1_save ⟨fun n => (GimpExportReturn.GIMP_EXPORT_IGNORE, n), true, fun _ => (true, none)⟩
        GimpRunMode.GIMP_RUN_NONINTERACTIVE 2 =
      ⟨GimpPDBStatusType.GIMP_PDB_CALLING_ERROR,
       some "HEIF format does not support multiple layers.", []⟩ :=
  ⟨by decide, C20_single_layer_only
    ⟨fun n => (GimpExportReturn.GIMP_EXPORT_IGNORE, n), true, fun _ => (true, none)⟩ 2
    (by decide)⟩

/-! ## Claims on the text tags and the constructor arguments of the synthesized profile -/

theorem nclx_general_path_text_tags (lib : ColorLib) (nclx : heif_color_profile_nclx)
    (name : String) (hm : primaries_name_of nclx.color_primaries = some name)
    (hs : ¬ (nclx.color_primaries = heif_color_primaries_ITU_R_BT_709_5 ∧
      nclx.transfer_characteristics = heif_transfer_characteristic_IEC_61966_2_1))
    (hl : ¬ (nclx.color_primaries = heif_color_primaries_ITU_R_BT_709_5 ∧
      nclx.transfer_characteristics = heif_transfer_characteristic_linear))
    (h1 : ∀ w p c, lib.cmsCreateRGBProfile_ok w p c = true)
    (h2 : ∀ p, lib.gimp_color_profile_new_from_lcms_profile_ok p = true) :
    (nclx_to_gimp_profile lib (some nclx)).bind GimpColorProfile.text_tags =
      some (name ++ " " ++ (trc_of nclx.transfer_characteristics).2, "GIMP",
        name ++ " " ++ (trc_of nclx.transfer_characteristics).2, "Public Domain") := by
  rw [nclx_general_path_ok lib nclx name hm hs hl h1 h2]
  rfl

theorem trc_name_eq (t : Nat) :
    (trc_of t).2 =
      if t = 1 then "Rec709 RGB"
      else if t = 4 then "Gamma2.2 RGB"
      else if t = 5 then "Gamma2.8 RGB"
      else if t = 8 then "linear RGB"
      else "sRGB-TRC RGB" := by
  unfold trc_of heif_transfer_characteristic_ITU_R_BT_709_5
    heif_transfer_characteristic_ITU_R_BT_470_6_System_M
    heif_transfer_characteristic_ITU_R_BT_470_6_System_B_G heif_transfer_characteristic_linear
  by_cases h1 : t = 1
  · rw [if_pos h1, if_pos h1]
  · rw [if_neg h1, if_neg h1]
    by_cases h4 : t = 4
    · rw [if_pos h4, if_pos h4]
    · rw [if_neg h4, if_neg h4]
      by_cases h5 : t = 5
      · rw [if_pos h5, if_pos h5]
      · rw [if_neg h5, if_neg h5]
        by_cases h8 : t = 8
        · rw [if_pos h8, if_pos h8]
        · rw [if_neg h8, if_neg h8]

/-- C21, counterexample: for BT.2020 primaries (9) with BT.709 transfer (1) the description
of the synthesized profile is 'BT.2020 Rec709 RGB', not 'BT.2020 Rec709': every `trc_name`
of the code ends in ' RGB'. -/
theorem C21_profile_text_counterexample :
    (nclx_to_gimp_profile ⟨fun _ _ _ => true, fun _ => true⟩
      (some ⟨9, 1, 0, 0, 0.708, 0.292, 0.17, 0.797, 0.131, 0.046, 0.3127, 0.329⟩)).bind
        GimpColorProfile.text_tags =
      some ("BT.2020 Rec709 RGB", "GIMP", "BT.2020 Rec709 RGB", "Public Domain") ∧
    "BT.2020 Rec709 RGB" ≠ "BT.2020 Rec709" := by
  constructor
  · have a := nclx_general_path_text_tags ⟨fun _ _ _ => true, fun _ => true⟩
      ⟨9, 1, 0, 0, 0.708, 0.292, 0.17, 0.797, 0.131, 0.046, 0.3127, 0.329⟩ "BT.2020" rfl
      (by decide) (by decide) (fun _ _ _ => rfl) (fun _ => rfl)
    rw [a]
    decide
  · decide

/-- C21, amended: for every descriptor on the synthesis path, when the library calls
succeed, the description of the synthesized profile is exactly the primaries name, one
space, and the curve label, where the curve label is 'Rec709 RGB' for the transfer code 1,
'Gamma2.2 RGB' for 4, 'Gamma2.8 RGB' for 5, 'linear RGB' for 8 and 'sRGB-TRC RGB' for every
other code; the model equals the description, the manufacturer is 'GIMP' and the copyright
is 'Public Domain'. -/
theorem C21_profile_text_amended (lib : ColorLib) (nclx : heif_color_profile_nclx)
    (name : String) (hm : primaries_name_of nclx.color_primaries = some name)
    (hs : ¬ (nclx.color_primaries = heif_color_primaries_ITU_R_BT_709_5 ∧
      nclx.transfer_characteristics = heif_transfer_characteristic_IEC_61966_2_1))
    (hl : ¬ (nclx.color_primaries = heif_color_primaries_ITU_R_BT_709_5 ∧
      nclx.transfer_characteristics = heif_transfer_characteristic_linear))
    (h1 : ∀ w p c, lib.cmsCreateRGBProfile_ok w p c = true)
    (h2 : ∀ p, lib.gimp_color_profile_new_from_lcms_profile_ok p = true) :
    (nclx_to_gimp_profile lib (some nclx)).bind GimpColorProfile.text_tags =
      some (name ++ " " ++
          (if nclx.transfer_characteristics = 1 then "Rec709 RGB"
           else if nclx.transfer_characteristics = 4 then "Gamma2.2 RGB"
           else if nclx.transfer_characteristics = 5 then "Gamma2.8 RGB"
           else if nclx.transfer_characteristics = 8 then "linear RGB"
           else "sRGB-TRC RGB"),
        "GIMP",
        name ++ " " ++
          (if nclx.transfer_characteristics = 1 then "Rec709 RGB"
           else if nclx.transfer_characteristics = 4 then "Gamma2.2 RGB"
           else if nclx.transfer_characteristics = 5 then "Gamma2.8 RGB"
           else if nclx.transfer_characteristics = 8 then "linear RGB"
           else "sRGB-TRC RGB"),
        "Public Domain") := by
  rw [nclx_general_path_text_tags lib nclx name hm hs hl h1 h2, trc_name_eq]

/-- C21, witness: BT.2020 primaries with BT.709 transfer give the description
'BT.2020 Rec709 RGB'. -/
theorem C21_profile_text_witness :
    primaries_name_of 9 = some "BT.2020" ∧
    (nclx_to_gimp_profile ⟨fun _ _ _ => true, fun _ => true⟩
      (some ⟨9, 1, 0, 0, 0.708, 0.292, 0.17, 0.797, 0.131, 0.046, 0.3127, 0.329⟩)).bind
        GimpColorProfile.text_tags =
      some ("BT.2020 Rec709 RGB", "GIMP", "BT.2020 Rec709 RGB", "Public Domain") :=
  ⟨rfl, (C21_profile_text_amended ⟨fun _ _ _ => true, fun _ => true⟩
    ⟨9, 1, 0, 0, 0.708, 0.292, 0.17, 0.797, 0.131, 0.046, 0.3127, 0.329⟩ "BT.2020" rfl
    (by decide) (by decide) (fun _ _ _ => rfl) (fun _ => rfl)).trans (by decide)⟩

/-- C22: for every descriptor on the synthesis path, the white point and the primaries
handed to `cmsCreateRGBProfile` are the descriptor's eight coordinate fields, each with
`Y = 1`, and they are the white point and primaries of the returned profile; replacing the
`color_primaries` code by another mapped code off the shortcuts changes neither them nor the
tone curves of the returned profile. -/
theorem C22_chromaticities_copied (lib : ColorLib) (nclx : heif_color_profile_nclx)
    (name : String) (hm : primaries_name_of nclx.color_primaries = some name)
    (hs : ¬ (nclx.color_primaries = heif_color_primaries_ITU_R_BT_709_5 ∧
      nclx.transfer_characteristics = heif_transfer_characteristic_IEC_61966_2_1))
    (hl : ¬ (nclx.color_primaries = heif_color_primaries_ITU_R_BT_709_5 ∧
      nclx.transfer_characteristics = heif_transfer_characteristic_linear)) :
    nclx_to_gimp_profile lib (some nclx) =
      (if lib.cmsCreateRGBProfile_ok
          ⟨nclx.color_primary_white_x, nclx.color_primary_white_y, 1⟩
          ⟨⟨nclx.color_primary_red_x, nclx.color_primary_red_y, 1⟩,
           ⟨nclx.color_primary_green_x, nclx.color_primary_green_y, 1⟩,
           ⟨nclx.color_primary_blue_x, nclx.color_primary_blue_y, 1⟩⟩
          (trc_of nclx.transfer_characteristics).1 = true then
        (if lib.gimp_color_profile_new_from_lcms_profile_ok (nclx_lcms_profile nclx name) = true
          then some (GimpColorProfile.from_lcms (nclx_lcms_profile nclx name)) else none)
      else none) ∧
    (nclx_lcms_profile nclx name).whitepoint =
      ⟨nclx.color_primary_white_x, nclx.color_primary_white_y, 1⟩ ∧
    (nclx_lcms_profile nclx name).primaries =
      ⟨⟨nclx.color_primary_red_x, nclx.color_primary_red_y, 1⟩,
       ⟨nclx.color_primary_green_x, nclx.color_primary_green_y, 1⟩,
       ⟨nclx.color_primary_blue_x, nclx.color_primary_blue_y, 1⟩⟩ ∧
    (∀ (color_primaries : Nat) (other : String),
      primaries_name_of color_primaries = some other →
      color_primaries ≠ heif_color_primaries_ITU_R_BT_709_5 →
      (∀ w p c, lib.cmsCreateRGBProfile_ok w p c = true) →
      (∀ p, lib.gimp_color_profile_new_from_lcms_profile_ok p = true) →
      (nclx_to_gimp_profile lib
          (some { nclx with color_primaries := color_primaries })).bind
            GimpColorProfile.chromaticities =
        (nclx_to_gimp_profile lib (some nclx)).bind GimpColorProfile.chromaticities ∧
      (nclx_to_gimp_profile lib
          (some { nclx with color_primaries := color_primaries })).bind
            GimpColorProfile.curves =
        (nclx_to_gimp_profile lib (some nclx)).bind GimpColorProfile.curves) := by
  refine ⟨nclx_general_path lib nclx name hm hs hl, rfl, rfl, ?_⟩
  intro p other hp hn h1 h2
  have hs2 : ¬ (({ nclx with color_primaries := p } : heif_color_profile_nclx).color_primaries =
        heif_color_primaries_ITU_R_BT_709_5 ∧
      ({ nclx with color_primaries := p } : heif_color_profile_nclx).transfer_characteristics =
        heif_transfer_characteristic_IEC_61966_2_1) := fun h => hn h.1
  have hl2 : ¬ (({ nclx with color_primaries := p } : heif_color_profile_nclx).color_primaries =
        heif_color_primaries_ITU_R_BT_709_5 ∧
      ({ nclx with color_primaries := p } : heif_color_profile_nclx).transfer_characteristics =
        heif_transfer_characteristic_linear) := fun h => hn h.1
  constructor
  · rw [nclx_general_path_chromaticities lib _ other hp hs2 hl2 h1 h2,
      nclx_general_path_chromaticities lib nclx name hm hs hl h1 h2]
  · rw [nclx_general_path_curves lib _ other hp hs2 hl2 h1 h2,
      nclx_general_path_curves lib nclx name hm hs hl h1 h2]

/-- C22, witness: the BT.2020 descriptor with BT.709 transfer; with a library that always
succeeds the returned profile carries the descriptor's coordinates. -/
theorem C22_chromaticities_copied_witness :
    primaries_name_of 9 = some "BT.2020" ∧
    nclx_to_gimp_profile ⟨fun _ _ _ => true, fun _ => true⟩
      (some ⟨9, 1, 0, 0, 0.708, 0.292, 0.17, 0.797, 0.131, 0.046, 0.3127, 0.329⟩) =
      some (GimpColorProfile.from_lcms
        (nclx_lcms_profile ⟨9, 1, 0, 0, 0.708, 0.292, 0.17, 0.797, 0.131, 0.046, 0.3127, 0.329⟩
          "BT.2020")) ∧
    (nclx_lcms_profile ⟨9, 1, 0, 0, 0.708, 0.292, 0.17, 0.797, 0.131, 0.046, 0.3127, 0.329⟩
      "BT.2020").whitepoint = ⟨0.3127, 0.329, 1⟩ :=
  ⟨rfl,
    (C22_chromaticities_copied ⟨fun _ _ _ => true, fun _ => true⟩
      ⟨9, 1, 0, 0, 0.708, 0.292, 0.17, 0.797, 0.131, 0.046, 0.3127, 0.329⟩ "BT.2020" rfl
      (by decide) (by decide)).1,
    (C22_chromaticities_copied ⟨fun _ _ _ => true, fun _ => true⟩
      ⟨9, 1, 0, 0, 0.708, 0.292, 0.17, 0.797, 0.131, 0.046, 0.3127, 0.329⟩ "BT.2020" rfl
      (by decide) (by decide)).2.1⟩

/-- C25: the NCLX descriptor `save_image` attaches when `save-color-profile` is off has
`color_primaries` BT.709, `transfer_characteristics` IEC 61966-2-1, matrix BT.601 and
`full_range_flag` 1, and `nclx_to_gimp_profile` maps it to the built-in sRGB profile, whatever
its unassigned chromaticity fields hold and whatever the library calls would return. -/
theorem C25_export_nclx_reads_back_srgb (lib : ColorLib)
    (uninitialized : heif_color_profile_nclx) :
    (save_nclx_profile uninitialized).color_primaries = heif_color_primaries_ITU_R_BT_709_5 ∧
    (save_nclx_profile uninitialized).transfer_characteristics =
      heif_transfer_characteristic_IEC_61966_2_1 ∧
    (save_nclx_profile uninitialized).matrix_coefficients =
      heif_matrix_coefficients_ITU_R_BT_601_6 ∧
    (save_nclx_profile uninitialized).full_range_flag = 1 ∧
    nclx_to_gimp_profile lib (some (save_nclx_profile uninitialized)) =
      some GimpColorProfile.rgb_srgb := by
  refine ⟨rfl, rfl, rfl, rfl, ?_⟩
  have hp : (save_nclx_profile uninitialized).color_primaries =
      heif_color_primaries_ITU_R_BT_709_5 := rfl
  have ht : (save_nclx_profile uninitialized).transfer_characteristics =
      heif_transfer_characteristic_IEC_61966_2_1 := rfl
  have hu : heif_color_primaries_ITU_R_BT_709_5 ≠ heif_color_primaries_unspecified := by decide
  unfold nclx_to_gimp_profile
  simp only [hp, ht, if_neg hu, and_self, if_true]

/-! ## Claims on the export branch and on the masking of imported words -/

theorem save_image_start_created (context : Bool) (save_bit_depth : Int)
    (has_alpha little_endian : Bool) (create_error : Option String) (chroma : heif_chroma)
    (calls : List SaveCall)
    (h : save_image_start context save_bit_depth has_alpha little_endian create_error =
      SaveStart.created chroma calls) :
    save_bit_depth = 8 ∨ save_bit_depth = 10 ∨ save_bit_depth = 12 := by
  unfold save_image_start at h
  by_cases hc : context = false
  · rw [if_pos hc] at h
    exact SaveStart.noConfusion h
  · rw [if_neg hc] at h
    by_cases h8 : save_bit_depth = 8
    · exact Or.inl h8
    · rw [if_neg h8] at h
      by_cases hh : save_bit_depth = 10 ∨ save_bit_depth = 12
      · exact Or.inr hh
      · rw [if_neg hh] at h
        exact SaveStart.noConfusion h

theorem save_image_export_some (context : Bool) (save_bit_depth : Int)
    (has_alpha little_endian : Bool) (create_error : Option String) (data16 : Nat → Nat)
    (stride width height : Nat) (branch : ExportBranch) (stores : List (Nat × Nat))
    (h : save_image_export context save_bit_depth has_alpha little_endian create_error data16
      stride width height = some (branch, stores)) :
    (save_bit_depth = 8 ∨ save_bit_depth = 10 ∨ save_bit_depth = 12) ∧
    branch = save_export_branch save_bit_depth ∧
    (save_bit_depth > 8 →
      stores = save_rows (save_convert save_bit_depth.toNat) data16 stride
        (if has_alpha then width * 4 else width * 3) 0 0 height) := by
  unfold save_image_export at h
  cases hs : save_image_start context save_bit_depth has_alpha little_endian create_error with
  | returned_false e c =>
    rw [hs] at h
    exact Option.noConfusion h
  | created chroma calls =>
    rw [hs] at h
    refine ⟨save_image_start_created _ _ _ _ _ _ _ hs, ?_, ?_⟩
    · by_cases hd : save_bit_depth > 8
      · simp only [if_pos hd] at h
        exact ((Prod.mk.inj (Option.some.inj h)).1).symm
      · simp only [if_neg hd] at h
        exact ((Prod.mk.inj (Option.some.inj h)).1).symm
    · intro hd
      simp only [if_pos hd] at h
      exact ((Prod.mk.inj (Option.some.inj h)).2).symm

theorem save_rows_congr (f g : Nat → Nat) (hfg : ∀ w, f w = g w) (data16 : Nat → Nat)
    (stride rowentries y src16 n : Nat) :
    save_rows f data16 stride rowentries y src16 n =
      save_rows g data16 stride rowentries y src16 n := by
  have e : f = g := funext hfg
  rw [e]

/-- C23: whenever `save_image` reaches its export code with `save_bit_depth > 8`,
`save_bit_depth` is 10 or 12, the branch taken in the second `switch (save_bit_depth)` is
`case 10` or `case 12` and never the plain-copy `default`, and every word stored by the loops
is the rescaled value `save_pixel_10` or `save_pixel_12` of the source word. -/
theorem C23_export_default_unreachable (context : Bool) (save_bit_depth : Int)
    (has_alpha little_endian : Bool) (create_error : Option String) (data16 : Nat → Nat)
    (stride width height : Nat) (branch : ExportBranch) (stores : List (Nat × Nat))
    (h : save_image_export context save_bit_depth has_alpha little_endian create_error data16
      stride width height = some (branch, stores))
    (hd : save_bit_depth > 8) :
    (save_bit_depth = 10 ∨ save_bit_depth = 12) ∧
    branch ≠ ExportBranch.default_copy ∧
    ((save_bit_depth = 10 ∧ branch = ExportBranch.case_10 ∧
        stores = save_rows save_pixel_10 data16 stride
          (if has_alpha then width * 4 else width * 3) 0 0 height) ∨
     (save_bit_depth = 12 ∧ branch = ExportBranch.case_12 ∧
        stores = save_rows save_pixel_12 data16 stride
          (if has_alpha then width * 4 else width * 3) 0 0 height)) := by
  obtain ⟨hv, hb, hst⟩ := save_image_export_some _ _ _ _ _ _ _ _ _ _ _ h
  have hst2 := hst hd
  rcases hv with h8 | h10 | h12
  · omega
  · subst h10
    have eb : save_export_branch 10 = ExportBranch.case_10 := by decide
    rw [eb] at hb
    refine ⟨Or.inl rfl, ?_, Or.inl ⟨rfl, hb, ?_⟩⟩
    · rw [hb]
      exact fun e => ExportBranch.noConfusion e
    · rw [hst2]
      exact save_rows_congr _ _ save_convert_10 _ _ _ _ _ _
  · subst h12
    have eb : save_export_branch 12 = ExportBranch.case_12 := by decide
    rw [eb] at hb
    refine ⟨Or.inr rfl, ?_, Or.inr ⟨rfl, hb, ?_⟩⟩
    · rw [hb]
      exact fun e => ExportBranch.noConfusion e
    · rw [hst2]
      exact save_rows_congr _ _ save_convert_12 _ _ _ _ _ _

/-- C23, witness: a 10-bit export of a one-pixel image without alpha reaches the export
code, takes `case 10` and stores three rescaled words. -/
theorem C23_export_default_unreachable_witness :
    save_image_export true 10 false true none (fun _ => 65535) 6 1 1 =
      some (ExportBranch.case_10, save_rows (save_convert 10) (fun _ => 65535) 6 3 0 0 1) ∧
    ((10 : Int) = 10 ∨ (10 : Int) = 12) ∧
    ExportBranch.case_10 ≠ ExportBranch.default_copy :=
  ⟨rfl,
    (C23_export_default_unreachable true 10 false true none (fun _ => 65535) 6 1 1
      ExportBranch.case_10 (save_rows (save_convert 10) (fun _ => 65535) 6 3 0 0 1) rfl
      (by decide)).1,
    (C23_export_default_unreachable true 10 false true none (fun _ => 65535) 6 1 1
      ExportBranch.case_10 (save_rows (save_convert 10) (fun _ => 65535) 6 3 0 0 1) rfl
      (by decide)).2.1⟩

theorem load_pixel_10_mod (w : Nat) : load_pixel_10 (w % 1024) = load_pixel_10 w := by
  rw [load_pixel_10_eq, load_pixel_10_eq, Nat.mod_mod]

theorem load_pixel_12_mod (w : Nat) : load_pixel_12 (w % 4096) = load_pixel_12 w := by
  rw [load_pixel_12_eq, load_pixel_12_eq, Nat.mod_mod]

theorem pow_two_10 : (2 : Nat) ^ 10 = 1024 := by norm_num

theorem pow_two_12 : (2 : Nat) ^ 12 = 4096 := by norm_num

/-- C24: for `d` in {10, 12} and every source word `w`, the import conversion of `w` equals
the conversion of `w AND (2^d - 1)`, and two source words that agree in their low `d` bits
are converted to the same 16-bit value. -/
theorem C24_import_ignores_high_bits (d w v : Nat) (hd : d = 10 ∨ d = 12) :
    load_convert d w = load_convert d (w &&& (2 ^ d - 1)) ∧
    (w % 2 ^ d = v % 2 ^ d → load_convert d w = load_convert d v) := by
  rw [Nat.and_pow_two_sub_one_eq_mod]
  rcases hd with h | h
  · rw [h, pow_two_10, load_convert_10, load_convert_10, load_pixel_10_mod]
    refine ⟨rfl, ?_⟩
    intro e
    rw [load_convert_10, ← load_pixel_10_mod w, e, load_pixel_10_mod]
  · rw [h, pow_two_12, load_convert_12, load_convert_12, load_pixel_12_mod]
    refine ⟨rfl, ?_⟩
    intro e
    rw [load_convert_12, ← load_pixel_12_mod w, e, load_pixel_12_mod]

/-- C24, witness: the words `0xfc00 + 820` and 820 agree in their low 10 bits and are
imported to the same value. -/
theorem C24_import_ignores_high_bits_witness :
    (10 = 10 ∨ 10 = 12) ∧ 65332 % 2 ^ 10 = 820 % 2 ^ 10 ∧
    load_convert 10 65332 = load_convert 10 820 :=
  ⟨Or.inl rfl, by norm_num,
    (C24_import_ignores_high_bits 10 65332 820 (Or.inl rfl)).2 (by norm_num)⟩

/-! ## Claims on the search for the TIFF header -/

theorem tiff_header_test_reads (exif_data : List Nat) (tiffheader : Nat) (h : List Nat)
    (i : Nat) (hi : i ∈ (tiff_header_test exif_data tiffheader h).2) : i < tiffheader + 3 := by
  unfold tiff_header_test at hi
  split at hi
  · split at hi
    · split at hi
      · simp only [List.mem_cons, List.mem_singleton, List.not_mem_nil, or_false] at hi
        omega
      · simp only [List.mem_cons, List.mem_singleton, List.not_mem_nil, or_false] at hi
        omega
    · simp only [List.mem_cons, List.mem_singleton, List.not_mem_nil, or_false] at hi
      omega
  · simp only [List.mem_cons, List.mem_singleton, List.not_mem_nil, or_false] at hi
    omega

theorem exif_search_loop_spec (exif_data : List Nat) (n : Nat) : ∀ t : Nat,
    (exif_search_loop exif_data t n).tiffheader + (exif_search_loop exif_data t n).new_exif_size
      = t + n ∧
    (∀ s ∈ (exif_search_loop exif_data t n).states, s.1 + s.2 = t + n) ∧
    (∀ i ∈ (exif_search_loop exif_data t n).reads, i < t + n) ∧
    (exif_search_loop exif_data t n).iterations ≤ n - 3 ∧
    ((exif_search_loop exif_data t n).found = false →
      (exif_search_loop exif_data t n).new_exif_size ≤ 3) ∧
    ((exif_search_loop exif_data t n).found = true →
      4 ≤ (exif_search_loop exif_data t n).new_exif_size) := by
  induction n with
  | zero =>
    intro t
    refine ⟨rfl, ?_, ?_, Nat.le_refl 0, fun _ => Nat.zero_le 3, ?_⟩
    · intro s hs
      have e : s = (t, 0) := List.mem_singleton.mp hs
      rw [e]
    · intro i hi
      exact absurd hi (List.not_mem_nil i)
    · intro h
      exact Bool.noConfusion h
  | succ n ih =>
    intro t
    rw [exif_search_loop]
    by_cases h4 : n + 1 ≥ 4
    · rw [if_pos h4]
      by_cases hbe : (tiff_header_test exif_data t tiffHeaderBE).1 = true
      · rw [if_pos hbe]
        refine ⟨rfl, ?_, ?_, ?_, ?_, ?_⟩
        · intro s hs
          have e : s = (t, n + 1) := List.mem_singleton.mp hs
          rw [e]
        · intro i hi
          have := tiff_header_test_reads exif_data t tiffHeaderBE i hi
          omega
        · show 1 ≤ n + 1 - 3
          omega
        · intro h
          exact Bool.noConfusion h
        · intro _
          exact h4
      · rw [if_neg hbe]
        by_cases hle : (tiff_header_test exif_data t tiffHeaderLE).1 = true
        · rw [if_pos hle]
          refine ⟨rfl, ?_, ?_, ?_, ?_, ?_⟩
          · intro s hs
            have e : s = (t, n + 1) := List.mem_singleton.mp hs
            rw [e]
          · intro i hi
            rcases List.mem_append.mp hi with hi | hi
            · have := tiff_header_test_reads exif_data t tiffHeaderBE i hi
              omega
            · have := tiff_header_test_reads exif_data t tiffHeaderLE i hi
              omega
          · show 1 ≤ n + 1 - 3
            omega
          · intro h
            exact Bool.noConfusion h
          · intro _
            exact h4
        · rw [if_neg hle]
          obtain ⟨a, b, c, d, e, f⟩ := ih (t + 1)
          refine ⟨?_, ?_, ?_, ?_, e, f⟩
          · show (exif_search_loop exif_data (t + 1) n).tiffheader +
              (exif_search_loop exif_data (t + 1) n).new_exif_size = t + (n + 1)
            omega
          · intro s hs
            rcases List.mem_cons.mp hs with hs | hs
            · rw [hs]
            · have := b s hs
              omega
          · intro i hi
            rcases List.mem_append.mp hi with hi | hi
            · rcases List.mem_append.mp hi with hi | hi
              · have := tiff_header_test_reads exif_data t tiffHeaderBE i hi
                omega
              · have := tiff_header_test_reads exif_data t tiffHeaderLE i hi
                omega
            · have := c i hi
              omega
          · show (exif_search_loop exif_data (t + 1) n).iterations + 1 ≤ n + 1 - 3
            omega
    · rw [if_neg h4]
      refine ⟨rfl, ?_, ?_, Nat.zero_le _, ?_, ?_⟩
      · intro s hs
        have e : s = (t, n + 1) := List.mem_singleton.mp hs
        rw [e]
      · intro i hi
        exact absurd hi (List.not_mem_nil i)
      · intro _
        show n + 1 ≤ 3
        omega
      · intro h
        exact Bool.noConfusion h

/-- C26: on the EXIF block 'M','M',0,0,'M','M',0,42,0,0,0,8 the search of `load_image`
leaves its loop by `break` at offset 0, where the four bytes 'M','M',0,0 are not a TIFF
header (the header is at offset 4), and the metadata parser is given the whole block; the
same happens for 'I','I',42,42 in front of 'I','I',42,0.  The loop condition compares
`tiffheader[2]` twice and never `tiffheader[3]`. -/
theorem C26_exif_search_skips_fourth_byte :
    (exif_search [77, 77, 0, 0, 77, 77, 0, 42, 0, 0, 0, 8]).found = true ∧
    (exif_search [77, 77, 0, 0, 77, 77, 0, 42, 0, 0, 0, 8]).tiffheader = 0 ∧
    (exif_search [77, 77, 0, 0, 77, 77, 0, 42, 0, 0, 0, 8]).new_exif_size = 12 ∧
    is_tiff_header_at [77, 77, 0, 0, 77, 77, 0, 42, 0, 0, 0, 8] 0 = false ∧
    is_tiff_header_at [77, 77, 0, 0, 77, 77, 0, 42, 0, 0, 0, 8] 4 = true ∧
    exif_open_buf [77, 77, 0, 0, 77, 77, 0, 42, 0, 0, 0, 8] =
      some [77, 77, 0, 0, 77, 77, 0, 42, 0, 0, 0, 8] ∧
    (exif_search [73, 73, 42, 42, 73, 73, 42, 0, 8, 0, 0, 0]).tiffheader = 0 ∧
    is_tiff_header_at [73, 73, 42, 42, 73, 73, 42, 0, 8, 0, 0, 0] 0 = false ∧
    (exif_search [0, 0, 0, 6, 69, 120, 105, 102, 0, 0, 77, 77, 0, 42, 0, 0, 0, 8]).tiffheader
      = 10 := by
  decide

/-- C27: throughout the search loop the offset of `tiffheader` plus `new_exif_size` equals
`exif_data_size`; every byte index read is below `exif_data_size`; the loop body runs at most
`exif_data_size - 3` times (not at all when `exif_data_size < 4`); and when the loop is left
without `break`, `new_exif_size <= 3` and `gexiv2_metadata_open_buf` is not called. -/
theorem C27_exif_search_in_bounds (exif_data : List Nat) :
    (∀ s ∈ (exif_search exif_data).states, s.1 + s.2 = exif_data.length) ∧
    (exif_search exif_data).tiffheader + (exif_search exif_data).new_exif_size =
      exif_data.length ∧
    (∀ i ∈ (exif_search exif_data).reads, i < exif_data.length) ∧
    (exif_search exif_data).iterations ≤ exif_data.length - 3 ∧
    (exif_data.length < 4 → (exif_search exif_data).iterations = 0) ∧
    ((exif_search exif_data).found = false →
      (exif_search exif_data).new_exif_size ≤ 3 ∧ exif_open_buf exif_data = none) := by
  obtain ⟨a, b, c, d, e, _⟩ := exif_search_loop_spec exif_data exif_data.length 0
  rw [Nat.zero_add] at a b c
  refine ⟨b, a, c, d, ?_, ?_⟩
  · intro h
    have d2 : (exif_search exif_data).iterations ≤ exif_data.length - 3 := d
    omega
  · intro h
    have e2 : (exif_search exif_data).new_exif_size ≤ 3 := e h
    refine ⟨e2, ?_⟩
    unfold exif_open_buf
    rw [if_neg (by omega)]

/-- C27, witness: a seven-byte block without a header; the loop body runs four times and
no buffer is opened. -/
theorem C27_exif_search_in_bounds_witness :
    (exif_search [1, 2, 3, 4, 5, 6, 7]).found = false ∧
    (exif_search [1, 2, 3, 4, 5, 6, 7]).iterations = 4 ∧
    (exif_search [1, 2, 3, 4, 5, 6, 7]).new_exif_size ≤ 3 ∧
    exif_open_buf [1, 2, 3, 4, 5, 6, 7] = none :=
  ⟨by decide, by decide,
    ((C27_exif_search_in_bounds [1, 2, 3, 4, 5, 6, 7]).2.2.2.2.2 (by decide)).1,
    ((C27_exif_search_in_bounds [1, 2, 3, 4, 5, 6, 7]).2.2.2.2.2 (by decide)).2⟩

/-! ## Claims on the save dialog and on the format selection of `load_image` -/

theorem save_dialog_bit_depth_u8 (precision : GimpPrecision) (b : Int)
    (h : precision ∈ [GimpPrecision.GIMP_PRECISION_U8_LINEAR,
      GimpPrecision.GIMP_PRECISION_U8_NON_LINEAR, GimpPrecision.GIMP_PRECISION_U8_PERCEPTUAL]) :
    save_dialog_bit_depth precision b = if b > 8 then (8, [8]) else (b, []) := by
  simp only [List.mem_cons, List.mem_singleton, List.not_mem_nil, or_false] at h
  rcases h with h | h | h <;> rw [h] <;> rfl

theorem save_dialog_bit_depth_high (precision : GimpPrecision) (b : Int)
    (h : precision ∉ [GimpPrecision.GIMP_PRECISION_U8_LINEAR,
      GimpPrecision.GIMP_PRECISION_U8_NON_LINEAR, GimpPrecision.GIMP_PRECISION_U8_PERCEPTUAL]) :
    save_dialog_bit_depth precision b = if b < 10 then (10, [10]) else (b, []) := by
  cases precision
  case GIMP_PRECISION_U8_LINEAR => exact absurd (by decide) h
  case GIMP_PRECISION_U8_NON_LINEAR => exact absurd (by decide) h
  case GIMP_PRECISION_U8_PERCEPTUAL => exact absurd (by decide) h
  all_goals rfl

/-- C28: for every configured `save-bit-depth` `b` in 8..12, the precision switch of
`save_dialog` leaves the config at 8 when the image precision is one of the three 8-bit
precisions and at `max (b, 10)` otherwise; it calls `g_object_set` only when the value
changes; the result is never 9, and it is 8 exactly when the image is 8-bit. -/
theorem C28_save_dialog_normalises (precision : GimpPrecision) (b : Int) (h8 : 8 ≤ b)
    (h12 : b ≤ 12) :
    (precision ∈ [GimpPrecision.GIMP_PRECISION_U8_LINEAR,
        GimpPrecision.GIMP_PRECISION_U8_NON_LINEAR,
        GimpPrecision.GIMP_PRECISION_U8_PERCEPTUAL] →
      (save_dialog_bit_depth precision b).1 = 8) ∧
    (precision ∉ [GimpPrecision.GIMP_PRECISION_U8_LINEAR,
        GimpPrecision.GIMP_PRECISION_U8_NON_LINEAR,
        GimpPrecision.GIMP_PRECISION_U8_PERCEPTUAL] →
      (save_dialog_bit_depth precision b).1 = max b 10) ∧
    (save_dialog_bit_depth precision b).2 =
      (if (save_dialog_bit_depth precision b).1 = b then []
       else [(save_dialog_bit_depth precision b).1]) ∧
    (save_dialog_bit_depth precision b).1 ≠ 9 ∧
    ((save_dialog_bit_depth precision b).1 = 8 ↔
      precision ∈ [GimpPrecision.GIMP_PRECISION_U8_LINEAR,
        GimpPrecision.GIMP_PRECISION_U8_NON_LINEAR,
        GimpPrecision.GIMP_PRECISION_U8_PERCEPTUAL]) := by
  by_cases hp : precision ∈ [GimpPrecision.GIMP_PRECISION_U8_LINEAR,
      GimpPrecision.GIMP_PRECISION_U8_NON_LINEAR, GimpPrecision.GIMP_PRECISION_U8_PERCEPTUAL]
  · rw [save_dialog_bit_depth_u8 precision b hp]
    by_cases hb : b > 8
    · rw [if_pos hb]
      refine ⟨fun _ => rfl, fun h => absurd hp h, ?_, by decide, ⟨fun _ => hp, fun _ => rfl⟩⟩
      have hne : ¬ ((8 : Int) = b) := by omega
      show [(8 : Int)] = if (8 : Int) = b then [] else [8]
      rw [if_neg hne]
    · rw [if_neg hb]
      have hb8 : b = 8 := by omega
      refine ⟨fun _ => hb8, fun h => absurd hp h, ?_, ?_, ⟨fun _ => hp, fun _ => hb8⟩⟩
      · show ([] : List Int) = if b = b then [] else [b]
        rw [if_pos rfl]
      · show b ≠ 9
        omega
  · rw [save_dialog_bit_depth_high precision b hp]
    by_cases hb : b < 10
    · rw [if_pos hb]
      refine ⟨fun h => absurd h hp, fun _ => ?_, ?_, by decide, ⟨fun h => ?_, fun h => absurd h hp⟩⟩
      · show (10 : Int) = max b 10
        omega
      · have hne : ¬ ((10 : Int) = b) := by omega
        show [(10 : Int)] = if (10 : Int) = b then [] else [10]
        rw [if_neg hne]
      · exact absurd h (by decide)
    · rw [if_neg hb]
      refine ⟨fun h => absurd h hp, fun _ => ?_, ?_, ?_, ⟨fun h => ?_, fun h => absurd h hp⟩⟩
      · show b = max b 10
        omega
      · show ([] : List Int) = if b = b then [] else [b]
        rw [if_pos rfl]
      · show b ≠ 9
        omega
      · have h2 : b = 8 := h
        omega

/-- C28, witness: a 16-bit image with the configured depth 9 is set to 10 by one write, and
an 8-bit image with the configured depth 12 is set to 8. -/
theorem C28_save_dialog_normalises_witness :
    (8 : Int) ≤ 9 ∧ (9 : Int) ≤ 12 ∧
    (save_dialog_bit_depth GimpPrecision.GIMP_PRECISION_U16_NON_LINEAR 9).1 = max 9 10 ∧
    (save_dialog_bit_depth GimpPrecision.GIMP_PRECISION_U8_NON_LINEAR 12).1 = 8 :=
  ⟨by decide, by decide,
    (C28_save_dialog_normalises GimpPrecision.GIMP_PRECISION_U16_NON_LINEAR 9 (by decide)
      (by decide)).2.1 (by decide),
    (C28_save_dialog_normalises GimpPrecision.GIMP_PRECISION_U8_NON_LINEAR 12 (by decide)
      (by decide)).1 (by decide)⟩

/-- C29: for every `bit_depth >= 0`, `has_alpha` and profile, `load_image` selects a chroma
format, a precision and an encoding; they are 8-bit (RGB or RGBA chroma, a u8 precision and
encoding) exactly when `bit_depth = 8` and 16-bit (RRGGBB or RRGGBBAA chroma, a u16 precision
and encoding) otherwise; the alpha variant of chroma and encoding is chosen exactly when
`has_alpha`, and the linear precision and encoding exactly when a profile is present and
linear. -/
theorem C29_load_format_selection (bit_depth : Int) (has_alpha little_endian : Bool)
    (profile : Option Bool) (h0 : 0 ≤ bit_depth) :
    ∃ chroma precision encoding,
      load_image_formats bit_depth has_alpha little_endian profile =
        some (chroma, precision, encoding) ∧
      (chroma ∈ [heif_chroma.interleaved_RGB, heif_chroma.interleaved_RGBA] ↔ bit_depth = 8) ∧
      (chroma ∈ [heif_chroma.interleaved_RRGGBB_BE, heif_chroma.interleaved_RRGGBBAA_BE,
          heif_chroma.interleaved_RRGGBB_LE, heif_chroma.interleaved_RRGGBBAA_LE] ↔
        bit_depth ≠ 8) ∧
      (precision ∈ [GimpPrecision.GIMP_PRECISION_U8_LINEAR,
          GimpPrecision.GIMP_PRECISION_U8_NON_LINEAR] ↔ bit_depth = 8) ∧
      (precision ∈ [GimpPrecision.GIMP_PRECISION_U16_LINEAR,
          GimpPrecision.GIMP_PRECISION_U16_NON_LINEAR] ↔ bit_depth ≠ 8) ∧
      (encoding ∈ ["RGB u8", "RGBA u8", "R'G'B' u8", "R'G'B'A u8"] ↔ bit_depth = 8) ∧
      (encoding ∈ ["RGB u16", "RGBA u16", "R'G'B' u16", "R'G'B'A u16"] ↔ bit_depth ≠ 8) ∧
      (chroma ∈ [heif_chroma.interleaved_RGBA, heif_chroma.interleaved_RRGGBBAA_BE,
          heif_chroma.interleaved_RRGGBBAA_LE] ↔ has_alpha = true) ∧
      (encoding ∈ ["RGBA u8", "R'G'B'A u8", "RGBA u16", "R'G'B'A u16"] ↔ has_alpha = true) ∧
      (precision ∈ [GimpPrecision.GIMP_PRECISION_U8_LINEAR,
          GimpPrecision.GIMP_PRECISION_U16_LINEAR] ↔ profile = some true) ∧
      (encoding ∈ ["RGB u8", "RGBA u8", "RGB u16", "RGBA u16"] ↔ profile = some true) := by
  have hn : ¬ (bit_depth < 0) := by omega
  refine ⟨load_chroma bit_depth has_alpha little_endian,
    (load_precision_encoding bit_depth has_alpha profile).1,
    (load_precision_encoding bit_depth has_alpha profile).2, ?_, ?_⟩
  · unfold load_image_formats
    rw [if_neg hn]
  · unfold load_chroma load_precision_encoding
    by_cases h8 : bit_depth = 8
    · subst h8
      cases has_alpha <;> cases little_endian <;> rcases profile with _ | (_ | _) <;> decide
    · simp only [if_neg h8, ne_eq, h8, not_false_eq_true]
      cases has_alpha <;> cases little_endian <;> rcases profile with _ | (_ | _) <;> decide

/-- C29, witness: a 10-bit image with alpha and a linear profile on a little-endian host. -/
theorem C29_load_format_selection_witness :
    (0 : Int) ≤ 10 ∧
    load_image_formats 10 true true (some true) =
      some (heif_chroma.interleaved_RRGGBBAA_LE, GimpPrecision.GIMP_PRECISION_U16_LINEAR,
        "RGBA u16") ∧
    ∃ chroma precision encoding,
      load_image_formats 10 true true (some true) = some (chroma, precision, encoding) ∧
      (chroma ∈ [heif_chroma.interleaved_RGB, heif_chroma.interleaved_RGBA] ↔ (10 : Int) = 8) :=
  ⟨by decide, by decide,
    (C29_load_format_selection 10 true true (some true) (by decide)).imp
      (fun _ h => h.imp (fun _ h => h.imp (fun _ h => ⟨h.1, h.2.1⟩)))⟩

end FileHeif
